import Mathlib

/-!
# Coordinate conversion between WGS84, GCJ02 and BD09 (`main.go`, package `coord`)

Shallow embedding of `main.go`.

* A `float64` is modelled by an element of a linear ordered field `F` with exact
  arithmetic: no rounding, no overflow, no NaN.  Every definition is generic in
  `F`, so it computes over `ℚ` and is reasoned about over `ℝ`.
* The functions of Go's `math` package the program calls (`Sin`, `Cos`, `Sqrt`,
  `Atan2`) and the constant `math.Pi` are the fields of `MathLib F`.  `math.Abs`
  is the absolute value of `F`.  `realMath` is the instance over `ℝ` that gives
  them their mathematical meaning.
* The `for i := 0; i < 10000; i++` loop of `GCJ02toWGS84` is a recursion on the
  number of passes that remain.
-/

namespace GoCoord

/-- The part of Go's `math` package used by `main.go`. -/
structure MathLib (F : Type) where
  Pi : F
  Sin : F → F
  Cos : F → F
  Sqrt : F → F
  Atan2 : F → F → F

/-- `type Coord struct { System string; Longitude, Latitude float64 }`. -/
structure Coord (F : Type) where
  System : String
  Longitude : F
  Latitude : F

section Model

variable {F : Type} [LinearOrderedField F]

/-- `XPi = 52.35987755982988`. -/
def XPi : F := 52.35987755982988

/-- `Axis = 6378245.0`. -/
def Axis : F := 6378245.0

/-- `Offset = 0.00669342162296594323`. -/
def Offset : F := 0.00669342162296594323

/-- `BDLonOffset = 0.0065`. -/
def BDLonOffset : F := 0.0065

/-- `BDLatOffset = 0.0060`. -/
def BDLatOffset : F := 0.0060

/-- `func transform(lon, lat float64) (x, y float64)`. -/
def transform (m : MathLib F) (lon lat : F) : F × F :=
  let lonlat := lon * lat
  let absX := m.Sqrt |lon|
  let lonPi := lon * m.Pi
  let latPi := lat * m.Pi
  let d := 20.0 * m.Sin (6.0 * lonPi) + 20.0 * m.Sin (2.0 * lonPi)
  let x := d
  let y := d
  let x := x + (20.0 * m.Sin latPi + 40.0 * m.Sin (latPi / 3.0))
  let y := y + (20.0 * m.Sin lonPi + 40.0 * m.Sin (lonPi / 3.0))
  let x := x + (160.0 * m.Sin (latPi / 12.0) + 320 * m.Sin (latPi / 30.0))
  let y := y + (150.0 * m.Sin (lonPi / 12.0) + 300.0 * m.Sin (lonPi / 30.0))
  let x := x * (2.0 / 3.0)
  let y := y * (2.0 / 3.0)
  let x := x + (2.0 * lon + 3.0 * lat + 0.2 * lat * lat + 0.1 * lonlat + 0.2 * absX - 100.0)
  let y := y + (lon + 2.0 * lat + 0.1 * lon * lon + 0.1 * lonlat + 0.1 * absX + 300.0)
  (x, y)

/-- `func delta(lon, lat float64) (float64, float64)`. -/
def delta (m : MathLib F) (lon lat : F) : F × F :=
  let t := transform m (lon - 105.0) (lat - 35.0)
  let dlat := t.1
  let dlon := t.2
  let radlat := lat / 180.0 * m.Pi
  let magic := m.Sin radlat
  let magic := 1 - Offset * magic * magic
  let sqrtmagic := m.Sqrt magic
  let dlat := (dlat * 180.0) / ((Axis * (1 - Offset)) / (magic * sqrtmagic) * m.Pi)
  let dlon := (dlon * 180.0) / (Axis / sqrtmagic * m.Cos radlat * m.Pi)
  (lon + dlon, lat + dlat)

/-- `func InChina(lon, lat float64) bool`. -/
def InChina (lon lat : F) : Bool :=
  decide ((73.66 < lon ∧ lon < 135.05) ∧ (3.86 < lat ∧ lat < 53.55))

/-- `func WGS84toGCJ02(lon, lat float64) (float64, float64)`. -/
def WGS84toGCJ02 (m : MathLib F) (lon lat : F) : F × F :=
  if !InChina lon lat then (lon, lat)
  else delta m lon lat

/-- `func GCJ02toBD09(lon, lat float64) (float64, float64)`. -/
def GCJ02toBD09 (m : MathLib F) (lon lat : F) : F × F :=
  let z := m.Sqrt (lon * lon + lat * lat) + 0.00002 * m.Sin (lat * XPi)
  let theta := m.Atan2 lat lon + 0.000003 * m.Cos (lon * XPi)
  (z * m.Cos theta + BDLonOffset, z * m.Sin theta + BDLatOffset)

/-- `func BD09toGCJ02(lon, lat float64) (float64, float64)`. -/
def BD09toGCJ02 (m : MathLib F) (lon lat : F) : F × F :=
  let x := lon - BDLonOffset
  let y := lat - BDLatOffset
  let z := m.Sqrt (x * x + y * y) - 0.00002 * m.Sin (y * XPi)
  let theta := m.Atan2 y x - 0.000003 * m.Cos (x * XPi)
  (z * m.Cos theta, z * m.Sin theta)

/-- The variables of `GCJ02toWGS84` that live across passes of its loop. -/
structure Search (F : Type) where
  mlon : F
  mlat : F
  plon : F
  plat : F
  wgsLon : F
  wgsLat : F

/-- `threshold := 0.0000000001` in `GCJ02toWGS84`. -/
def threshold : F := 0.0000000001

/-- The variables of `GCJ02toWGS84` when its loop is entered. -/
def searchInit (lon lat : F) : Search F :=
  ⟨lon - 0.01, lat - 0.01, lon + 0.01, lat + 0.01, 0, 0⟩

/-- One pass through the loop body of `GCJ02toWGS84`.  The flag is `true` when the
pass leaves through `break`. -/
def loopBody (m : MathLib F) (lon lat : F) (s : Search F) : Bool × Search F :=
  let wgsLat := (s.mlat + s.plat) / 2
  let wgsLon := (s.mlon + s.plon) / 2
  let tmp := delta m wgsLon wgsLat
  let dlon := tmp.1 - lon
  let dlat := tmp.2 - lat
  if |dlat| < threshold ∧ |dlon| < threshold then
    (true, ⟨s.mlon, s.mlat, s.plon, s.plat, wgsLon, wgsLat⟩)
  else
    let plat := if dlat > 0 then wgsLat else s.plat
    let mlat := if dlat > 0 then s.mlat else wgsLat
    let plon := if dlon > 0 then wgsLon else s.plon
    let mlon := if dlon > 0 then s.mlon else wgsLon
    (false, ⟨mlon, mlat, plon, plat, wgsLon, wgsLat⟩)

/-- The loop of `GCJ02toWGS84` with `n` passes left. -/
def searchLoop (m : MathLib F) (lon lat : F) : Nat → Search F → Search F
  | 0, s => s
  | n + 1, s =>
    match loopBody m lon lat s with
    | (true, s') => s'
    | (false, s') => searchLoop m lon lat n s'

/-- `func GCJ02toWGS84(lon, lat float64) (float64, float64)`. -/
def GCJ02toWGS84 (m : MathLib F) (lon lat : F) : F × F :=
  let s := searchLoop m lon lat 10000 (searchInit lon lat)
  (s.wgsLon, s.wgsLat)

/-- The loop variables of `GCJ02toWGS84 lon lat` after `k` passes, none of which
left through `break`; `none` once a pass has left the loop. -/
def searchAfter (m : MathLib F) (lon lat : F) : Nat → Option (Search F)
  | 0 => some (searchInit lon lat)
  | k + 1 =>
    match searchAfter m lon lat k with
    | none => none
    | some s =>
      match loopBody m lon lat s with
      | (true, _) => none
      | (false, s') => some s'

/-- `func (c *Coord) Transformation() (coords []Coord)`. -/
def Coord.Transformation (m : MathLib F) (c : Coord F) : List (Coord F) :=
  let coords : List (Coord F) := [⟨c.System, c.Longitude, c.Latitude⟩]
  if c.System = "GCJ02" then
    let p := GCJ02toBD09 m c.Longitude c.Latitude
    let coords := coords ++ [⟨"BD09", p.1, p.2⟩]
    let p := GCJ02toWGS84 m c.Longitude c.Latitude
    coords ++ [⟨"WGS84", p.1, p.2⟩]
  else if c.System = "BD09" then
    let p := BD09toGCJ02 m c.Longitude c.Latitude
    let coords := coords ++ [⟨"GCJ02", p.1, p.2⟩]
    let p := GCJ02toWGS84 m p.1 p.2
    coords ++ [⟨"WGS84", p.1, p.2⟩]
  else if c.System = "WGS84" then
    let p := WGS84toGCJ02 m c.Longitude c.Latitude
    let coords := coords ++ [⟨"GCJ02", p.1, p.2⟩]
    let p := GCJ02toBD09 m p.1 p.2
    coords ++ [⟨"BD09", p.1, p.2⟩]
  else coords

/-- The bisection of section 4.4 of the specification, for a forward map `fwd` and
the target `(lon, lat)`: `n` is the number of iterations still allowed, the box is
`[lonLo, lonHi] × [latLo, latHi]`, and the result is the last midpoint computed. -/
def specBisect (fwd : F → F → F × F) (lon lat : F) : Nat → F → F → F → F → F × F
  | 0, lonLo, lonHi, latLo, latHi => ((lonLo + lonHi) / 2, (latLo + latHi) / 2)
  | n + 1, lonLo, lonHi, latLo, latHi =>
    let midLon := (lonLo + lonHi) / 2
    let midLat := (latLo + latHi) / 2
    let resLon := (fwd midLon midLat).1 - lon
    let resLat := (fwd midLon midLat).2 - lat
    if |resLon| < 1e-10 ∧ |resLat| < 1e-10 then (midLon, midLat)
    else if n = 0 then (midLon, midLat)
    else
      specBisect fwd lon lat n
        (if 0 < resLon then lonLo else midLon) (if 0 < resLon then midLon else lonHi)
        (if 0 < resLat then latLo else midLat) (if 0 < resLat then midLat else latHi)

/-- Section 4.4 of the specification: the search box starts as
`[lon-0.01, lon+0.01] × [lat-0.01, lat+0.01]` and at most 10000 iterations run. -/
def specInverse (fwd : F → F → F × F) (lon lat : F) : F × F :=
  specBisect fwd lon lat 10000 (lon - 0.01) (lon + 0.01) (lat - 0.01) (lat + 0.01)

/-- The box invariant of the loop of `GCJ02toWGS84 lon lat` after `k` passes. -/
def BoxInv (lon lat : F) (k : Nat) (s : Search F) : Prop :=
  s.mlon ≤ s.plon ∧ s.mlat ≤ s.plat ∧
  lon - 0.01 ≤ s.mlon ∧ s.plon ≤ lon + 0.01 ∧
  lat - 0.01 ≤ s.mlat ∧ s.plat ≤ lat + 0.01 ∧
  s.plon - s.mlon = 0.02 / 2 ^ k ∧ s.plat - s.mlat = 0.02 / 2 ^ k

end Model

/-- Go's `math` package over the real numbers: the mathematical functions that the
`float64` routines approximate.  `Atan2 y x` is the argument of `x + y i`, in
`(-π, π]`, and `0` at the origin. -/
noncomputable def realMath : MathLib ℝ where
  Pi := Real.pi
  Sin := Real.sin
  Cos := Real.cos
  Sqrt := Real.sqrt
  Atan2 := fun y x => Complex.arg ⟨x, y⟩

/-- Partial sum of the sine series: `x - x^3/3! + ...`, `n` terms. -/
def sinSum {F : Type} [Field F] : Nat → F → F
  | 0, _ => 0
  | n + 1, x => sinSum n x + (-1) ^ n * x ^ (2 * n + 1) / ((2 * n + 1).factorial : F)

/-- Partial sum of the cosine series: `1 - x^2/2! + ...`, `n` terms. -/
def cosSum {F : Type} [Field F] : Nat → F → F
  | 0, _ => 0
  | n + 1, x => cosSum n x + (-1) ^ n * x ^ (2 * n) / ((2 * n).factorial : F)

/-! ## The loop of `GCJ02toWGS84`, for every ordered field and every math library -/

section Generic

variable {F : Type} [LinearOrderedField F]

theorem loopBody_wgs (m : MathLib F) (lon lat : F) (s : Search F) :
    (loopBody m lon lat s).2.wgsLon = (s.mlon + s.plon) / 2 ∧
    (loopBody m lon lat s).2.wgsLat = (s.mlat + s.plat) / 2 := by
  unfold loopBody
  dsimp only
  split_ifs <;> exact ⟨rfl, rfl⟩

/-- One bisection step on one axis: the interval `[lo, hi]` is replaced by its lower
or its upper half. -/
theorem halve_step (lo hi a b w : F) (P : Prop) [Decidable P] (h1 : lo ≤ hi) (h2 : a ≤ lo)
    (h3 : hi ≤ b) (h4 : hi - lo = w) :
    ((if P then lo else (lo + hi) / 2) ≤ (if P then (lo + hi) / 2 else hi) ∧
      a ≤ (if P then lo else (lo + hi) / 2) ∧ (if P then (lo + hi) / 2 else hi) ≤ b ∧
      (if P then (lo + hi) / 2 else hi) - (if P then lo else (lo + hi) / 2) = w / 2) ∧
    lo ≤ (if P then lo else (lo + hi) / 2) ∧ (if P then (lo + hi) / 2 else hi) ≤ hi := by
  by_cases hP : P
  · simp only [if_pos hP]
    refine ⟨⟨?_, h2, ?_, ?_⟩, le_refl lo, ?_⟩ <;> linarith only [h1, h2, h3, h4]
  · simp only [if_neg hP]
    refine ⟨⟨?_, ?_, h3, ?_⟩, ?_, le_refl hi⟩ <;> linarith only [h1, h2, h3, h4]

theorem loopBody_continue (m : MathLib F) (lon lat : F) (s s' : Search F)
    (h : loopBody m lon lat s = (false, s')) :
    s' = ⟨if (delta m ((s.mlon + s.plon) / 2) ((s.mlat + s.plat) / 2)).1 - lon > 0
          then s.mlon else (s.mlon + s.plon) / 2,
        if (delta m ((s.mlon + s.plon) / 2) ((s.mlat + s.plat) / 2)).2 - lat > 0
          then s.mlat else (s.mlat + s.plat) / 2,
        if (delta m ((s.mlon + s.plon) / 2) ((s.mlat + s.plat) / 2)).1 - lon > 0
          then (s.mlon + s.plon) / 2 else s.plon,
        if (delta m ((s.mlon + s.plon) / 2) ((s.mlat + s.plat) / 2)).2 - lat > 0
          then (s.mlat + s.plat) / 2 else s.plat,
        (s.mlon + s.plon) / 2, (s.mlat + s.plat) / 2⟩ := by
  unfold loopBody at h
  dsimp only at h
  by_cases hb : |(delta m ((s.mlon + s.plon) / 2) ((s.mlat + s.plat) / 2)).2 - lat| < threshold ∧
      |(delta m ((s.mlon + s.plon) / 2) ((s.mlat + s.plat) / 2)).1 - lon| < threshold
  · rw [if_pos hb] at h
    simp at h
  · rw [if_neg hb] at h
    simp only [Prod.mk.injEq, true_and] at h
    exact h.symm

theorem loopBody_inv (m : MathLib F) (lon lat : F) (k : Nat) (s s' : Search F)
    (hs : BoxInv lon lat k s) (h : loopBody m lon lat s = (false, s')) :
    BoxInv lon lat (k + 1) s' := by
  obtain ⟨h1, h2, h3, h4, h5, h6, h7, h8⟩ := hs
  have e7 : (0.02 : F) / 2 ^ (k + 1) = (0.02 / 2 ^ k) / 2 := by
    rw [pow_succ, div_div]
  rw [loopBody_continue m lon lat s s' h]
  obtain ⟨⟨a1, a2, a3, a4⟩, -⟩ := halve_step s.mlon s.plon (lon - 0.01) (lon + 0.01) _
    ((delta m ((s.mlon + s.plon) / 2) ((s.mlat + s.plat) / 2)).1 - lon > 0) h1 h3 h4 h7
  obtain ⟨⟨b1, b2, b3, b4⟩, -⟩ := halve_step s.mlat s.plat (lat - 0.01) (lat + 0.01) _
    ((delta m ((s.mlon + s.plon) / 2) ((s.mlat + s.plat) / 2)).2 - lat > 0) h2 h5 h6 h8
  rw [← e7] at a4 b4
  exact ⟨a1, b1, a2, a3, b2, b3, a4, b4⟩

theorem searchAfter_inv (m : MathLib F) (lon lat : F) :
    ∀ (k : Nat) (s : Search F), searchAfter m lon lat k = some s → BoxInv lon lat k s := by
  intro k
  induction k with
  | zero =>
    intro s h
    simp only [searchAfter, Option.some.injEq] at h
    subst h
    simp only [BoxInv, searchInit, pow_zero, div_one]
    have h0 : (0 : F) < 0.01 := by norm_num
    have h1 : (0.02 : F) = 0.01 + 0.01 := by norm_num
    refine ⟨?_, ?_, ?_, ?_, ?_, ?_, ?_, ?_⟩ <;> linarith
  | succ k ih =>
    intro s h
    rw [searchAfter] at h
    cases hk : searchAfter m lon lat k with
    | none => rw [hk] at h; simp at h
    | some s0 =>
      rw [hk] at h
      dsimp only at h
      rcases hb : loopBody m lon lat s0 with ⟨b, s1⟩
      rw [hb] at h
      cases b with
      | true => simp at h
      | false =>
        simp only [Option.some.injEq] at h
        subst h
        exact loopBody_inv m lon lat k s0 s1 (ih s0 hk) hb

theorem searchLoop_mid (m : MathLib F) (lon lat : F) :
    ∀ (n k : Nat) (s : Search F), searchAfter m lon lat k = some s →
      ∃ j s0, k ≤ j ∧ j < k + (n + 1) ∧ searchAfter m lon lat j = some s0 ∧
        (searchLoop m lon lat (n + 1) s).wgsLon = (s0.mlon + s0.plon) / 2 ∧
        (searchLoop m lon lat (n + 1) s).wgsLat = (s0.mlat + s0.plat) / 2 := by
  intro n
  induction n with
  | zero =>
    intro k s hk
    refine ⟨k, s, le_refl k, by omega, hk, ?_⟩
    have hw := loopBody_wgs m lon lat s
    rw [searchLoop]
    rcases hb : loopBody m lon lat s with ⟨b, s1⟩
    rw [hb] at hw
    cases b <;> exact hw
  | succ n ih =>
    intro k s hk
    have hw := loopBody_wgs m lon lat s
    rw [searchLoop]
    rcases hb : loopBody m lon lat s with ⟨b, s1⟩
    rw [hb] at hw
    cases b with
    | true => exact ⟨k, s, le_refl k, by omega, hk, hw⟩
    | false =>
      have hk1 : searchAfter m lon lat (k + 1) = some s1 := by
        rw [searchAfter, hk]
        dsimp only
        rw [hb]
      obtain ⟨j, s0, h1, h2, h3, h4⟩ := ih (k + 1) s1 hk1
      exact ⟨j, s0, by omega, by omega, h3, h4⟩

theorem loopBody_nested (m : MathLib F) (lon lat : F) (s s' : Search F)
    (h1 : s.mlon ≤ s.plon) (h2 : s.mlat ≤ s.plat) (h : loopBody m lon lat s = (false, s')) :
    s.mlon ≤ s'.mlon ∧ s'.plon ≤ s.plon ∧ s.mlat ≤ s'.mlat ∧ s'.plat ≤ s.plat := by
  rw [loopBody_continue m lon lat s s' h]
  obtain ⟨-, a1, a2⟩ := halve_step s.mlon s.plon s.mlon s.plon _
    ((delta m ((s.mlon + s.plon) / 2) ((s.mlat + s.plat) / 2)).1 - lon > 0) h1 (le_refl _)
    (le_refl _) rfl
  obtain ⟨-, b1, b2⟩ := halve_step s.mlat s.plat s.mlat s.plat _
    ((delta m ((s.mlon + s.plon) / 2) ((s.mlat + s.plat) / 2)).2 - lat > 0) h2 (le_refl _)
    (le_refl _) rfl
  exact ⟨a1, a2, b1, b2⟩

theorem searchAfter_nested (m : MathLib F) (lon lat : F) (k : Nat) (s : Search F)
    (hk : searchAfter m lon lat k = some s) :
    ∀ (d : Nat) (s0 : Search F), searchAfter m lon lat (k + d) = some s0 →
      s.mlon ≤ s0.mlon ∧ s0.plon ≤ s.plon ∧ s.mlat ≤ s0.mlat ∧ s0.plat ≤ s.plat := by
  intro d
  induction d with
  | zero =>
    intro s0 h
    rw [Nat.add_zero, hk, Option.some.injEq] at h
    subst h
    exact ⟨le_refl _, le_refl _, le_refl _, le_refl _⟩
  | succ d ih =>
    intro s0 h
    rw [← Nat.add_assoc, searchAfter] at h
    cases hd : searchAfter m lon lat (k + d) with
    | none => rw [hd] at h; simp at h
    | some s1 =>
      rw [hd] at h
      dsimp only at h
      rcases hb : loopBody m lon lat s1 with ⟨b, s2⟩
      rw [hb] at h
      cases b with
      | true => simp at h
      | false =>
        simp only [Option.some.injEq] at h
        subst h
        obtain ⟨a1, a2, a3, a4⟩ := ih s1 hd
        obtain ⟨i1, i2, -⟩ := searchAfter_inv m lon lat (k + d) s1 hd
        obtain ⟨b1, b2, b3, b4⟩ := loopBody_nested m lon lat s1 s2 i1 i2 hb
        exact ⟨le_trans a1 b1, le_trans b2 a2, le_trans a3 b3, le_trans b4 a4⟩

theorem searchLoop_eq_specBisect (m : MathLib F) (lon lat : F) :
    ∀ (n : Nat) (s : Search F),
      ((searchLoop m lon lat (n + 1) s).wgsLon, (searchLoop m lon lat (n + 1) s).wgsLat) =
        specBisect (delta m) lon lat (n + 1) s.mlon s.plon s.mlat s.plat := by
  intro n
  induction n with
  | zero =>
    intro s
    simp only [searchLoop, specBisect, loopBody, threshold]
    split_ifs <;> rfl
  | succ n ih =>
    intro s
    rw [searchLoop, specBisect]
    by_cases hb : |(delta m ((s.mlon + s.plon) / 2) ((s.mlat + s.plat) / 2)).2 - lat| < threshold ∧
        |(delta m ((s.mlon + s.plon) / 2) ((s.mlat + s.plat) / 2)).1 - lon| < threshold
    · have hb' := hb
      rw [and_comm] at hb'
      simp only [threshold] at hb'
      simp only [loopBody, if_pos hb, if_pos hb']
    · have hb' := hb
      rw [and_comm] at hb'
      simp only [threshold] at hb'
      simp only [loopBody, if_neg hb, if_neg hb', if_neg (Nat.succ_ne_zero n)]
      rw [ih]

theorem specBisect_stop (fwd : F → F → F × F) (lon lat : F) (n : Nat) (a b c d : F)
    (h : |(fwd ((a + b) / 2) ((c + d) / 2)).1 - lon| < 1e-10 ∧
      |(fwd ((a + b) / 2) ((c + d) / 2)).2 - lat| < 1e-10) :
    specBisect fwd lon lat (n + 1) a b c d = ((a + b) / 2, (c + d) / 2) := by
  rw [specBisect]
  rw [if_pos h]

theorem first_mid (lon lat : F) :
    (lon - 0.01 + (lon + 0.01)) / 2 = lon ∧ (lat - 0.01 + (lat + 0.01)) / 2 = lat := by
  constructor <;> ring

/-- When the latitude residual at the first midpoint, the input itself, is positive,
`GCJ02toWGS84` never returns a latitude above its input. -/
theorem GCJ02toWGS84_snd_le (m : MathLib F) (lon lat : F)
    (h : 0 < (delta m lon lat).2 - lat) : (GCJ02toWGS84 m lon lat).2 ≤ lat := by
  obtain ⟨e1, e2⟩ := first_mid lon lat
  rcases hb : loopBody m lon lat (searchInit lon lat) with ⟨b, s1⟩
  have hw := loopBody_wgs m lon lat (searchInit lon lat)
  rw [hb] at hw
  unfold GCJ02toWGS84
  dsimp only
  cases b with
  | true =>
    have hloop : searchLoop m lon lat (9999 + 1) (searchInit lon lat) = s1 := by
      rw [searchLoop, hb]
    rw [hloop, hw.2]
    simp only [searchInit]
    rw [e2]
  | false =>
    have hloop : searchLoop m lon lat (9999 + 1) (searchInit lon lat) =
        searchLoop m lon lat 9999 s1 := by
      rw [searchLoop, hb]
    have hp : s1.plat = lat := by
      unfold loopBody searchInit at hb
      dsimp only at hb
      rw [e1, e2] at hb
      by_cases hc : |(delta m lon lat).2 - lat| < threshold ∧
          |(delta m lon lat).1 - lon| < threshold
      · rw [if_pos hc] at hb
        simp at hb
      · rw [if_neg hc] at hb
        simp only [Prod.mk.injEq, true_and] at hb
        rw [← hb]
        dsimp only
        rw [if_pos h]
    have h1 : searchAfter m lon lat 1 = some s1 := by
      simp only [searchAfter, hb]
    obtain ⟨j, s0, hj1, -, hs0, -, e⟩ := searchLoop_mid m lon lat 9998 1 s1 h1
    obtain ⟨d, rfl⟩ := Nat.exists_eq_add_of_le hj1
    obtain ⟨-, -, -, n4⟩ := searchAfter_nested m lon lat 1 s1 h1 d s0 hs0
    obtain ⟨-, i2, -⟩ := searchAfter_inv m lon lat (1 + d) s0 hs0
    rw [hloop, e]
    rw [hp] at n4
    linarith

theorem loopBody_break (m : MathLib F) (lon lat : F) (s s' : Search F)
    (h : loopBody m lon lat s = (true, s')) :
    |(delta m s'.wgsLon s'.wgsLat).1 - lon| < threshold ∧
    |(delta m s'.wgsLon s'.wgsLat).2 - lat| < threshold := by
  unfold loopBody at h
  dsimp only at h
  by_cases hb : |(delta m ((s.mlon + s.plon) / 2) ((s.mlat + s.plat) / 2)).2 - lat| < threshold ∧
      |(delta m ((s.mlon + s.plon) / 2) ((s.mlat + s.plat) / 2)).1 - lon| < threshold
  · rw [if_pos hb] at h
    simp only [Prod.mk.injEq, true_and] at h
    rw [← h]
    exact ⟨hb.2, hb.1⟩
  · rw [if_neg hb] at h
    simp at h

theorem searchLoop_break (m : MathLib F) (lon lat : F) :
    ∀ (n k : Nat) (s : Search F), searchAfter m lon lat k = some s →
      searchAfter m lon lat (k + n) = none →
      |(delta m (searchLoop m lon lat n s).wgsLon (searchLoop m lon lat n s).wgsLat).1 - lon| <
        threshold ∧
      |(delta m (searchLoop m lon lat n s).wgsLon (searchLoop m lon lat n s).wgsLat).2 - lat| <
        threshold := by
  intro n
  induction n with
  | zero =>
    intro k s hk hn
    rw [Nat.add_zero, hk] at hn
    simp at hn
  | succ n ih =>
    intro k s hk hn
    rw [searchLoop]
    rcases hb : loopBody m lon lat s with ⟨b, s1⟩
    cases b with
    | true => exact loopBody_break m lon lat s s1 hb
    | false =>
      have hk1 : searchAfter m lon lat (k + 1) = some s1 := by
        rw [searchAfter, hk]
        dsimp only
        rw [hb]
      have e : k + (n + 1) = k + 1 + n := by omega
      rw [e] at hn
      exact ih (k + 1) s1 hk1 hn

theorem searchAfter_none_add (m : MathLib F) (lon lat : F) (k : Nat)
    (h : searchAfter m lon lat k = none) : ∀ n : Nat, searchAfter m lon lat (k + n) = none := by
  intro n
  induction n with
  | zero => exact h
  | succ n ih =>
    rw [← Nat.add_assoc, searchAfter, ih]

/-- A pass of the loop whose midpoint `(x, y)` has longitude residual at least the
threshold and latitude residual at most zero lowers `plon` and raises `mlat`. -/
theorem loopBody_pos_neg (m : MathLib F) (lon lat : F) (s : Search F) (x y : F)
    (hx : (s.mlon + s.plon) / 2 = x) (hy : (s.mlat + s.plat) / 2 = y)
    (h1 : threshold ≤ (delta m x y).1 - lon) (h2 : (delta m x y).2 - lat ≤ 0) :
    loopBody m lon lat s = (false, ⟨s.mlon, y, x, s.plat, x, y⟩) := by
  have ht : (0 : F) < threshold := by norm_num [threshold]
  unfold loopBody
  dsimp only
  rw [hx, hy]
  have hn : ¬(|(delta m x y).2 - lat| < threshold ∧ |(delta m x y).1 - lon| < threshold) := by
    intro h
    exact absurd (lt_of_le_of_lt (le_abs_self _) h.2) (not_lt.2 h1)
  rw [if_neg hn, if_neg (not_lt.2 h2), if_neg (not_lt.2 h2),
    if_pos (lt_of_lt_of_le ht h1), if_pos (lt_of_lt_of_le ht h1)]

/-- A pass of the loop whose midpoint `(x, y)` has longitude residual at most zero and
latitude residual at least the threshold raises `mlon` and lowers `plat`. -/
theorem loopBody_neg_pos (m : MathLib F) (lon lat : F) (s : Search F) (x y : F)
    (hx : (s.mlon + s.plon) / 2 = x) (hy : (s.mlat + s.plat) / 2 = y)
    (h1 : (delta m x y).1 - lon ≤ 0) (h2 : threshold ≤ (delta m x y).2 - lat) :
    loopBody m lon lat s = (false, ⟨x, s.mlat, s.plon, y, x, y⟩) := by
  have ht : (0 : F) < threshold := by norm_num [threshold]
  unfold loopBody
  dsimp only
  rw [hx, hy]
  have hn : ¬(|(delta m x y).2 - lat| < threshold ∧ |(delta m x y).1 - lon| < threshold) := by
    intro h
    exact absurd (lt_of_le_of_lt (le_abs_self _) h.1) (not_lt.2 h2)
  rw [if_neg hn, if_pos (lt_of_lt_of_le ht h2), if_pos (lt_of_lt_of_le ht h2),
    if_neg (not_lt.2 h1), if_neg (not_lt.2 h1)]

/-- A pass of the loop whose midpoint `(x, y)` has both residuals below the threshold
leaves the loop. -/
theorem loopBody_tol (m : MathLib F) (lon lat : F) (s : Search F) (x y : F)
    (hx : (s.mlon + s.plon) / 2 = x) (hy : (s.mlat + s.plat) / 2 = y)
    (h : |(delta m x y).2 - lat| < threshold ∧ |(delta m x y).1 - lon| < threshold) :
    (loopBody m lon lat s).1 = true := by
  unfold loopBody
  dsimp only
  rw [hx, hy, if_pos h]

/-- The search for `(g1, g2)` leaves its loop in the third pass when the residuals at the
first three midpoints `(g1, g2)`, `(g1 - 0.005, g2 + 0.005)`, `(g1 - 0.0025, g2 + 0.0025)`
are `(+, -)`, `(-, +)` and within the threshold. -/
theorem searchAfter_three_pass (m : MathLib F) (g1 g2 : F)
    (h1a : threshold ≤ (delta m g1 g2).1 - g1) (h1b : (delta m g1 g2).2 - g2 ≤ 0)
    (h2a : (delta m (g1 - 0.005) (g2 + 0.005)).1 - g1 ≤ 0)
    (h2b : threshold ≤ (delta m (g1 - 0.005) (g2 + 0.005)).2 - g2)
    (h3 : |(delta m (g1 - 0.0025) (g2 + 0.0025)).2 - g2| < threshold ∧
      |(delta m (g1 - 0.0025) (g2 + 0.0025)).1 - g1| < threshold) :
    searchAfter m g1 g2 10000 = none := by
  have p1 := loopBody_pos_neg m g1 g2 (searchInit g1 g2) g1 g2
    (by simp only [searchInit]; linarith) (by simp only [searchInit]; linarith) h1a h1b
  have s1 : searchAfter m g1 g2 1 = some ⟨g1 - 0.01, g2, g1, g2 + 0.01, g1, g2⟩ := by
    rw [searchAfter, searchAfter]
    dsimp only
    rw [p1]
    rfl
  have p2 := loopBody_neg_pos m g1 g2 ⟨g1 - 0.01, g2, g1, g2 + 0.01, g1, g2⟩
    (g1 - 0.005) (g2 + 0.005) (by dsimp only; linarith) (by dsimp only; linarith) h2a h2b
  have s2 : searchAfter m g1 g2 2 =
      some ⟨g1 - 0.005, g2, g1, g2 + 0.005, g1 - 0.005, g2 + 0.005⟩ := by
    rw [searchAfter, s1]
    dsimp only
    rw [p2]
  have p3 := loopBody_tol m g1 g2 ⟨g1 - 0.005, g2, g1, g2 + 0.005, g1 - 0.005, g2 + 0.005⟩
    (g1 - 0.0025) (g2 + 0.0025) (by dsimp only; linarith) (by dsimp only; linarith) h3
  have s3 : searchAfter m g1 g2 3 = none := by
    rw [searchAfter, s2]
    dsimp only
    rcases hb : loopBody m g1 g2 ⟨g1 - 0.005, g2, g1, g2 + 0.005, g1 - 0.005, g2 + 0.005⟩
      with ⟨b, s'⟩
    rw [hb] at p3
    dsimp only at p3
    rw [p3]
  exact searchAfter_none_add m g1 g2 3 s3 9997

theorem InChina_true_iff (lon lat : F) :
    InChina lon lat = true ↔ (73.66 < lon ∧ lon < 135.05) ∧ (3.86 < lat ∧ lat < 53.55) := by
  simp [InChina]

theorem WGS84toGCJ02_inside (m : MathLib F) (lon lat : F)
    (h : InChina lon lat = true) : WGS84toGCJ02 m lon lat = delta m lon lat := by
  simp [WGS84toGCJ02, h]

end Generic

/-! ## Enclosures of sine and cosine over the reals -/

theorem sinSum_zero (n : Nat) : sinSum n (0 : ℝ) = 0 := by
  induction n with
  | zero => rfl
  | succ n ih => simp [sinSum, ih]

theorem cosSum_zero (n : Nat) : cosSum (n + 1) (0 : ℝ) = 1 := by
  induction n with
  | zero => simp [cosSum]
  | succ n ih => rw [cosSum, ih]; simp

theorem hasDerivAt_sinSum (n : Nat) (x : ℝ) : HasDerivAt (sinSum n) (cosSum n x) x := by
  induction n with
  | zero => exact hasDerivAt_const x (0 : ℝ)
  | succ n ih =>
    have h1 : HasDerivAt (fun y : ℝ => (-1) ^ n * y ^ (2 * n + 1) / ((2 * n + 1).factorial : ℝ))
        ((-1) ^ n * x ^ (2 * n) / ((2 * n).factorial : ℝ)) x := by
      have h := ((hasDerivAt_pow (2 * n + 1) x).const_mul ((-1 : ℝ) ^ n)).div_const
        ((2 * n + 1).factorial : ℝ)
      convert h using 1
      have hf : ((2 * n).factorial : ℝ) ≠ 0 := by positivity
      have hf1 : ((2 * n + 1).factorial : ℝ) ≠ 0 := by positivity
      rw [Nat.factorial_succ] 
      push_cast
      field_simp
      ring
    exact ih.add h1

theorem hasDerivAt_cosSum (n : Nat) (x : ℝ) : HasDerivAt (cosSum (n + 1)) (-sinSum n x) x := by
  induction n with
  | zero =>
    have h : HasDerivAt (fun _ : ℝ => (0 : ℝ) + (-1) ^ 0 * 1 / ((Nat.factorial 0 : ℕ) : ℝ)) 0 x :=
      hasDerivAt_const x _
    simpa [cosSum, sinSum] using h
  | succ n ih =>
    have h1 : HasDerivAt (fun y : ℝ => (-1) ^ (n + 1) * y ^ (2 * (n + 1)) / ((2 * (n + 1)).factorial : ℝ))
        (-((-1) ^ n * x ^ (2 * n + 1) / ((2 * n + 1).factorial : ℝ))) x := by
      have h := ((hasDerivAt_pow (2 * (n + 1)) x).const_mul ((-1 : ℝ) ^ (n + 1))).div_const
        ((2 * (n + 1)).factorial : ℝ)
      convert h using 1
      have hf1 : ((2 * n + 1).factorial : ℝ) ≠ 0 := by positivity
      have e : 2 * (n + 1) = (2 * n + 1) + 1 := by ring
      rw [e, Nat.factorial_succ (2 * n + 1)]
      push_cast
      field_simp
      ring
    have h2 := ih.add h1
    have e2 : -sinSum (n + 1) x = -sinSum n x + -((-1) ^ n * x ^ (2 * n + 1) / ((2 * n + 1).factorial : ℝ)) := by
      rw [sinSum]; ring
    rw [e2]
    exact h2

theorem nonneg_of_hasDerivAt_nonneg (f f' : ℝ → ℝ) (hf : ∀ x, HasDerivAt f (f' x) x)
    (h0 : f 0 = 0) (hpos : ∀ x, 0 ≤ x → 0 ≤ f' x) : ∀ x, 0 ≤ x → 0 ≤ f x := by
  intro x hx
  have hmono : MonotoneOn f (Set.Ici 0) := by
    apply monotoneOn_of_deriv_nonneg (convex_Ici 0)
    · exact fun y _ => (hf y).continuousAt.continuousWithinAt
    · exact fun y _ => (hf y).differentiableAt.differentiableWithinAt
    · intro y hy
      rw [interior_Ici] at hy
      rw [(hf y).deriv]
      exact hpos y (le_of_lt hy)
  have := hmono (Set.left_mem_Ici) hx hx
  rwa [h0] at this

theorem sin_cos_series_sign (n : Nat) :
    (∀ x : ℝ, 0 ≤ x → 0 ≤ (-1) ^ (n + 1) * (Real.cos x - cosSum (n + 1) x)) ∧
    (∀ x : ℝ, 0 ≤ x → 0 ≤ (-1) ^ (n + 1) * (Real.sin x - sinSum (n + 1) x)) := by
  induction n with
  | zero =>
    have hA : ∀ x : ℝ, 0 ≤ x → 0 ≤ (-1) ^ (0 + 1) * (Real.cos x - cosSum (0 + 1) x) := by
      intro x _
      have := Real.cos_le_one x
      simp [cosSum]
      linarith
    refine ⟨hA, ?_⟩
    apply nonneg_of_hasDerivAt_nonneg _ (fun x => (-1) ^ (0 + 1) * (Real.cos x - cosSum (0 + 1) x))
    · intro x
      exact ((Real.hasDerivAt_sin x).sub (hasDerivAt_sinSum 1 x)).const_mul _
    · simp [sinSum_zero]
    · exact hA
  | succ n ih =>
    obtain ⟨_, hB⟩ := ih
    have hA : ∀ x : ℝ, 0 ≤ x → 0 ≤ (-1) ^ (n + 1 + 1) * (Real.cos x - cosSum (n + 1 + 1) x) := by
      apply nonneg_of_hasDerivAt_nonneg _
        (fun x => (-1) ^ (n + 1 + 1) * (-Real.sin x - -sinSum (n + 1) x))
      · intro x
        exact ((Real.hasDerivAt_cos x).sub (hasDerivAt_cosSum (n + 1) x)).const_mul _
      · simp [cosSum_zero]
      · intro x hx
        have := hB x hx
        have e : (-1 : ℝ) ^ (n + 1 + 1) * (-Real.sin x - -sinSum (n + 1) x) =
            (-1) ^ (n + 1) * (Real.sin x - sinSum (n + 1) x) := by
          rw [pow_succ _ (n + 1)]; ring
        rw [e]; exact this
    refine ⟨hA, ?_⟩
    apply nonneg_of_hasDerivAt_nonneg _
      (fun x => (-1) ^ (n + 1 + 1) * (Real.cos x - cosSum (n + 1 + 1) x))
    · intro x
      exact ((Real.hasDerivAt_sin x).sub (hasDerivAt_sinSum (n + 1 + 1) x)).const_mul _
    · simp [sinSum_zero]
    · exact hA

theorem sinSum_neg (n : Nat) (x : ℝ) : sinSum n (-x) = -sinSum n x := by
  induction n with
  | zero => simp [sinSum]
  | succ n ih =>
    rw [sinSum, sinSum, ih, Odd.neg_pow ⟨n, rfl⟩]
    ring

theorem cosSum_neg (n : Nat) (x : ℝ) : cosSum n (-x) = cosSum n x := by
  induction n with
  | zero => simp [cosSum]
  | succ n ih =>
    have e : (-x) ^ (2 * n) = x ^ (2 * n) := Even.neg_pow ⟨n, by ring⟩ x
    rw [cosSum, cosSum, ih, e]

theorem abs_sin_sub_sinSum_le (n : Nat) (x : ℝ) :
    |Real.sin x - sinSum n x| ≤ |x| ^ (2 * n + 1) / ((2 * n + 1).factorial : ℝ) := by
  have key : ∀ y : ℝ, 0 ≤ y →
      |Real.sin y - sinSum n y| ≤ y ^ (2 * n + 1) / ((2 * n + 1).factorial : ℝ) := by
    intro y hy
    have hstep : sinSum (n + 1) y =
        sinSum n y + (-1) ^ n * (y ^ (2 * n + 1) / ((2 * n + 1).factorial : ℝ)) := by
      rw [sinSum, mul_div_assoc]
    have hq : 0 ≤ y ^ (2 * n + 1) / ((2 * n + 1).factorial : ℝ) := by positivity
    have h1 := (sin_cos_series_sign n).2 y hy
    rw [hstep, pow_succ] at h1
    rcases n with _ | m
    · have hs := Real.abs_sin_le_abs (x := y)
      rw [abs_of_nonneg hy] at hs
      simpa [sinSum] using hs
    · generalize y ^ (2 * (m + 1) + 1) / ((2 * (m + 1) + 1).factorial : ℝ) = q at *
      have h2 := (sin_cos_series_sign m).2 y hy
      rcases Nat.even_or_odd (m + 1) with he | ho
      · rw [he.neg_one_pow] at h1 h2
        rw [abs_le]
        constructor <;> linarith
      · rw [ho.neg_one_pow] at h1 h2
        rw [abs_le]
        constructor <;> linarith
  rcases le_total 0 x with hx | hx
  · rw [abs_of_nonneg hx]; exact key x hx
  · have := key (-x) (by linarith)
    rw [Real.sin_neg, sinSum_neg, ← neg_sub', abs_neg] at this
    rw [abs_of_nonpos hx]
    exact this

theorem abs_cos_sub_cosSum_le (n : Nat) (x : ℝ) :
    |Real.cos x - cosSum (n + 1) x| ≤ |x| ^ (2 * (n + 1)) / ((2 * (n + 1)).factorial : ℝ) := by
  have key : ∀ y : ℝ, 0 ≤ y →
      |Real.cos y - cosSum (n + 1) y| ≤ y ^ (2 * (n + 1)) / ((2 * (n + 1)).factorial : ℝ) := by
    intro y hy
    have hstep : cosSum (n + 1 + 1) y =
        cosSum (n + 1) y + (-1) ^ (n + 1) * (y ^ (2 * (n + 1)) / ((2 * (n + 1)).factorial : ℝ)) := by
      rw [cosSum, mul_div_assoc]
    have hq : 0 ≤ y ^ (2 * (n + 1)) / ((2 * (n + 1)).factorial : ℝ) := by positivity
    have h1 := (sin_cos_series_sign (n + 1)).1 y hy
    rw [hstep, pow_succ] at h1
    have h2 := (sin_cos_series_sign n).1 y hy
    generalize y ^ (2 * (n + 1)) / ((2 * (n + 1)).factorial : ℝ) = q at *
    rcases Nat.even_or_odd (n + 1) with he | ho
    · rw [he.neg_one_pow] at h1 h2
      rw [abs_le]
      constructor <;> linarith
    · rw [ho.neg_one_pow] at h1 h2
      rw [abs_le]
      constructor <;> linarith
  rcases le_total 0 x with hx | hx
  · rw [abs_of_nonneg hx]; exact key x hx
  · have := key (-x) (by linarith)
    rw [Real.cos_neg, cosSum_neg] at this
    rw [abs_of_nonpos hx]
    exact this

theorem abs_sin_sub_sin_le (x y : ℝ) : |Real.sin x - Real.sin y| ≤ |x - y| := by
  rw [Real.sin_sub_sin]
  have h1 := Real.abs_sin_le_abs (x := (x - y) / 2)
  have h2 := Real.abs_cos_le_one ((x + y) / 2)
  rw [abs_mul, abs_mul, abs_two]
  have h3 : |(x - y) / 2| = |x - y| / 2 := by rw [abs_div, abs_two]
  rw [h3] at h1
  have h4 := abs_nonneg (Real.sin ((x - y) / 2))
  have h5 := abs_nonneg (Real.cos ((x + y) / 2))
  nlinarith

theorem abs_cos_sub_cos_le (x y : ℝ) : |Real.cos x - Real.cos y| ≤ |x - y| := by
  rw [Real.cos_sub_cos]
  have h1 := Real.abs_sin_le_abs (x := (x - y) / 2)
  have h2 := Real.abs_sin_le_one ((x + y) / 2)
  rw [abs_mul, abs_mul, abs_neg, abs_two]
  have h3 : |(x - y) / 2| = |x - y| / 2 := by rw [abs_div, abs_two]
  rw [h3] at h1
  have h4 := abs_nonneg (Real.sin ((x - y) / 2))
  have h5 := abs_nonneg (Real.sin ((x + y) / 2))
  nlinarith

/-- Enclosure of `sin x` from a reduced argument `c` with `x ≈ j π + c`. -/
theorem sin_cert (n : Nat) (j : ℤ) (x c r s : ℝ) (hs : (-1 : ℝ) ^ j = s)
    (h : |x - j * Real.pi - c| ≤ r) :
    |Real.sin x - s * sinSum n c| ≤ r + |c| ^ (2 * n + 1) / ((2 * n + 1).factorial : ℝ) := by
  have e : Real.sin x = s * Real.sin (x - j * Real.pi) := by
    rw [Real.sin_sub_int_mul_pi, ← hs, ← mul_assoc, ← zpow_add₀ (by norm_num : (-1 : ℝ) ≠ 0)]
    have : (-1 : ℝ) ^ (j + j) = 1 := Even.neg_one_zpow ⟨j, rfl⟩
    rw [this, one_mul]
  have hs1 : |s| = 1 := by
    rw [← hs]
    rcases Int.even_or_odd j with he | ho
    · rw [he.neg_one_zpow, abs_one]
    · rw [ho.neg_one_zpow, abs_neg, abs_one]
  rw [e, ← mul_sub, abs_mul, hs1, one_mul]
  have h1 := abs_sin_sub_sin_le (x - j * Real.pi) c
  have h2 := abs_sin_sub_sinSum_le n c
  calc |Real.sin (x - j * Real.pi) - sinSum n c|
      = |(Real.sin (x - j * Real.pi) - Real.sin c) + (Real.sin c - sinSum n c)| := by ring_nf
    _ ≤ |Real.sin (x - j * Real.pi) - Real.sin c| + |Real.sin c - sinSum n c| := abs_add _ _
    _ ≤ _ := by linarith

/-- Enclosure of `cos x` from a reduced argument `c` with `x ≈ j π + c`. -/
theorem cos_cert (n : Nat) (j : ℤ) (x c r s : ℝ) (hs : (-1 : ℝ) ^ j = s)
    (h : |x - j * Real.pi - c| ≤ r) :
    |Real.cos x - s * cosSum (n + 1) c| ≤
      r + |c| ^ (2 * (n + 1)) / ((2 * (n + 1)).factorial : ℝ) := by
  have e : Real.cos x = s * Real.cos (x - j * Real.pi) := by
    rw [Real.cos_sub_int_mul_pi, ← hs, ← mul_assoc, ← zpow_add₀ (by norm_num : (-1 : ℝ) ≠ 0)]
    have : (-1 : ℝ) ^ (j + j) = 1 := Even.neg_one_zpow ⟨j, rfl⟩
    rw [this, one_mul]
  have hs1 : |s| = 1 := by
    rw [← hs]
    rcases Int.even_or_odd j with he | ho
    · rw [he.neg_one_zpow, abs_one]
    · rw [ho.neg_one_zpow, abs_neg, abs_one]
  rw [e, ← mul_sub, abs_mul, hs1, one_mul]
  have h1 := abs_cos_sub_cos_le (x - j * Real.pi) c
  have h2 := abs_cos_sub_cosSum_le n c
  calc |Real.cos (x - j * Real.pi) - cosSum (n + 1) c|
      = |(Real.cos (x - j * Real.pi) - Real.cos c) + (Real.cos c - cosSum (n + 1) c)| := by ring_nf
    _ ≤ |Real.cos (x - j * Real.pi) - Real.cos c| + |Real.cos c - cosSum (n + 1) c| := abs_add _ _
    _ ≤ _ := by linarith

theorem sqrt_encl (x lo hi : ℝ) (hlo : 0 ≤ lo) (hhi : 0 ≤ hi) (h1 : lo ^ 2 ≤ x) (h2 : x ≤ hi ^ 2) :
    lo ≤ Real.sqrt x ∧ Real.sqrt x ≤ hi := by
  constructor
  · have := Real.sqrt_le_sqrt h1
    rwa [Real.sqrt_sq hlo] at this
  · have := Real.sqrt_le_sqrt h2
    rwa [Real.sqrt_sq hhi] at this

/-- A point `x = u + k π` lies within `r` of `j π + c` as soon as this holds with
`π` replaced by a lower and by an upper bound of `π`. -/
theorem abs_reduce_le (j : ℤ) (x u k c r pl ph : ℝ) (hpl : pl ≤ Real.pi) (hph : Real.pi ≤ ph)
    (hx : x = u + k * Real.pi)
    (a1 : c - r ≤ u + (k - j) * pl) (a2 : u + (k - j) * pl ≤ c + r)
    (a3 : c - r ≤ u + (k - j) * ph) (a4 : u + (k - j) * ph ≤ c + r) :
    |x - j * Real.pi - c| ≤ r := by
  have e : x - j * Real.pi - c = u + (k - j) * Real.pi - c := by rw [hx]; ring
  rw [e, abs_le]
  rcases le_total 0 (k - (j : ℝ)) with h | h
  · have b1 := mul_le_mul_of_nonneg_left hpl h
    have b2 := mul_le_mul_of_nonneg_left hph h
    constructor <;> linarith
  · have b1 := mul_le_mul_of_nonpos_left hpl h
    have b2 := mul_le_mul_of_nonpos_left hph h
    constructor <;> linarith

/-- Rational enclosure of `sin x`: `x = u + k π` is within `r` of `j π + c`, `|c| ≤ a`,
and the `n`-term sine series is evaluated at `c`. -/
theorem sin_encl (n : Nat) (j : ℤ) (x u k c r s a lo hi pl ph : ℝ)
    (hpl : pl ≤ Real.pi) (hph : Real.pi ≤ ph) (hx : x = u + k * Real.pi)
    (hs : (-1 : ℝ) ^ j = s)
    (a1 : c - r ≤ u + (k - j) * pl) (a2 : u + (k - j) * pl ≤ c + r)
    (a3 : c - r ≤ u + (k - j) * ph) (a4 : u + (k - j) * ph ≤ c + r)
    (ha1 : -a ≤ c) (ha2 : c ≤ a)
    (hlo : lo ≤ s * sinSum n c - (r + a ^ (2 * n + 1) / ((2 * n + 1).factorial : ℝ)))
    (hhi : s * sinSum n c + (r + a ^ (2 * n + 1) / ((2 * n + 1).factorial : ℝ)) ≤ hi) :
    lo ≤ Real.sin x ∧ Real.sin x ≤ hi := by
  have h1 := sin_cert n j x c r s hs (abs_reduce_le j x u k c r pl ph hpl hph hx a1 a2 a3 a4)
  have h2 : |c| ^ (2 * n + 1) / ((2 * n + 1).factorial : ℝ) ≤
      a ^ (2 * n + 1) / ((2 * n + 1).factorial : ℝ) := by
    apply div_le_div_of_nonneg_right _ (by positivity)
    exact pow_le_pow_left (abs_nonneg c) (abs_le.2 ⟨ha1, ha2⟩) _
  rw [abs_le] at h1
  constructor <;> linarith [h1.1, h1.2]

/-- Rational enclosure of `cos x`: `x = u + k π` is within `r` of `j π + c`, `|c| ≤ a`,
and the `n+1`-term cosine series is evaluated at `c`. -/
theorem cos_encl (n : Nat) (j : ℤ) (x u k c r s a lo hi pl ph : ℝ)
    (hpl : pl ≤ Real.pi) (hph : Real.pi ≤ ph) (hx : x = u + k * Real.pi)
    (hs : (-1 : ℝ) ^ j = s)
    (a1 : c - r ≤ u + (k - j) * pl) (a2 : u + (k - j) * pl ≤ c + r)
    (a3 : c - r ≤ u + (k - j) * ph) (a4 : u + (k - j) * ph ≤ c + r)
    (ha1 : -a ≤ c) (ha2 : c ≤ a)
    (hlo : lo ≤ s * cosSum (n + 1) c - (r + a ^ (2 * (n + 1)) / ((2 * (n + 1)).factorial : ℝ)))
    (hhi : s * cosSum (n + 1) c + (r + a ^ (2 * (n + 1)) / ((2 * (n + 1)).factorial : ℝ)) ≤ hi) :
    lo ≤ Real.cos x ∧ Real.cos x ≤ hi := by
  have h1 := cos_cert n j x c r s hs (abs_reduce_le j x u k c r pl ph hpl hph hx a1 a2 a3 a4)
  have h2 : |c| ^ (2 * (n + 1)) / ((2 * (n + 1)).factorial : ℝ) ≤
      a ^ (2 * (n + 1)) / ((2 * (n + 1)).factorial : ℝ) := by
    apply div_le_div_of_nonneg_right _ (by positivity)
    exact pow_le_pow_left (abs_nonneg c) (abs_le.2 ⟨ha1, ha2⟩) _
  rw [abs_le] at h1
  constructor <;> linarith [h1.1, h1.2]

/-- A point `x` of `[xl, xh]` lies within `r` of `j π + c` as soon as both ends do,
with `π` replaced by a lower and by an upper bound of `π`. -/
theorem abs_reduce_le_iv (j : ℤ) (x xl xh c r pl ph : ℝ) (hpl : pl ≤ Real.pi)
    (hph : Real.pi ≤ ph) (h1 : xl ≤ x) (h2 : x ≤ xh)
    (a1 : c - r ≤ xl - j * pl) (a2 : c - r ≤ xl - j * ph)
    (a3 : xh - j * pl ≤ c + r) (a4 : xh - j * ph ≤ c + r) :
    |x - j * Real.pi - c| ≤ r := by
  rw [abs_le]
  rcases le_total 0 (j : ℝ) with h | h
  · have b1 := mul_le_mul_of_nonneg_left hpl h
    have b2 := mul_le_mul_of_nonneg_left hph h
    constructor <;> linarith
  · have b1 := mul_le_mul_of_nonpos_left hpl h
    have b2 := mul_le_mul_of_nonpos_left hph h
    constructor <;> linarith

/-- Rational enclosure of `sin x` for `x` in `[xl, xh]`. -/
theorem sin_encl_iv (n : Nat) (j : ℤ) (x xl xh c r s a lo hi pl ph : ℝ)
    (hpl : pl ≤ Real.pi) (hph : Real.pi ≤ ph) (h1 : xl ≤ x) (h2 : x ≤ xh)
    (hs : (-1 : ℝ) ^ j = s)
    (a1 : c - r ≤ xl - j * pl) (a2 : c - r ≤ xl - j * ph)
    (a3 : xh - j * pl ≤ c + r) (a4 : xh - j * ph ≤ c + r)
    (ha1 : -a ≤ c) (ha2 : c ≤ a)
    (hlo : lo ≤ s * sinSum n c - (r + a ^ (2 * n + 1) / ((2 * n + 1).factorial : ℝ)))
    (hhi : s * sinSum n c + (r + a ^ (2 * n + 1) / ((2 * n + 1).factorial : ℝ)) ≤ hi) :
    lo ≤ Real.sin x ∧ Real.sin x ≤ hi := by
  have h1 := sin_cert n j x c r s hs (abs_reduce_le_iv j x xl xh c r pl ph hpl hph h1 h2 a1 a2 a3 a4)
  have h2 : |c| ^ (2 * n + 1) / ((2 * n + 1).factorial : ℝ) ≤
      a ^ (2 * n + 1) / ((2 * n + 1).factorial : ℝ) := by
    apply div_le_div_of_nonneg_right _ (by positivity)
    exact pow_le_pow_left (abs_nonneg c) (abs_le.2 ⟨ha1, ha2⟩) _
  rw [abs_le] at h1
  constructor <;> linarith [h1.1, h1.2]

/-- Rational enclosure of `cos x` for `x` in `[xl, xh]`. -/
theorem cos_encl_iv (n : Nat) (j : ℤ) (x xl xh c r s a lo hi pl ph : ℝ)
    (hpl : pl ≤ Real.pi) (hph : Real.pi ≤ ph) (h1 : xl ≤ x) (h2 : x ≤ xh)
    (hs : (-1 : ℝ) ^ j = s)
    (a1 : c - r ≤ xl - j * pl) (a2 : c - r ≤ xl - j * ph)
    (a3 : xh - j * pl ≤ c + r) (a4 : xh - j * ph ≤ c + r)
    (ha1 : -a ≤ c) (ha2 : c ≤ a)
    (hlo : lo ≤ s * cosSum (n + 1) c - (r + a ^ (2 * (n + 1)) / ((2 * (n + 1)).factorial : ℝ)))
    (hhi : s * cosSum (n + 1) c + (r + a ^ (2 * (n + 1)) / ((2 * (n + 1)).factorial : ℝ)) ≤ hi) :
    lo ≤ Real.cos x ∧ Real.cos x ≤ hi := by
  have h1 := cos_cert n j x c r s hs (abs_reduce_le_iv j x xl xh c r pl ph hpl hph h1 h2 a1 a2 a3 a4)
  have h2 : |c| ^ (2 * (n + 1)) / ((2 * (n + 1)).factorial : ℝ) ≤
      a ^ (2 * (n + 1)) / ((2 * (n + 1)).factorial : ℝ) := by
    apply div_le_div_of_nonneg_right _ (by positivity)
    exact pow_le_pow_left (abs_nonneg c) (abs_le.2 ⟨ha1, ha2⟩) _
  rw [abs_le] at h1
  constructor <;> linarith [h1.1, h1.2]

theorem pi_gt_d10 : (3.1415926535 : ℝ) ≤ Real.pi := by
  have := Real.pi_gt_d20
  have h : (3.1415926535 : ℝ) ≤ 3.14159265358979323846 := by norm_num
  linarith

theorem pi_lt_d10 : Real.pi ≤ (3.1415926536 : ℝ) := by
  have := Real.pi_lt_d20
  have h : (3.14159265358979323847 : ℝ) ≤ 3.1415926536 := by norm_num
  linarith

theorem pi_ge_d20 : (3.14159265358979323846 : ℝ) ≤ Real.pi := Real.pi_gt_d20.le

theorem pi_le_d20 : Real.pi ≤ (3.14159265358979323847 : ℝ) := Real.pi_lt_d20.le

/-! ## Interval arithmetic for `transform` and `delta` over the reals -/

theorem encl_add_const (x l h c lo hi : ℝ) (hx : l ≤ x ∧ x ≤ h) (h1 : lo ≤ l + c)
    (h2 : h + c ≤ hi) : lo ≤ x + c ∧ x + c ≤ hi :=
  ⟨by linarith [hx.1], by linarith [hx.2]⟩

theorem encl_const_mul (k x l h lo hi : ℝ) (hk : 0 ≤ k) (hx : l ≤ x ∧ x ≤ h) (h1 : lo ≤ k * l)
    (h2 : k * h ≤ hi) : lo ≤ k * x ∧ k * x ≤ hi :=
  ⟨le_trans h1 (mul_le_mul_of_nonneg_left hx.1 hk), le_trans (mul_le_mul_of_nonneg_left hx.2 hk) h2⟩

theorem encl_mul_const (k x l h lo hi : ℝ) (hk : 0 ≤ k) (hx1 : l ≤ x) (hx2 : x ≤ h)
    (h1 : lo ≤ l * k) (h2 : h * k ≤ hi) : lo ≤ x * k ∧ x * k ≤ hi :=
  ⟨le_trans h1 (mul_le_mul_of_nonneg_right hx1 hk), le_trans (mul_le_mul_of_nonneg_right hx2 hk) h2⟩

theorem encl_add_mul (k x y xl xh yl yh lo hi : ℝ) (hk : 0 ≤ k) (hx : xl ≤ x ∧ x ≤ xh)
    (hy : yl ≤ y ∧ y ≤ yh) (h1 : lo ≤ xl + k * yl) (h2 : xh + k * yh ≤ hi) :
    lo ≤ x + k * y ∧ x + k * y ≤ hi := by
  have a1 := mul_le_mul_of_nonneg_left hy.1 hk
  have a2 := mul_le_mul_of_nonneg_left hy.2 hk
  exact ⟨by linarith [hx.1], by linarith [hx.2]⟩

theorem encl_sub_mul (k x y xl xh yl yh lo hi : ℝ) (hk : 0 ≤ k) (hx : xl ≤ x ∧ x ≤ xh)
    (hy : yl ≤ y ∧ y ≤ yh) (h1 : lo ≤ xl - k * yh) (h2 : xh - k * yl ≤ hi) :
    lo ≤ x - k * y ∧ x - k * y ≤ hi := by
  have a1 := mul_le_mul_of_nonneg_left hy.1 hk
  have a2 := mul_le_mul_of_nonneg_left hy.2 hk
  exact ⟨by linarith [hx.1], by linarith [hx.2]⟩

/-- Enclosure of a quotient with a positive denominator; the numerator may have
either sign. -/
theorem div_encl (x d xl xh dl dh lo hi : ℝ) (hd : 0 < dl)
    (hx1 : xl ≤ x) (hx2 : x ≤ xh) (hd1 : dl ≤ d) (hd2 : d ≤ dh)
    (h1 : lo ≤ xl / dl) (h2 : lo ≤ xl / dh) (h3 : xh / dl ≤ hi) (h4 : xh / dh ≤ hi) :
    lo ≤ x / d ∧ x / d ≤ hi := by
  have hdp : 0 < d := lt_of_lt_of_le hd hd1
  have hdh : 0 < dh := lt_of_lt_of_le hdp hd2
  constructor
  · have a1 : xl / d ≤ x / d := div_le_div_of_nonneg_right hx1 hdp.le
    rcases le_total 0 xl with hs | hs
    · have a2 : xl / dh ≤ xl / d := div_le_div_of_nonneg_left hs hdp hd2
      linarith
    · have a2 : xl / dl ≤ xl / d := by
        rw [div_le_div_iff hd hdp]
        nlinarith
      linarith
  · have a1 : x / d ≤ xh / d := div_le_div_of_nonneg_right hx2 hdp.le
    rcases le_total 0 xh with hs | hs
    · have a2 : xh / d ≤ xh / dl := div_le_div_of_nonneg_left hs hd hd1
      linarith
    · have a2 : xh / d ≤ xh / dh := by
        rw [div_le_div_iff hdp hdh]
        nlinarith
      linarith

/-- Enclosure of the two outputs of `transform` over the reals from enclosures of its
ten sines and of the square root. -/
theorem transform_encl (a b l1 h1 l2 h2 l3 h3 l4 h4 l5 h5 l6 h6 l7 h7 l8 h8 l9 h9 l10 h10 ql qh
    xl xh yl yh : ℝ)
    (s1 : l1 ≤ Real.sin (6.0 * (a * Real.pi)) ∧ Real.sin (6.0 * (a * Real.pi)) ≤ h1)
    (s2 : l2 ≤ Real.sin (2.0 * (a * Real.pi)) ∧ Real.sin (2.0 * (a * Real.pi)) ≤ h2)
    (s3 : l3 ≤ Real.sin (b * Real.pi) ∧ Real.sin (b * Real.pi) ≤ h3)
    (s4 : l4 ≤ Real.sin (b * Real.pi / 3.0) ∧ Real.sin (b * Real.pi / 3.0) ≤ h4)
    (s5 : l5 ≤ Real.sin (a * Real.pi) ∧ Real.sin (a * Real.pi) ≤ h5)
    (s6 : l6 ≤ Real.sin (a * Real.pi / 3.0) ∧ Real.sin (a * Real.pi / 3.0) ≤ h6)
    (s7 : l7 ≤ Real.sin (b * Real.pi / 12.0) ∧ Real.sin (b * Real.pi / 12.0) ≤ h7)
    (s8 : l8 ≤ Real.sin (b * Real.pi / 30.0) ∧ Real.sin (b * Real.pi / 30.0) ≤ h8)
    (s9 : l9 ≤ Real.sin (a * Real.pi / 12.0) ∧ Real.sin (a * Real.pi / 12.0) ≤ h9)
    (s10 : l10 ≤ Real.sin (a * Real.pi / 30.0) ∧ Real.sin (a * Real.pi / 30.0) ≤ h10)
    (q : ql ≤ Real.sqrt |a| ∧ Real.sqrt |a| ≤ qh)
    (c1 : xl ≤ (20.0 * l1 + 20.0 * l2 + (20.0 * l3 + 40.0 * l4) + (160.0 * l7 + 320 * l8)) *
      (2.0 / 3.0) + (2.0 * a + 3.0 * b + 0.2 * b * b + 0.1 * (a * b) + 0.2 * ql - 100.0))
    (c2 : (20.0 * h1 + 20.0 * h2 + (20.0 * h3 + 40.0 * h4) + (160.0 * h7 + 320 * h8)) *
      (2.0 / 3.0) + (2.0 * a + 3.0 * b + 0.2 * b * b + 0.1 * (a * b) + 0.2 * qh - 100.0) ≤ xh)
    (c3 : yl ≤ (20.0 * l1 + 20.0 * l2 + (20.0 * l5 + 40.0 * l6) + (150.0 * l9 + 300.0 * l10)) *
      (2.0 / 3.0) + (a + 2.0 * b + 0.1 * a * a + 0.1 * (a * b) + 0.1 * ql + 300.0))
    (c4 : (20.0 * h1 + 20.0 * h2 + (20.0 * h5 + 40.0 * h6) + (150.0 * h9 + 300.0 * h10)) *
      (2.0 / 3.0) + (a + 2.0 * b + 0.1 * a * a + 0.1 * (a * b) + 0.1 * qh + 300.0) ≤ yh) :
    (xl ≤ (transform realMath a b).1 ∧ (transform realMath a b).1 ≤ xh) ∧
    (yl ≤ (transform realMath a b).2 ∧ (transform realMath a b).2 ≤ yh) := by
  simp only [transform, realMath]
  generalize Real.sin (6.0 * (a * Real.pi)) = t1 at s1 ⊢
  generalize Real.sin (2.0 * (a * Real.pi)) = t2 at s2 ⊢
  generalize Real.sin (b * Real.pi) = t3 at s3 ⊢
  generalize Real.sin (b * Real.pi / 3.0) = t4 at s4 ⊢
  generalize Real.sin (a * Real.pi) = t5 at s5 ⊢
  generalize Real.sin (a * Real.pi / 3.0) = t6 at s6 ⊢
  generalize Real.sin (b * Real.pi / 12.0) = t7 at s7 ⊢
  generalize Real.sin (b * Real.pi / 30.0) = t8 at s8 ⊢
  generalize Real.sin (a * Real.pi / 12.0) = t9 at s9 ⊢
  generalize Real.sin (a * Real.pi / 30.0) = t10 at s10 ⊢
  generalize Real.sqrt |a| = t0 at q ⊢
  generalize 2.0 * a + 3.0 * b + 0.2 * b * b + 0.1 * (a * b) = p1 at c1 c2 ⊢
  generalize a + 2.0 * b + 0.1 * a * a + 0.1 * (a * b) = p2 at c3 c4 ⊢
  obtain ⟨s1a, s1b⟩ := s1
  obtain ⟨s2a, s2b⟩ := s2
  obtain ⟨s3a, s3b⟩ := s3
  obtain ⟨s4a, s4b⟩ := s4
  obtain ⟨s5a, s5b⟩ := s5
  obtain ⟨s6a, s6b⟩ := s6
  obtain ⟨s7a, s7b⟩ := s7
  obtain ⟨s8a, s8b⟩ := s8
  obtain ⟨s9a, s9b⟩ := s9
  obtain ⟨s10a, s10b⟩ := s10
  obtain ⟨qa, qb⟩ := q
  refine ⟨⟨?_, ?_⟩, ?_, ?_⟩
  · linarith only [s1a, s2a, s3a, s4a, s7a, s8a, qa, c1]
  · linarith only [s1b, s2b, s3b, s4b, s7b, s8b, qb, c2]
  · linarith only [s1a, s2a, s5a, s6a, s9a, s10a, qa, c3]
  · linarith only [s1b, s2b, s5b, s6b, s9b, s10b, qb, c4]

/-- Enclosure of `delta` over the reals from enclosures of the two outputs of
`transform` and of the sine and cosine of the latitude in radians. -/
theorem delta_encl (lon lat xl xh yl yh sl sh cl ch ml mh ql qh dl dh el eh lo1 hi1 lo2 hi2 : ℝ)
    (hx : xl ≤ (transform realMath (lon - 105.0) (lat - 35.0)).1 ∧
      (transform realMath (lon - 105.0) (lat - 35.0)).1 ≤ xh)
    (hy : yl ≤ (transform realMath (lon - 105.0) (lat - 35.0)).2 ∧
      (transform realMath (lon - 105.0) (lat - 35.0)).2 ≤ yh)
    (hs : sl ≤ Real.sin (lat / 180.0 * Real.pi) ∧ Real.sin (lat / 180.0 * Real.pi) ≤ sh)
    (hc : cl ≤ Real.cos (lat / 180.0 * Real.pi) ∧ Real.cos (lat / 180.0 * Real.pi) ≤ ch)
    (hsl : 0 ≤ sl) (hcl : 0 < cl)
    (hm1 : ml ≤ 1 - Offset * sh * sh) (hm2 : 1 - Offset * sl * sl ≤ mh) (hml : 0 < ml)
    (hq1 : ql ^ 2 ≤ ml) (hq2 : mh ≤ qh ^ 2) (hql : 0 < ql) (hqh : 0 ≤ qh)
    (hd1 : dl ≤ Axis / qh * cl * 3.14159265358979323846)
    (hd2 : Axis / ql * ch * 3.14159265358979323847 ≤ dh) (hdl : 0 < dl)
    (he1 : el ≤ Axis * (1 - Offset) / (mh * qh) * 3.14159265358979323846)
    (he2 : Axis * (1 - Offset) / (ml * ql) * 3.14159265358979323847 ≤ eh) (hel : 0 < el)
    (a1 : lo1 ≤ lon + yl * 180.0 / dl) (a2 : lo1 ≤ lon + yl * 180.0 / dh)
    (a3 : lon + yh * 180.0 / dl ≤ hi1) (a4 : lon + yh * 180.0 / dh ≤ hi1)
    (b1 : lo2 ≤ lat + xl * 180.0 / el) (b2 : lo2 ≤ lat + xl * 180.0 / eh)
    (b3 : lat + xh * 180.0 / el ≤ hi2) (b4 : lat + xh * 180.0 / eh ≤ hi2) :
    (lo1 ≤ (delta realMath lon lat).1 ∧ (delta realMath lon lat).1 ≤ hi1) ∧
    (lo2 ≤ (delta realMath lon lat).2 ∧ (delta realMath lon lat).2 ≤ hi2) := by
  have hp1 := Real.pi_gt_d20
  have hp2 := Real.pi_lt_d20
  have hAx : (0 : ℝ) < Axis := by norm_num [Axis]
  have hOf : (0 : ℝ) < Offset := by norm_num [Offset]
  have hOf1 : (0 : ℝ) < 1 - Offset := by norm_num [Offset]
  generalize htx : (transform realMath (lon - 105.0) (lat - 35.0)).1 = tx at hx
  generalize hty : (transform realMath (lon - 105.0) (lat - 35.0)).2 = ty at hy
  have e1 : (delta realMath lon lat).1 = lon + ty * 180.0 /
      (Axis / Real.sqrt (1 - Offset * Real.sin (lat / 180.0 * Real.pi) *
        Real.sin (lat / 180.0 * Real.pi)) * Real.cos (lat / 180.0 * Real.pi) * Real.pi) := by
    rw [← hty]; simp only [delta, realMath]
  have e2 : (delta realMath lon lat).2 = lat + tx * 180.0 /
      (Axis * (1 - Offset) / ((1 - Offset * Real.sin (lat / 180.0 * Real.pi) *
        Real.sin (lat / 180.0 * Real.pi)) * Real.sqrt (1 - Offset * Real.sin (lat / 180.0 * Real.pi) *
        Real.sin (lat / 180.0 * Real.pi))) * Real.pi) := by
    rw [← htx]; simp only [delta, realMath]
  rw [e1, e2]
  generalize Real.sin (lat / 180.0 * Real.pi) = s at hs ⊢
  generalize Real.cos (lat / 180.0 * Real.pi) = c at hc ⊢
  -- magic
  have hss1 : sl * sl ≤ s * s := mul_self_le_mul_self hsl hs.1
  have hss2 : s * s ≤ sh * sh := mul_self_le_mul_self (le_trans hsl hs.1) hs.2
  have hm : ml ≤ 1 - Offset * s * s ∧ 1 - Offset * s * s ≤ mh := by
    constructor
    · have := mul_le_mul_of_nonneg_left hss2 hOf.le
      linarith only [this, hm1, mul_assoc (Offset : ℝ) s s, mul_assoc (Offset : ℝ) sh sh]
    · have := mul_le_mul_of_nonneg_left hss1 hOf.le
      linarith only [this, hm2, mul_assoc (Offset : ℝ) s s, mul_assoc (Offset : ℝ) sl sl]
  generalize 1 - Offset * s * s = m at hm ⊢
  have hmp : 0 < m := lt_of_lt_of_le hml hm.1
  have hq := sqrt_encl m ql qh hql.le hqh (le_trans hq1 hm.1) (le_trans hm.2 hq2)
  generalize Real.sqrt m = q at hq ⊢
  have hqp : 0 < q := lt_of_lt_of_le hql hq.1
  have hqhp : 0 < qh := lt_of_lt_of_le hqp hq.2
  have hcp : 0 < c := lt_of_lt_of_le hcl hc.1
  have hpp : (0 : ℝ) < 3.14159265358979323846 := by norm_num
  -- the two denominators
  have hD : dl ≤ Axis / q * c * Real.pi ∧ Axis / q * c * Real.pi ≤ dh := by
    have t1 : Axis / qh ≤ Axis / q := div_le_div_of_nonneg_left hAx.le hqp hq.2
    have t2 : Axis / q ≤ Axis / ql := div_le_div_of_nonneg_left hAx.le hql hq.1
    have t0 : 0 < Axis / qh := div_pos hAx hqhp
    have t3 : Axis / qh * cl ≤ Axis / q * c := mul_le_mul t1 hc.1 hcl.le (le_trans t0.le t1)
    have t4 : Axis / q * c ≤ Axis / ql * ch :=
      mul_le_mul t2 hc.2 hcp.le (le_trans (le_trans t0.le t1) t2)
    have t5 : 0 ≤ Axis / qh * cl := (mul_pos t0 hcl).le
    constructor
    · refine le_trans hd1 (mul_le_mul t3 hp1.le hpp.le (le_trans t5 t3))
    · refine le_trans (mul_le_mul t4 hp2.le Real.pi_pos.le
        (le_trans (le_trans t5 t3) t4)) hd2
  have hE : el ≤ Axis * (1 - Offset) / (m * q) * Real.pi ∧
      Axis * (1 - Offset) / (m * q) * Real.pi ≤ eh := by
    have hA : (0 : ℝ) < Axis * (1 - Offset) := mul_pos hAx hOf1
    have u1 : m * q ≤ mh * qh := mul_le_mul hm.2 hq.2 hqp.le (le_trans hmp.le hm.2)
    have u2 : ml * ql ≤ m * q := mul_le_mul hm.1 hq.1 hql.le hmp.le
    have u3 : 0 < ml * ql := mul_pos hml hql
    have u4 : 0 < m * q := mul_pos hmp hqp
    have t1 : Axis * (1 - Offset) / (mh * qh) ≤ Axis * (1 - Offset) / (m * q) :=
      div_le_div_of_nonneg_left hA.le u4 u1
    have t2 : Axis * (1 - Offset) / (m * q) ≤ Axis * (1 - Offset) / (ml * ql) :=
      div_le_div_of_nonneg_left hA.le u3 u2
    have t0 : 0 < Axis * (1 - Offset) / (mh * qh) := div_pos hA (lt_of_lt_of_le u4 u1)
    constructor
    · refine le_trans he1 (mul_le_mul t1 hp1.le hpp.le (le_trans t0.le t1))
    · refine le_trans (mul_le_mul t2 hp2.le Real.pi_pos.le (le_trans (le_trans t0.le t1) t2)) he2
  generalize Axis / q * c * Real.pi = D at hD ⊢
  generalize Axis * (1 - Offset) / (m * q) * Real.pi = E at hE ⊢
  have h180 : (0 : ℝ) ≤ 180.0 := by norm_num
  have r1 := div_encl (ty * 180.0) D (yl * 180.0) (yh * 180.0) dl dh (lo1 - lon) (hi1 - lon) hdl
    (mul_le_mul_of_nonneg_right hy.1 h180) (mul_le_mul_of_nonneg_right hy.2 h180) hD.1 hD.2
    (by linarith only [a1]) (by linarith only [a2]) (by linarith only [a3]) (by linarith only [a4])
  have r2 := div_encl (tx * 180.0) E (xl * 180.0) (xh * 180.0) el eh (lo2 - lat) (hi2 - lat) hel
    (mul_le_mul_of_nonneg_right hx.1 h180) (mul_le_mul_of_nonneg_right hx.2 h180) hE.1 hE.2
    (by linarith only [b1]) (by linarith only [b2]) (by linarith only [b3]) (by linarith only [b4])
  refine ⟨⟨?_, ?_⟩, ?_, ?_⟩
  · linarith only [r1.1]
  · linarith only [r1.2]
  · linarith only [r2.1]
  · linarith only [r2.2]

theorem encl_mul_pi (a al ah lo hi : ℝ) (h0 : 0 ≤ al) (ha1 : al ≤ a) (ha2 : a ≤ ah)
    (h1 : lo ≤ al * 3.14159265358979323846) (h2 : ah * 3.14159265358979323847 ≤ hi) :
    lo ≤ a * Real.pi ∧ a * Real.pi ≤ hi := by
  have hp1 := Real.pi_gt_d20
  have hp2 := Real.pi_lt_d20
  have ha : 0 ≤ a := le_trans h0 ha1
  constructor
  · exact le_trans h1 (mul_le_mul ha1 hp1.le (by norm_num) ha)
  · exact le_trans (mul_le_mul ha2 hp2.le Real.pi_pos.le (le_trans ha ha2)) h2

theorem encl_div_const (k x l h lo hi : ℝ) (hk : 0 < k) (hx : l ≤ x ∧ x ≤ h) (h1 : lo ≤ l / k)
    (h2 : h / k ≤ hi) : lo ≤ x / k ∧ x / k ≤ hi :=
  ⟨le_trans h1 (div_le_div_of_nonneg_right hx.1 hk.le),
    le_trans (div_le_div_of_nonneg_right hx.2 hk.le) h2⟩

/-- Lower bound of the first output of `transform` over the reals at a point with
non-negative coordinates, from lower bounds of its six sines and of the square root. -/
theorem transform_fst_ge (a b al bl l1 l2 l3 l4 l7 l8 ql xl : ℝ)
    (ha : al ≤ a) (hb : bl ≤ b) (ha0 : 0 ≤ al) (hb0 : 0 ≤ bl)
    (s1 : l1 ≤ Real.sin (6.0 * (a * Real.pi)))
    (s2 : l2 ≤ Real.sin (2.0 * (a * Real.pi)))
    (s3 : l3 ≤ Real.sin (b * Real.pi))
    (s4 : l4 ≤ Real.sin (b * Real.pi / 3.0))
    (s7 : l7 ≤ Real.sin (b * Real.pi / 12.0))
    (s8 : l8 ≤ Real.sin (b * Real.pi / 30.0))
    (q : ql ≤ Real.sqrt |a|)
    (c : xl ≤ (20.0 * l1 + 20.0 * l2 + (20.0 * l3 + 40.0 * l4) + (160.0 * l7 + 320 * l8)) *
      (2.0 / 3.0) + (2.0 * al + 3.0 * bl + 0.2 * bl * bl + 0.1 * (al * bl) + 0.2 * ql - 100.0)) :
    xl ≤ (transform realMath a b).1 := by
  simp only [transform, realMath]
  generalize Real.sin (6.0 * (a * Real.pi)) = t1 at s1 ⊢
  generalize Real.sin (2.0 * (a * Real.pi)) = t2 at s2 ⊢
  generalize Real.sin (b * Real.pi) = t3 at s3 ⊢
  generalize Real.sin (b * Real.pi / 3.0) = t4 at s4 ⊢
  generalize Real.sin (b * Real.pi / 12.0) = t7 at s7 ⊢
  generalize Real.sin (b * Real.pi / 30.0) = t8 at s8 ⊢
  generalize Real.sqrt |a| = t0 at q ⊢
  have hbb : bl * bl ≤ b * b := mul_self_le_mul_self hb0 hb
  have hab : al * bl ≤ a * b := mul_le_mul ha hb hb0 (le_trans ha0 ha)
  linarith

/-- The latitude offset applied by `delta` over the reals has the sign of the first
output of `transform`. -/
theorem delta_snd_sub_pos (lon lat : ℝ)
    (h : 0 < (transform realMath (lon - 105.0) (lat - 35.0)).1) :
    0 < (delta realMath lon lat).2 - lat := by
  have e2 : (delta realMath lon lat).2 = lat +
      (transform realMath (lon - 105.0) (lat - 35.0)).1 * 180.0 /
      (Axis * (1 - Offset) / ((1 - Offset * Real.sin (lat / 180.0 * Real.pi) *
        Real.sin (lat / 180.0 * Real.pi)) * Real.sqrt (1 - Offset * Real.sin (lat / 180.0 * Real.pi) *
        Real.sin (lat / 180.0 * Real.pi))) * Real.pi) := by
    simp only [delta, realMath]
  rw [e2, add_sub_cancel_left]
  have hs := Real.sin_sq_le_one (lat / 180.0 * Real.pi)
  generalize Real.sin (lat / 180.0 * Real.pi) = s at hs ⊢
  have hOf : (0 : ℝ) < Offset := by norm_num [Offset]
  have hOf1 : (Offset : ℝ) < 1 := by norm_num [Offset]
  have hm : 0 < 1 - Offset * s * s := by nlinarith
  have hq : 0 < Real.sqrt (1 - Offset * s * s) := Real.sqrt_pos.2 hm
  have hAx : (0 : ℝ) < Axis := by norm_num [Axis]
  have hE : 0 < Axis * (1 - Offset) / ((1 - Offset * s * s) * Real.sqrt (1 - Offset * s * s)) *
      Real.pi := by
    apply mul_pos _ Real.pi_pos
    apply div_pos (mul_pos hAx (by linarith)) (mul_pos hm hq)
  exact div_pos (mul_pos h (by norm_num)) hE

/-! ## The BD09 pair over the reals -/

theorem abs_mk_eq_sqrt (x y : ℝ) : Complex.abs ⟨x, y⟩ = Real.sqrt (x * x + y * y) := by
  rw [Complex.abs_apply, Complex.normSq_mk]

theorem cos_arg_add (x y d : ℝ) (hx : 0 < x) :
    Real.cos (Complex.arg ⟨x, y⟩ + d) =
      (x * Real.cos d - y * Real.sin d) / Real.sqrt (x * x + y * y) := by
  have hne : (⟨x, y⟩ : ℂ) ≠ 0 := by
    intro h
    have := congrArg Complex.re h
    simp at this
    linarith
  rw [Real.cos_add, Complex.cos_arg hne, Complex.sin_arg, abs_mk_eq_sqrt]
  ring

theorem sin_arg_add (x y d : ℝ) (hx : 0 < x) :
    Real.sin (Complex.arg ⟨x, y⟩ + d) =
      (y * Real.cos d + x * Real.sin d) / Real.sqrt (x * x + y * y) := by
  have hne : (⟨x, y⟩ : ℂ) ≠ 0 := by
    intro h
    have := congrArg Complex.re h
    simp at this
    linarith
  rw [Real.sin_add, Complex.cos_arg hne, Complex.sin_arg, abs_mk_eq_sqrt]
  ring

/-- Polar form undone: for `z > 0` and `θ` in `(-π, π]`, the point `(z cos θ, z sin θ)`
has modulus `z` and argument `θ`. -/
theorem polar_inverse (z t : ℝ) (hz : 0 < z) (ht : t ∈ Set.Ioc (-Real.pi) Real.pi) :
    Real.sqrt (z * Real.cos t * (z * Real.cos t) + z * Real.sin t * (z * Real.sin t)) = z ∧
    Complex.arg ⟨z * Real.cos t, z * Real.sin t⟩ = t := by
  constructor
  · have e : z * Real.cos t * (z * Real.cos t) + z * Real.sin t * (z * Real.sin t) = z ^ 2 := by
      have := Real.sin_sq_add_cos_sq t
      nlinarith
    rw [e, Real.sqrt_sq hz.le]
  · have e : (⟨z * Real.cos t, z * Real.sin t⟩ : ℂ) =
        (z : ℂ) * (Complex.cos t + Complex.sin t * Complex.I) := by
      apply Complex.ext <;> simp [← Complex.ofReal_cos, ← Complex.ofReal_sin]
    rw [e]
    exact Complex.arg_mul_cos_add_sin_mul_I hz ht

/-- `GCJ02toBD09` over the reals, east of the meridian `lon = 0`, with the polar angle
eliminated. -/
theorem GCJ02toBD09_real (lon lat : ℝ) (hlon : 0 < lon) :
    GCJ02toBD09 realMath lon lat =
      ((Real.sqrt (lon * lon + lat * lat) + 0.00002 * Real.sin (lat * XPi)) *
          ((lon * Real.cos (0.000003 * Real.cos (lon * XPi)) -
            lat * Real.sin (0.000003 * Real.cos (lon * XPi))) /
            Real.sqrt (lon * lon + lat * lat)) + BDLonOffset,
       (Real.sqrt (lon * lon + lat * lat) + 0.00002 * Real.sin (lat * XPi)) *
          ((lat * Real.cos (0.000003 * Real.cos (lon * XPi)) +
            lon * Real.sin (0.000003 * Real.cos (lon * XPi))) /
            Real.sqrt (lon * lon + lat * lat)) + BDLatOffset) := by
  simp only [GCJ02toBD09, realMath]
  rw [cos_arg_add lon lat _ hlon, sin_arg_add lon lat _ hlon]

/-- The composition `BD09toGCJ02 ∘ GCJ02toBD09` over the reals, for `lon ≥ 1`, with the
polar angle eliminated: `X`, `Y` are the intermediate BD09 point without its constant
offsets. -/
theorem BD09_roundtrip_real (lon lat X Y : ℝ) (hlon : 1 ≤ lon)
    (hX : X = (Real.sqrt (lon * lon + lat * lat) + 0.00002 * Real.sin (lat * XPi)) *
          ((lon * Real.cos (0.000003 * Real.cos (lon * XPi)) -
            lat * Real.sin (0.000003 * Real.cos (lon * XPi))) /
            Real.sqrt (lon * lon + lat * lat)))
    (hY : Y = (Real.sqrt (lon * lon + lat * lat) + 0.00002 * Real.sin (lat * XPi)) *
          ((lat * Real.cos (0.000003 * Real.cos (lon * XPi)) +
            lon * Real.sin (0.000003 * Real.cos (lon * XPi))) /
            Real.sqrt (lon * lon + lat * lat))) :
    BD09toGCJ02 realMath (GCJ02toBD09 realMath lon lat).1 (GCJ02toBD09 realMath lon lat).2 =
      ((Real.sqrt (lon * lon + lat * lat) + 0.00002 * Real.sin (lat * XPi) -
          0.00002 * Real.sin (Y * XPi)) *
        ((lon * Real.cos (0.000003 * Real.cos (lon * XPi) - 0.000003 * Real.cos (X * XPi)) -
          lat * Real.sin (0.000003 * Real.cos (lon * XPi) - 0.000003 * Real.cos (X * XPi))) /
          Real.sqrt (lon * lon + lat * lat)),
       (Real.sqrt (lon * lon + lat * lat) + 0.00002 * Real.sin (lat * XPi) -
          0.00002 * Real.sin (Y * XPi)) *
        ((lat * Real.cos (0.000003 * Real.cos (lon * XPi) - 0.000003 * Real.cos (X * XPi)) +
          lon * Real.sin (0.000003 * Real.cos (lon * XPi) - 0.000003 * Real.cos (X * XPi))) /
          Real.sqrt (lon * lon + lat * lat))) := by
  have hlon0 : 0 < lon := by linarith
  rw [← cos_arg_add lon lat _ hlon0] at hX
  rw [← sin_arg_add lon lat _ hlon0] at hY
  rw [← cos_arg_add lon lat _ hlon0, ← sin_arg_add lon lat _ hlon0]
  -- modulus and angle of the intermediate point
  have hr : lon ≤ Real.sqrt (lon * lon + lat * lat) := by
    apply Real.le_sqrt_of_sq_le
    nlinarith [mul_self_nonneg lat]
  have hs1 := Real.neg_one_le_sin (lat * XPi)
  have hz : 0 < Real.sqrt (lon * lon + lat * lat) + 0.00002 * Real.sin (lat * XPi) := by
    linarith
  have hc1 := Real.abs_cos_le_one (lon * XPi)
  rw [abs_le] at hc1
  have harg : |Complex.arg ⟨lon, lat⟩| < Real.pi / 2 :=
    Complex.abs_arg_lt_pi_div_two_iff.2 (Or.inl hlon0)
  rw [abs_lt] at harg
  have hpi := Real.pi_gt_three
  have ht : Complex.arg ⟨lon, lat⟩ + 0.000003 * Real.cos (lon * XPi) ∈
      Set.Ioc (-Real.pi) Real.pi := by
    constructor <;> linarith [harg.1, harg.2, hc1.1, hc1.2]
  obtain ⟨p1, p2⟩ := polar_inverse _ _ hz ht
  rw [← hX, ← hY] at p1 p2
  simp only [BD09toGCJ02, GCJ02toBD09, realMath, add_sub_cancel_right]
  rw [← hX, ← hY, p1, p2]
  simp only [add_sub_assoc]

theorem small_angle (d A : ℝ) (h1 : -A ≤ d) (h2 : d ≤ A) :
    (1 - A ^ 2 / 2 ≤ Real.cos d ∧ Real.cos d ≤ 1) ∧
    (d - A ^ 3 / 6 ≤ Real.sin d ∧ Real.sin d ≤ d + A ^ 3 / 6) := by
  have hA : 0 ≤ A := by linarith
  have habs : |d| ≤ A := abs_le.2 ⟨h1, h2⟩
  have hsq : d ^ 2 ≤ A ^ 2 := by
    rw [← sq_abs d]
    exact pow_le_pow_left (abs_nonneg d) habs 2
  have hcu : |d| ^ 3 ≤ A ^ 3 := pow_le_pow_left (abs_nonneg d) habs 3
  have hc := Real.one_sub_sq_div_two_le_cos (x := d)
  have hs := abs_sin_sub_sinSum_le 1 d
  have e1 : sinSum 1 d = d := by simp [sinSum]
  have e2 : ((2 * 1 + 1).factorial : ℝ) = 6 := by norm_num [Nat.factorial]
  rw [e1, e2, abs_le] at hs
  norm_num at hs
  refine ⟨⟨by linarith, Real.cos_le_one d⟩, ?_, ?_⟩ <;> linarith [hs.1, hs.2]

/-- Enclosure of `z (lon cos d - lat sin d) / r` and `z (lat cos d + lon sin d) / r`
for non-negative `lon`, `lat`, `z`, positive `r` and a small angle `|d| ≤ A`. -/
theorem polar_encl (lon lat r z d rl rh zl zh dl dh A lo1 hi1 lo2 hi2 : ℝ)
    (hlon : 0 ≤ lon) (hlat : 0 ≤ lat)
    (hr : rl ≤ r ∧ r ≤ rh) (hrl : 0 < rl)
    (hz : zl ≤ z ∧ z ≤ zh) (hzl : 0 ≤ zl)
    (hd : dl ≤ d ∧ d ≤ dh) (hA1 : -A ≤ dl) (hA2 : dh ≤ A)
    (u0 : 0 ≤ lon * (1 - A ^ 2 / 2) - lat * (dh + A ^ 3 / 6))
    (v0 : 0 ≤ lat * (1 - A ^ 2 / 2) + lon * (dl - A ^ 3 / 6))
    (c1 : lo1 ≤ zl * ((lon * (1 - A ^ 2 / 2) - lat * (dh + A ^ 3 / 6)) / rh))
    (c2 : zh * ((lon - lat * (dl - A ^ 3 / 6)) / rl) ≤ hi1)
    (c3 : lo2 ≤ zl * ((lat * (1 - A ^ 2 / 2) + lon * (dl - A ^ 3 / 6)) / rh))
    (c4 : zh * ((lat + lon * (dh + A ^ 3 / 6)) / rl) ≤ hi2) :
    (lo1 ≤ z * ((lon * Real.cos d - lat * Real.sin d) / r) ∧
      z * ((lon * Real.cos d - lat * Real.sin d) / r) ≤ hi1) ∧
    (lo2 ≤ z * ((lat * Real.cos d + lon * Real.sin d) / r) ∧
      z * ((lat * Real.cos d + lon * Real.sin d) / r) ≤ hi2) := by
  obtain ⟨⟨hc1, hc2⟩, hs1, hs2⟩ := small_angle d A (by linarith [hd.1]) (by linarith [hd.2])
  generalize Real.cos d = c at hc1 hc2 ⊢
  generalize Real.sin d = s at hs1 hs2 ⊢
  have hrp : 0 < r := lt_of_lt_of_le hrl hr.1
  have hzp : 0 ≤ z := le_trans hzl hz.1
  have U1 : lon * (1 - A ^ 2 / 2) - lat * (dh + A ^ 3 / 6) ≤ lon * c - lat * s := by
    have a1 := mul_le_mul_of_nonneg_left hc1 hlon
    have a2 : lat * s ≤ lat * (dh + A ^ 3 / 6) :=
      mul_le_mul_of_nonneg_left (by linarith [hd.2]) hlat
    linarith
  have U2 : lon * c - lat * s ≤ lon - lat * (dl - A ^ 3 / 6) := by
    have a1 := mul_le_mul_of_nonneg_left hc2 hlon
    have a2 : lat * (dl - A ^ 3 / 6) ≤ lat * s :=
      mul_le_mul_of_nonneg_left (by linarith [hd.1]) hlat
    linarith
  have V1 : lat * (1 - A ^ 2 / 2) + lon * (dl - A ^ 3 / 6) ≤ lat * c + lon * s := by
    have a1 := mul_le_mul_of_nonneg_left hc1 hlat
    have a2 : lon * (dl - A ^ 3 / 6) ≤ lon * s :=
      mul_le_mul_of_nonneg_left (by linarith [hd.1]) hlon
    linarith
  have V2 : lat * c + lon * s ≤ lat + lon * (dh + A ^ 3 / 6) := by
    have a1 := mul_le_mul_of_nonneg_left hc2 hlat
    have a2 : lon * s ≤ lon * (dh + A ^ 3 / 6) :=
      mul_le_mul_of_nonneg_left (by linarith [hd.2]) hlon
    linarith
  generalize lon * c - lat * s = U at U1 U2 ⊢
  generalize lat * c + lon * s = V at V1 V2 ⊢
  generalize lon * (1 - A ^ 2 / 2) - lat * (dh + A ^ 3 / 6) = Ul at u0 c1 U1
  generalize lon - lat * (dl - A ^ 3 / 6) = Uh at c2 U2
  generalize lat * (1 - A ^ 2 / 2) + lon * (dl - A ^ 3 / 6) = Vl at v0 c3 V1
  generalize lat + lon * (dh + A ^ 3 / 6) = Vh at c4 V2
  have q1 := div_encl U r Ul Uh rl rh (Ul / rh) (Uh / rl) hrl U1 U2 hr.1 hr.2
    (div_le_div_of_nonneg_left u0 hrl (le_trans hr.1 hr.2)) le_rfl le_rfl
    (div_le_div_of_nonneg_left (le_trans u0 (le_trans U1 U2)) hrl (le_trans hr.1 hr.2))
  have q2 := div_encl V r Vl Vh rl rh (Vl / rh) (Vh / rl) hrl V1 V2 hr.1 hr.2
    (div_le_div_of_nonneg_left v0 hrl (le_trans hr.1 hr.2)) le_rfl le_rfl
    (div_le_div_of_nonneg_left (le_trans v0 (le_trans V1 V2)) hrl (le_trans hr.1 hr.2))
  have hrh : 0 < rh := lt_of_lt_of_le hrp hr.2
  have n1 : 0 ≤ Ul / rh := div_nonneg u0 hrh.le
  have n2 : 0 ≤ Vl / rh := div_nonneg v0 hrh.le
  refine ⟨⟨?_, ?_⟩, ?_, ?_⟩
  · exact le_trans c1 (mul_le_mul hz.1 q1.1 n1 hzp)
  · exact le_trans (mul_le_mul hz.2 q1.2 (le_trans n1 q1.1) (le_trans hzp hz.2)) c2
  · exact le_trans c3 (mul_le_mul hz.1 q2.1 n2 hzp)
  · exact le_trans (mul_le_mul hz.2 q2.2 (le_trans n2 q2.1) (le_trans hzp hz.2)) c4

/-- Moving the polar form of `(lon, lat)` by a radius offset `w` and an angle offset `d`
moves each coordinate by at most `W` plus the arc `D` times the other coordinate plus a
second-order term. -/
theorem polar_perturb (lon lat r w d W D : ℝ) (hlon : 0 ≤ lon) (hlat : 0 ≤ lat)
    (hr : 0 < r) (hr2 : r * r = lon * lon + lat * lat)
    (hw : |w| ≤ W) (hd : |d| ≤ D) :
    |(r + w) * ((lon * Real.cos d - lat * Real.sin d) / r) - lon| ≤
      lon * (D ^ 2 / 2) + lat * D + W ∧
    |(r + w) * ((lat * Real.cos d + lon * Real.sin d) / r) - lat| ≤
      lat * (D ^ 2 / 2) + lon * D + W := by
  have hD : 0 ≤ D := le_trans (abs_nonneg d) hd
  have hc1 := Real.one_sub_sq_div_two_le_cos (x := d)
  have hc2 := Real.cos_le_one d
  have hsd := Real.abs_sin_le_abs (x := d)
  have hsc := Real.sin_sq_add_cos_sq d
  have hdd : d ^ 2 ≤ D ^ 2 := by
    rw [← sq_abs d]
    exact pow_le_pow_left (abs_nonneg d) hd 2
  have hsD : |Real.sin d| ≤ D := le_trans hsd hd
  generalize Real.cos d = c at *
  generalize Real.sin d = s at *
  rw [abs_le] at hsD
  -- the rotated vector has the same length
  have hUV : (lon * c - lat * s) ^ 2 + (lat * c + lon * s) ^ 2 = r ^ 2 := by
    have : (lon * c - lat * s) ^ 2 + (lat * c + lon * s) ^ 2 =
        (lon * lon + lat * lat) * (s ^ 2 + c ^ 2) := by ring
    rw [this, hsc, mul_one, ← hr2]; ring
  have hU : |(lon * c - lat * s) / r| ≤ 1 := by
    rw [abs_div, abs_of_pos hr, div_le_one hr]
    apply abs_le_of_sq_le_sq _ hr.le
    linarith [sq_nonneg (lat * c + lon * s)]
  have hV : |(lat * c + lon * s) / r| ≤ 1 := by
    rw [abs_div, abs_of_pos hr, div_le_one hr]
    apply abs_le_of_sq_le_sq _ hr.le
    linarith [sq_nonneg (lon * c - lat * s)]
  have hwU : |w * ((lon * c - lat * s) / r)| ≤ W := by
    rw [abs_mul]
    calc |w| * |(lon * c - lat * s) / r| ≤ W * 1 :=
          mul_le_mul hw hU (abs_nonneg _) (le_trans (abs_nonneg w) hw)
      _ = W := mul_one W
  have hwV : |w * ((lat * c + lon * s) / r)| ≤ W := by
    rw [abs_mul]
    calc |w| * |(lat * c + lon * s) / r| ≤ W * 1 :=
          mul_le_mul hw hV (abs_nonneg _) (le_trans (abs_nonneg w) hw)
      _ = W := mul_one W
  have e1 : (r + w) * ((lon * c - lat * s) / r) - lon =
      (lon * (c - 1) - lat * s) + w * ((lon * c - lat * s) / r) := by
    field_simp; ring
  have e2 : (r + w) * ((lat * c + lon * s) / r) - lat =
      (lat * (c - 1) + lon * s) + w * ((lat * c + lon * s) / r) := by
    field_simp; ring
  rw [e1, e2]
  rw [abs_le] at hwU hwV
  have k1 : lon * (1 - c) ≤ lon * (D ^ 2 / 2) := mul_le_mul_of_nonneg_left (by linarith) hlon
  have k2 : 0 ≤ lon * (1 - c) := mul_nonneg hlon (by linarith)
  have k3 : lat * (1 - c) ≤ lat * (D ^ 2 / 2) := mul_le_mul_of_nonneg_left (by linarith) hlat
  have k4 : 0 ≤ lat * (1 - c) := mul_nonneg hlat (by linarith)
  have k5 : lat * s ≤ lat * D := mul_le_mul_of_nonneg_left hsD.2 hlat
  have k6 : lat * (-D) ≤ lat * s := mul_le_mul_of_nonneg_left hsD.1 hlat
  have k7 : lon * s ≤ lon * D := mul_le_mul_of_nonneg_left hsD.2 hlon
  have k8 : lon * (-D) ≤ lon * s := mul_le_mul_of_nonneg_left hsD.1 hlon
  constructor <;> rw [abs_le] <;> constructor <;> linarith [hwU.1, hwU.2, hwV.1, hwV.2]

theorem abs_const_mul_le (k x : ℝ) (hk : 0 ≤ k) (hx : |x| ≤ 1) : |k * x| ≤ k := by
  rw [abs_mul, abs_of_nonneg hk]
  exact mul_le_of_le_one_right hk hx

theorem abs_scaled_sub_le (k u v e b : ℝ) (hk : 0 ≤ k) (h : |u - v| ≤ e) (hb : k * e ≤ b) :
    |k * u - k * v| ≤ b := by
  rw [← mul_sub, abs_mul, abs_of_nonneg hk]
  exact le_trans (mul_le_mul_of_nonneg_left h hk) hb

theorem abs_sin_mul_sub_le (x y k e : ℝ) (hk : 0 ≤ k) (h : |y - x| ≤ e) :
    |Real.sin (x * k) - Real.sin (y * k)| ≤ k * e := by
  refine le_trans (abs_sin_sub_sin_le _ _) ?_
  have e1 : x * k - y * k = -((y - x) * k) := by ring
  rw [e1, abs_neg, abs_mul, abs_of_nonneg hk, mul_comm]
  exact mul_le_mul_of_nonneg_left h hk

theorem abs_cos_mul_sub_le (x y k e : ℝ) (hk : 0 ≤ k) (h : |y - x| ≤ e) :
    |Real.cos (x * k) - Real.cos (y * k)| ≤ k * e := by
  refine le_trans (abs_cos_sub_cos_le _ _) ?_
  have e1 : x * k - y * k = -((y - x) * k) := by ring
  rw [e1, abs_neg, abs_mul, abs_of_nonneg hk, mul_comm]
  exact mul_le_mul_of_nonneg_left h hk

theorem bd_first_leg_bound (lon lat : ℝ) (h2 : lon < 135.05) (h4 : lat < 53.55) :
    lon * (0.000003 ^ 2 / 2) + lat * 0.000003 + 0.00002 ≤ 0.000181 ∧
    lat * (0.000003 ^ 2 / 2) + lon * 0.000003 + 0.00002 ≤ 0.000426 := by
  constructor <;> norm_num <;> linarith

theorem bd_second_leg_bound (lon lat : ℝ) (h2 : lon < 135.05) (h4 : lat < 53.55) :
    lon * (0.0000000285 ^ 2 / 2) + lat * 0.0000000285 + 0.000000447 < 5e-6 ∧
    lat * (0.0000000285 ^ 2 / 2) + lon * 0.0000000285 + 0.000000447 < 5e-6 := by
  constructor <;> norm_num <;> linarith

/-- Over the reals, inside the China box, `BD09toGCJ02 ∘ GCJ02toBD09` moves each
coordinate by less than `5e-6` degrees. -/
theorem BD09_roundtrip_bound (lon lat : ℝ) (h1 : 73.66 < lon) (h2 : lon < 135.05)
    (h3 : 3.86 < lat) (h4 : lat < 53.55) :
    |(BD09toGCJ02 realMath (GCJ02toBD09 realMath lon lat).1
        (GCJ02toBD09 realMath lon lat).2).1 - lon| < 5e-6 ∧
    |(BD09toGCJ02 realMath (GCJ02toBD09 realMath lon lat).1
        (GCJ02toBD09 realMath lon lat).2).2 - lat| < 5e-6 := by
  have hlon : 0 ≤ lon := le_trans (by norm_num) h1.le
  have hlat : 0 ≤ lat := le_trans (by norm_num) h3.le
  have hlon1 : 1 ≤ lon := le_trans (by norm_num) h1.le
  have hpos : 0 < lon * lon + lat * lat :=
    add_pos_of_pos_of_nonneg (mul_pos (lt_of_lt_of_le one_pos hlon1)
      (lt_of_lt_of_le one_pos hlon1)) (mul_self_nonneg lat)
  have hr : 0 < Real.sqrt (lon * lon + lat * lat) := Real.sqrt_pos.2 hpos
  have hr2 := Real.mul_self_sqrt hpos.le
  have hK : (0 : ℝ) ≤ XPi := by norm_num [XPi]
  obtain ⟨f1, f2⟩ := bd_first_leg_bound lon lat h2 h4
  obtain ⟨g1, g2⟩ := bd_second_leg_bound lon lat h2 h4
  -- first leg
  have hw1 := abs_const_mul_le 0.00002 _ (by norm_num) (Real.abs_sin_le_one (lat * XPi))
  have hd1 := abs_const_mul_le 0.000003 _ (by norm_num) (Real.abs_cos_le_one (lon * XPi))
  obtain ⟨pX, pY⟩ := polar_perturb lon lat _ _ _ 0.00002 0.000003 hlon hlat hr hr2 hw1 hd1
  obtain ⟨X, hX⟩ : ∃ X : ℝ, X = (Real.sqrt (lon * lon + lat * lat) +
      0.00002 * Real.sin (lat * XPi)) *
      ((lon * Real.cos (0.000003 * Real.cos (lon * XPi)) -
        lat * Real.sin (0.000003 * Real.cos (lon * XPi))) /
        Real.sqrt (lon * lon + lat * lat)) := ⟨_, rfl⟩
  obtain ⟨Y, hY⟩ : ∃ Y : ℝ, Y = (Real.sqrt (lon * lon + lat * lat) +
      0.00002 * Real.sin (lat * XPi)) *
      ((lat * Real.cos (0.000003 * Real.cos (lon * XPi)) +
        lon * Real.sin (0.000003 * Real.cos (lon * XPi))) /
        Real.sqrt (lon * lon + lat * lat)) := ⟨_, rfl⟩
  rw [← hX] at pX
  rw [← hY] at pY
  have bX : |X - lon| ≤ 0.000181 := le_trans pX f1
  have bY : |Y - lat| ≤ 0.000426 := le_trans pY f2
  -- second leg
  have hw2 := abs_scaled_sub_le 0.00002 _ _ _ 0.000000447 (by norm_num)
    (abs_sin_mul_sub_le lat Y XPi _ hK bY) (by norm_num [XPi])
  have hd2 := abs_scaled_sub_le 0.000003 _ _ _ 0.0000000285 (by norm_num)
    (abs_cos_mul_sub_le lon X XPi _ hK bX) (by norm_num [XPi])
  obtain ⟨q1, q2⟩ := polar_perturb lon lat _ _ _ 0.000000447 0.0000000285 hlon hlat hr hr2 hw2 hd2
  rw [BD09_roundtrip_real lon lat X Y hlon1 hX hY]
  dsimp only
  rw [add_sub_assoc]
  exact ⟨lt_of_le_of_lt q1 g1, lt_of_le_of_lt q2 g2⟩

/-! ## Continuity of the offset of `delta` over the reals -/

theorem abs_mul_le_mul (x y X Y : ℝ) (hx : |x| ≤ X) (hy : |y| ≤ Y) : |x * y| ≤ X * Y := by
  rw [abs_mul]
  exact mul_le_mul hx hy (abs_nonneg y) (le_trans (abs_nonneg x) hx)

theorem abs_sqrt_sub_sqrt_le (x y : ℝ) (hx : 0 ≤ x) (hy : 0 ≤ y) :
    |Real.sqrt x - Real.sqrt y| ≤ Real.sqrt |x - y| := by
  have key : ∀ u v : ℝ, 0 ≤ v → v ≤ u → Real.sqrt u - Real.sqrt v ≤ Real.sqrt (u - v) := by
    intro u v hv huv
    have hd : 0 ≤ u - v := sub_nonneg.2 huv
    have h1 : Real.sqrt u ≤ Real.sqrt v + Real.sqrt (u - v) := by
      rw [Real.sqrt_le_left (add_nonneg (Real.sqrt_nonneg _) (Real.sqrt_nonneg _))]
      have a1 := Real.sq_sqrt hv
      have a2 := Real.sq_sqrt hd
      have a3 := mul_nonneg (Real.sqrt_nonneg v) (Real.sqrt_nonneg (u - v))
      nlinarith
    linarith
  rcases le_total y x with h | h
  · rw [abs_of_nonneg (sub_nonneg.2 (Real.sqrt_le_sqrt h)), abs_of_nonneg (sub_nonneg.2 h)]
    exact key x y hy h
  · rw [abs_of_nonpos (sub_nonpos.2 (Real.sqrt_le_sqrt h)), abs_of_nonpos (sub_nonpos.2 h),
      neg_sub, neg_sub]
    exact key y x hx h

theorem abs_sqrt_abs_sub_le (a b e : ℝ) (h : |a - b| ≤ e) :
    |Real.sqrt (abs a) - Real.sqrt (abs b)| ≤ Real.sqrt e := by
  refine le_trans (abs_sqrt_sub_sqrt_le _ _ (abs_nonneg a) (abs_nonneg b)) ?_
  exact Real.sqrt_le_sqrt (le_trans (abs_abs_sub_abs_le_abs_sub a b) h)

/-- Lipschitz bound of a sine whose argument is `k (a π)`. -/
theorem abs_sin_mul_pi_sub_le (k a b e : ℝ) (hk : 0 ≤ k) (h : |a - b| ≤ e) :
    |Real.sin (k * (a * Real.pi)) - Real.sin (k * (b * Real.pi))| ≤ k * 4 * e := by
  refine le_trans (abs_sin_sub_sin_le _ _) ?_
  have e1 : k * (a * Real.pi) - k * (b * Real.pi) = k * Real.pi * (a - b) := by ring
  rw [e1]
  have h4 : |k * Real.pi| ≤ k * 4 := by
    rw [abs_of_nonneg (mul_nonneg hk Real.pi_pos.le)]
    exact mul_le_mul_of_nonneg_left Real.pi_le_four hk
  exact abs_mul_le_mul _ _ _ _ h4 h

/-- Lipschitz bound of a sine whose argument is `a π / k`. -/
theorem abs_sin_pi_div_sub_le (k a b e : ℝ) (hk : 0 < k) (h : |a - b| ≤ e) :
    |Real.sin (a * Real.pi / k) - Real.sin (b * Real.pi / k)| ≤ 4 / k * e := by
  refine le_trans (abs_sin_sub_sin_le _ _) ?_
  have e1 : a * Real.pi / k - b * Real.pi / k = Real.pi / k * (a - b) := by ring
  rw [e1]
  have h4 : |Real.pi / k| ≤ 4 / k := by
    rw [abs_of_nonneg (div_nonneg Real.pi_pos.le hk.le)]
    exact div_le_div_of_nonneg_right Real.pi_le_four hk.le
  exact abs_mul_le_mul _ _ _ _ h4 h

theorem abs_sin_pi_sub_le (a b e : ℝ) (h : |a - b| ≤ e) :
    |Real.sin (a * Real.pi) - Real.sin (b * Real.pi)| ≤ 4 * e := by
  refine le_trans (abs_sin_sub_sin_le _ _) ?_
  have e1 : a * Real.pi - b * Real.pi = Real.pi * (a - b) := by ring
  rw [e1]
  have h4 : |Real.pi| ≤ 4 := by
    rw [abs_of_nonneg Real.pi_pos.le]
    exact Real.pi_le_four
  exact abs_mul_le_mul _ _ _ _ h4 h

theorem poly_fst_holder (a b a' b' e : ℝ) (ha : |a| ≤ 32) (hb : |b| ≤ 32)
    (hb' : |b'| ≤ 32) (h1 : |a - a'| ≤ e) (h2 : |b - b'| ≤ e) :
    |(2.0 * a + 3.0 * b + 0.2 * b * b + 0.1 * (a * b)) -
      (2.0 * a' + 3.0 * b' + 0.2 * b' * b' + 0.1 * (a' * b'))| ≤ 25 * e := by
  have hbb : |b + b'| ≤ 32 + 32 := le_trans (abs_add _ _) (add_le_add hb hb')
  have m1 := abs_mul_le_mul _ _ _ _ h2 hbb
  have m2 := abs_mul_le_mul _ _ _ _ ha h2
  have m3 := abs_mul_le_mul _ _ _ _ hb' h1
  rw [abs_le] at h1 h2 m1 m2 m3 ⊢
  have e1 : (2.0 * a + 3.0 * b + 0.2 * b * b + 0.1 * (a * b)) -
      (2.0 * a' + 3.0 * b' + 0.2 * b' * b' + 0.1 * (a' * b')) =
      2 * (a - a') + 3 * (b - b') + 0.2 * ((b - b') * (b + b')) +
        0.1 * (a * (b - b') + b' * (a - a')) := by ring
  rw [e1]
  constructor
  · linarith only [h1.1, h2.1, m1.1, m2.1, m3.1, h1.2]
  · linarith only [h1.2, h2.2, m1.2, m2.2, m3.2, h1.1]

theorem poly_snd_holder (a b a' b' e : ℝ) (ha : |a| ≤ 32) (ha' : |a'| ≤ 32)
    (hb' : |b'| ≤ 32) (h1 : |a - a'| ≤ e) (h2 : |b - b'| ≤ e) :
    |(a + 2.0 * b + 0.1 * a * a + 0.1 * (a * b)) -
      (a' + 2.0 * b' + 0.1 * a' * a' + 0.1 * (a' * b'))| ≤ 25 * e := by
  have haa : |a + a'| ≤ 32 + 32 := le_trans (abs_add _ _) (add_le_add ha ha')
  have m1 := abs_mul_le_mul _ _ _ _ h1 haa
  have m2 := abs_mul_le_mul _ _ _ _ ha h2
  have m3 := abs_mul_le_mul _ _ _ _ hb' h1
  rw [abs_le] at h1 h2 m1 m2 m3 ⊢
  have e1 : (a + 2.0 * b + 0.1 * a * a + 0.1 * (a * b)) -
      (a' + 2.0 * b' + 0.1 * a' * a' + 0.1 * (a' * b')) =
      (a - a') + 2 * (b - b') + 0.1 * ((a - a') * (a + a')) +
        0.1 * (a * (b - b') + b' * (a - a')) := by ring
  rw [e1]
  constructor
  · linarith only [h1.1, h2.1, m1.1, m2.1, m3.1, h1.2]
  · linarith only [h1.2, h2.2, m1.2, m2.2, m3.2, h1.1]

/-- Hölder-type continuity of `transform` over the reals on the square of half-width 32:
two inputs that differ by at most `e` in each coordinate give outputs that differ by at
most `900 e + 0.2 √e`. -/
theorem transform_holder (a b a' b' e : ℝ) (ha : |a| ≤ 32) (hb : |b| ≤ 32)
    (ha' : |a'| ≤ 32) (hb' : |b'| ≤ 32) (h1 : |a - a'| ≤ e) (h2 : |b - b'| ≤ e) :
    |(transform realMath a b).1 - (transform realMath a' b').1| ≤ 900 * e + 0.2 * Real.sqrt e ∧
    |(transform realMath a b).2 - (transform realMath a' b').2| ≤ 900 * e + 0.2 * Real.sqrt e := by
  have s1 := abs_sin_mul_pi_sub_le 6.0 a a' e (by norm_num) h1
  have s2 := abs_sin_mul_pi_sub_le 2.0 a a' e (by norm_num) h1
  have s3 := abs_sin_pi_sub_le b b' e h2
  have s4 := abs_sin_pi_div_sub_le 3.0 b b' e (by norm_num) h2
  have s5 := abs_sin_pi_sub_le a a' e h1
  have s6 := abs_sin_pi_div_sub_le 3.0 a a' e (by norm_num) h1
  have s7 := abs_sin_pi_div_sub_le 12.0 b b' e (by norm_num) h2
  have s8 := abs_sin_pi_div_sub_le 30.0 b b' e (by norm_num) h2
  have s9 := abs_sin_pi_div_sub_le 12.0 a a' e (by norm_num) h1
  have s10 := abs_sin_pi_div_sub_le 30.0 a a' e (by norm_num) h1
  have q := abs_sqrt_abs_sub_le a a' e h1
  have p1 := poly_fst_holder a b a' b' e ha hb hb' h1 h2
  have p2 := poly_snd_holder a b a' b' e ha ha' hb' h1 h2
  have he : 0 ≤ e := le_trans (abs_nonneg _) h1
  simp only [transform, realMath]
  generalize Real.sin (6.0 * (a * Real.pi)) = t1 at s1 ⊢
  generalize Real.sin (2.0 * (a * Real.pi)) = t2 at s2 ⊢
  generalize Real.sin (b * Real.pi) = t3 at s3 ⊢
  generalize Real.sin (b * Real.pi / 3.0) = t4 at s4 ⊢
  generalize Real.sin (a * Real.pi) = t5 at s5 ⊢
  generalize Real.sin (a * Real.pi / 3.0) = t6 at s6 ⊢
  generalize Real.sin (b * Real.pi / 12.0) = t7 at s7 ⊢
  generalize Real.sin (b * Real.pi / 30.0) = t8 at s8 ⊢
  generalize Real.sin (a * Real.pi / 12.0) = t9 at s9 ⊢
  generalize Real.sin (a * Real.pi / 30.0) = t10 at s10 ⊢
  generalize Real.sqrt |a| = t0 at q ⊢
  generalize 2.0 * a + 3.0 * b + 0.2 * b * b + 0.1 * (a * b) = P1 at p1 ⊢
  generalize a + 2.0 * b + 0.1 * a * a + 0.1 * (a * b) = P2 at p2 ⊢
  generalize Real.sin (6.0 * (a' * Real.pi)) = u1 at s1 ⊢
  generalize Real.sin (2.0 * (a' * Real.pi)) = u2 at s2 ⊢
  generalize Real.sin (b' * Real.pi) = u3 at s3 ⊢
  generalize Real.sin (b' * Real.pi / 3.0) = u4 at s4 ⊢
  generalize Real.sin (a' * Real.pi) = u5 at s5 ⊢
  generalize Real.sin (a' * Real.pi / 3.0) = u6 at s6 ⊢
  generalize Real.sin (b' * Real.pi / 12.0) = u7 at s7 ⊢
  generalize Real.sin (b' * Real.pi / 30.0) = u8 at s8 ⊢
  generalize Real.sin (a' * Real.pi / 12.0) = u9 at s9 ⊢
  generalize Real.sin (a' * Real.pi / 30.0) = u10 at s10 ⊢
  generalize Real.sqrt |a'| = u0 at q ⊢
  generalize 2.0 * a' + 3.0 * b' + 0.2 * b' * b' + 0.1 * (a' * b') = Q1 at p1 ⊢
  generalize a' + 2.0 * b' + 0.1 * a' * a' + 0.1 * (a' * b') = Q2 at p2 ⊢
  generalize Real.sqrt e = r at q ⊢
  rw [abs_le] at s1 s2 s3 s4 s5 s6 s7 s8 s9 s10 q p1 p2
  rw [abs_le, abs_le]
  refine ⟨⟨?_, ?_⟩, ?_, ?_⟩
  · linarith only [s1.1, s2.1, s3.1, s4.1, s7.1, s8.1, q.1, p1.1, he,
      s1.2, s2.2, s3.2, s4.2, s7.2, s8.2, q.2, p1.2]
  · linarith only [s1.1, s2.1, s3.1, s4.1, s7.1, s8.1, q.1, p1.1, he,
      s1.2, s2.2, s3.2, s4.2, s7.2, s8.2, q.2, p1.2]
  · linarith only [s1.1, s2.1, s5.1, s6.1, s9.1, s10.1, q.1, p2.1, he,
      s1.2, s2.2, s5.2, s6.2, s9.2, s10.2, q.2, p2.2]
  · linarith only [s1.1, s2.1, s5.1, s6.1, s9.1, s10.1, q.1, p2.1, he,
      s1.2, s2.2, s5.2, s6.2, s9.2, s10.2, q.2, p2.2]

/-- Crude size bound of `transform` over the reals on the square of half-width 32. -/
theorem transform_abs_le (a b : ℝ) (ha : |a| ≤ 32) (hb : |b| ≤ 32) :
    |(transform realMath a b).1| ≤ 1000 ∧ |(transform realMath a b).2| ≤ 1000 := by
  have s1 := Real.sin_le_one (6.0 * (a * Real.pi))
  have s1' := Real.neg_one_le_sin (6.0 * (a * Real.pi))
  have s2 := Real.sin_le_one (2.0 * (a * Real.pi))
  have s2' := Real.neg_one_le_sin (2.0 * (a * Real.pi))
  have s3 := Real.sin_le_one (b * Real.pi)
  have s3' := Real.neg_one_le_sin (b * Real.pi)
  have s4 := Real.sin_le_one (b * Real.pi / 3.0)
  have s4' := Real.neg_one_le_sin (b * Real.pi / 3.0)
  have s5 := Real.sin_le_one (a * Real.pi)
  have s5' := Real.neg_one_le_sin (a * Real.pi)
  have s6 := Real.sin_le_one (a * Real.pi / 3.0)
  have s6' := Real.neg_one_le_sin (a * Real.pi / 3.0)
  have s7 := Real.sin_le_one (b * Real.pi / 12.0)
  have s7' := Real.neg_one_le_sin (b * Real.pi / 12.0)
  have s8 := Real.sin_le_one (b * Real.pi / 30.0)
  have s8' := Real.neg_one_le_sin (b * Real.pi / 30.0)
  have s9 := Real.sin_le_one (a * Real.pi / 12.0)
  have s9' := Real.neg_one_le_sin (a * Real.pi / 12.0)
  have s10 := Real.sin_le_one (a * Real.pi / 30.0)
  have s10' := Real.neg_one_le_sin (a * Real.pi / 30.0)
  have q := sqrt_encl |a| 0 6 le_rfl (by norm_num) (by simpa using abs_nonneg a)
    (le_trans ha (by norm_num))
  have m1 := abs_mul_le_mul _ _ _ _ hb hb
  have m2 := abs_mul_le_mul _ _ _ _ ha hb
  have m3 := abs_mul_le_mul _ _ _ _ ha ha
  simp only [transform, realMath]
  generalize Real.sin (6.0 * (a * Real.pi)) = t1 at s1 s1' ⊢
  generalize Real.sin (2.0 * (a * Real.pi)) = t2 at s2 s2' ⊢
  generalize Real.sin (b * Real.pi) = t3 at s3 s3' ⊢
  generalize Real.sin (b * Real.pi / 3.0) = t4 at s4 s4' ⊢
  generalize Real.sin (a * Real.pi) = t5 at s5 s5' ⊢
  generalize Real.sin (a * Real.pi / 3.0) = t6 at s6 s6' ⊢
  generalize Real.sin (b * Real.pi / 12.0) = t7 at s7 s7' ⊢
  generalize Real.sin (b * Real.pi / 30.0) = t8 at s8 s8' ⊢
  generalize Real.sin (a * Real.pi / 12.0) = t9 at s9 s9' ⊢
  generalize Real.sin (a * Real.pi / 30.0) = t10 at s10 s10' ⊢
  generalize Real.sqrt |a| = t0 at q ⊢
  have e1 : (0.2 : ℝ) * b * b = 0.2 * (b * b) := by ring
  have e2 : (0.1 : ℝ) * a * a = 0.1 * (a * a) := by ring
  rw [e1, e2]
  generalize b * b = bb at m1 ⊢
  generalize a * b = ab at m2 ⊢
  generalize a * a = aa at m3 ⊢
  rw [abs_le] at ha hb m1 m2 m3
  rw [abs_le, abs_le]
  refine ⟨⟨?_, ?_⟩, ?_, ?_⟩
  · linarith only [s1', s2', s3', s4', s7', s8', q.1, ha.1, hb.1, m1.1, m2.1]
  · linarith only [s1, s2, s3, s4, s7, s8, q.2, ha.2, hb.2, m1.2, m2.2]
  · linarith only [s1', s2', s5', s6', s9', s10', q.1, ha.1, hb.1, m3.1, m2.1]
  · linarith only [s1, s2, s5, s6, s9, s10, q.2, ha.2, hb.2, m3.2, m2.2]

theorem abs_scaled_prod_sub_le (T T' Q Q' a b c d k K : ℝ) (h1 : |T - T'| ≤ a) (h2 : |Q| ≤ b)
    (h3 : |T'| ≤ c) (h4 : |Q - Q'| ≤ d) (hk : 0 ≤ k) (hK : k ≤ K) :
    |k * (T * Q) - k * (T' * Q')| ≤ K * (a * b + c * d) := by
  have e1 : k * (T * Q) - k * (T' * Q') = k * ((T - T') * Q + T' * (Q - Q')) := by ring
  rw [e1]
  have m1 := abs_mul_le_mul _ _ _ _ h1 h2
  have m2 := abs_mul_le_mul _ _ _ _ h3 h4
  have m3 : |(T - T') * Q + T' * (Q - Q')| ≤ a * b + c * d :=
    le_trans (abs_add _ _) (add_le_add m1 m2)
  have hk' : |k| ≤ K := by rw [abs_of_nonneg hk]; exact hK
  exact abs_mul_le_mul _ _ _ _ hk' m3

/-- The latitude-dependent factors of `delta`: with `s`, `c` the sine and cosine of the
latitude, `m = 1 - Offset s²` and `q = √m`, the factors `m q` and `q / c` are bounded and
Lipschitz in `(s, c)` as long as `c ≥ 1/2`. -/
theorem lat_factors (s s' c c' d : ℝ) (hs : |s| ≤ 1) (hs' : |s'| ≤ 1) (hss : |s - s'| ≤ d)
    (hcc : |c - c'| ≤ d) (hc : 1 / 2 ≤ c) (hc' : 1 / 2 ≤ c') (hc1' : c' ≤ 1) :
    (0 < Real.sqrt (1 - Offset * s * s) ∧ 0 < Real.sqrt (1 - Offset * s' * s')) ∧
    |(1 - Offset * s * s) * Real.sqrt (1 - Offset * s * s)| ≤ 1 ∧
    |Real.sqrt (1 - Offset * s * s) / c| ≤ 2 ∧
    |(1 - Offset * s * s) * Real.sqrt (1 - Offset * s * s) -
      (1 - Offset * s' * s') * Real.sqrt (1 - Offset * s' * s')| ≤ 0.03 * d ∧
    |Real.sqrt (1 - Offset * s * s) / c - Real.sqrt (1 - Offset * s' * s') / c'| ≤ 4.1 * d := by
  have hd : 0 ≤ d := le_trans (abs_nonneg _) hss
  have hO : (Offset : ℝ) = 0.00669342162296594323 := rfl
  have b1 : |s * s| ≤ 1 * 1 := abs_mul_le_mul _ _ _ _ hs hs
  have b2 : |s' * s'| ≤ 1 * 1 := abs_mul_le_mul _ _ _ _ hs' hs'
  rw [abs_of_nonneg (mul_self_nonneg s)] at b1
  rw [abs_of_nonneg (mul_self_nonneg s')] at b2
  have n1 := mul_self_nonneg s
  have n2 := mul_self_nonneg s'
  have hm : (0.99 : ℝ) ≤ 1 - Offset * s * s ∧ 1 - Offset * s * s ≤ 1 := by
    rw [hO, mul_assoc]; constructor <;> nlinarith only [b1, n1]
  have hm' : (0.99 : ℝ) ≤ 1 - Offset * s' * s' ∧ 1 - Offset * s' * s' ≤ 1 := by
    rw [hO, mul_assoc]; constructor <;> nlinarith only [b2, n2]
  have hsum : |s + s'| ≤ 1 + 1 := le_trans (abs_add _ _) (add_le_add hs hs')
  have hmm : |(1 - Offset * s * s) - (1 - Offset * s' * s')| ≤ 0.014 * d := by
    have e : (1 - Offset * s * s) - (1 - Offset * s' * s') = -Offset * ((s - s') * (s + s')) := by
      ring
    rw [e]
    have hOa : |(-Offset : ℝ)| ≤ 0.007 := by rw [hO, abs_neg, abs_of_nonneg] <;> norm_num
    have := abs_mul_le_mul _ _ _ _ hOa (abs_mul_le_mul _ _ _ _ hss hsum)
    linarith only [this]
  generalize 1 - Offset * s * s = m at hm hmm ⊢
  generalize 1 - Offset * s' * s' = m' at hm' hmm ⊢
  have hq := sqrt_encl m 0.99 1 (by norm_num) (by norm_num)
    (le_trans (by norm_num) hm.1) (le_trans hm.2 (by norm_num))
  have hq' := sqrt_encl m' 0.99 1 (by norm_num) (by norm_num)
    (le_trans (by norm_num) hm'.1) (le_trans hm'.2 (by norm_num))
  have sq := Real.mul_self_sqrt (le_trans (by norm_num) hm.1 : 0 ≤ m)
  have sq' := Real.mul_self_sqrt (le_trans (by norm_num) hm'.1 : 0 ≤ m')
  generalize Real.sqrt m = q at hq sq ⊢
  generalize Real.sqrt m' = q' at hq' sq' ⊢
  have hqq : |q - q'| ≤ 0.014 * d := by
    have e : (q - q') * (q + q') = m - m' := by rw [← sq, ← sq']; ring
    have h1 : |q - q'| * (q + q') = |m - m'| := by
      rw [← e, abs_mul, abs_of_nonneg (by linarith only [hq.1, hq'.1] : 0 ≤ q + q')]
    have h2 : |q - q'| ≤ |q - q'| * (q + q') :=
      le_mul_of_one_le_right (abs_nonneg _) (by linarith only [hq.1, hq'.1])
    linarith only [h1, h2, hmm]
  have hqa : |q| ≤ 1 := by rw [abs_of_nonneg (le_trans (by norm_num) hq.1)]; exact hq.2
  have hqa' : |q'| ≤ 1 := by rw [abs_of_nonneg (le_trans (by norm_num) hq'.1)]; exact hq'.2
  have hma : |m| ≤ 1 := by rw [abs_of_nonneg (le_trans (by norm_num) hm.1)]; exact hm.2
  have hcp : 0 < c := lt_of_lt_of_le (by norm_num) hc
  have hcp' : 0 < c' := lt_of_lt_of_le (by norm_num) hc'
  refine ⟨⟨lt_of_lt_of_le (by norm_num) hq.1, lt_of_lt_of_le (by norm_num) hq'.1⟩, ?_, ?_, ?_, ?_⟩
  · simpa using abs_mul_le_mul _ _ _ _ hma hqa
  · rw [abs_div, abs_of_pos hcp, div_le_iff hcp]
    linarith only [hqa, hc]
  · have e : m * q - m' * q' = m * (q - q') + (m - m') * q' := by ring
    rw [e]
    have t1 := abs_mul_le_mul _ _ _ _ hma hqq
    have t2 := abs_mul_le_mul _ _ _ _ hmm hqa'
    have := abs_add (m * (q - q')) ((m - m') * q')
    linarith only [t1, t2, this, hd]
  · have e : q / c - q' / c' = ((q - q') * c' - q' * (c - c')) / (c * c') := by
      field_simp; ring
    have hcc0 : 0 < c * c' := mul_pos hcp hcp'
    have hcc1 : 1 / 4 ≤ c * c' := by nlinarith only [hc, hc']
    rw [e, abs_div, abs_of_pos hcc0, div_le_iff hcc0]
    have hca' : |c'| ≤ 1 := by rw [abs_of_pos hcp']; exact hc1'
    have t1 := abs_mul_le_mul _ _ _ _ hqq hca'
    have t2 := abs_mul_le_mul _ _ _ _ hqa' hcc
    have t3 := abs_sub ((q - q') * c') (q' * (c - c'))
    have t4 := mul_le_mul_of_nonneg_left hcc1 (by linarith only [hd] : 0 ≤ 4.1 * d)
    linarith only [t1, t2, t3, t4, hd]

/-- The two offsets of `delta`, written with the sine `s` and cosine `c` of the latitude
and the two outputs `tx`, `ty` of `transform`, are Hölder continuous in the data. -/
theorem offset_holder_alg (tx ty tx' ty' s c s' c' e r P : ℝ) (hP : 3 ≤ P)
    (hT1 : |tx - tx'| ≤ 900 * e + 0.2 * r) (hT2 : |ty - ty'| ≤ 900 * e + 0.2 * r)
    (hB1 : |tx'| ≤ 1000) (hB2 : |ty'| ≤ 1000)
    (hs : |s| ≤ 1) (hs' : |s'| ≤ 1) (hss : |s - s'| ≤ 0.023 * e) (hcc : |c - c'| ≤ 0.023 * e)
    (hc : 1 / 2 ≤ c) (hc' : 1 / 2 ≤ c') (hc1' : c' ≤ 1) (he : 0 ≤ e) (hr : 0 ≤ r) :
    |ty * 180.0 / (Axis / Real.sqrt (1 - Offset * s * s) * c * P) -
      ty' * 180.0 / (Axis / Real.sqrt (1 - Offset * s' * s') * c' * P)| ≤
        0.02 * e + 0.000004 * r ∧
    |tx * 180.0 / (Axis * (1 - Offset) /
        ((1 - Offset * s * s) * Real.sqrt (1 - Offset * s * s)) * P) -
      tx' * 180.0 / (Axis * (1 - Offset) /
        ((1 - Offset * s' * s') * Real.sqrt (1 - Offset * s' * s')) * P)| ≤
        0.02 * e + 0.000004 * r := by
  obtain ⟨⟨hq, hq'⟩, f1, f2, f3, f4⟩ := lat_factors s s' c c' (0.023 * e) hs hs' hss hcc hc hc' hc1'
  have hm : 0 < 1 - Offset * s * s := by
    by_contra hn
    rw [Real.sqrt_eq_zero_of_nonpos (not_lt.1 hn)] at hq
    exact lt_irrefl _ hq
  have hm' : 0 < 1 - Offset * s' * s' := by
    by_contra hn
    rw [Real.sqrt_eq_zero_of_nonpos (not_lt.1 hn)] at hq'
    exact lt_irrefl _ hq'
  generalize Real.sqrt (1 - Offset * s * s) = q at hq f1 f2 f3 f4 ⊢
  generalize Real.sqrt (1 - Offset * s' * s') = q' at hq' f3 f4 ⊢
  generalize 1 - Offset * s * s = m at hm f1 f3 ⊢
  generalize 1 - Offset * s' * s' = m' at hm' f3 ⊢
  have hPp : 0 < P := lt_of_lt_of_le (by norm_num) hP
  have hcp : 0 < c := lt_of_lt_of_le (by norm_num) hc
  have hcp' : 0 < c' := lt_of_lt_of_le (by norm_num) hc'
  have hA : (Axis : ℝ) = 6378245 := by norm_num [Axis]
  have hO : (1 - Offset : ℝ) = 0.99330657837703405677 := by norm_num [Offset]
  rw [hA, hO]
  have k2 : (0 : ℝ) ≤ 180 / (6378245 * P) ∧ 180 / (6378245 * P) ≤ 0.00001 := by
    constructor
    · positivity
    · rw [div_le_iff (by positivity)]
      linarith only [hP]
  have k1 : (0 : ℝ) ≤ 180 / (6378245 * 0.99330657837703405677 * P) ∧
      180 / (6378245 * 0.99330657837703405677 * P) ≤ 0.00001 := by
    constructor
    · positivity
    · rw [div_le_iff (by positivity)]
      linarith only [hP]
  have a1 : ty * 180.0 / (6378245 / q * c * P) = 180 / (6378245 * P) * (ty * (q / c)) := by
    field_simp
    ring
  have a2 : ty' * 180.0 / (6378245 / q' * c' * P) = 180 / (6378245 * P) * (ty' * (q' / c')) := by
    field_simp
    ring
  have a3 : tx * 180.0 / (6378245 * 0.99330657837703405677 / (m * q) * P) =
      180 / (6378245 * 0.99330657837703405677 * P) * (tx * (m * q)) := by
    field_simp
    ring
  have a4 : tx' * 180.0 / (6378245 * 0.99330657837703405677 / (m' * q') * P) =
      180 / (6378245 * 0.99330657837703405677 * P) * (tx' * (m' * q')) := by
    field_simp
    ring
  rw [a1, a2, a3, a4]
  have g1 := abs_scaled_prod_sub_le ty ty' (q / c) (q' / c') _ _ _ _ _ _ hT2 f2 hB2 f4 k2.1 k2.2
  have g2 := abs_scaled_prod_sub_le tx tx' (m * q) (m' * q') _ _ _ _ _ _ hT1 f1 hB1 f3 k1.1 k1.2
  constructor
  · linarith only [g1, he, hr]
  · linarith only [g2, he, hr]

/-- Crude size bound of the two offsets of `delta`. -/
theorem offset_abs_alg (tx ty s c P : ℝ) (hP : 3 ≤ P) (hB1 : |tx| ≤ 1000) (hB2 : |ty| ≤ 1000)
    (hs : |s| ≤ 1) (hc : 1 / 2 ≤ c) (hc1 : c ≤ 1) :
    |ty * 180.0 / (Axis / Real.sqrt (1 - Offset * s * s) * c * P)| ≤ 0.03 ∧
    |tx * 180.0 / (Axis * (1 - Offset) /
        ((1 - Offset * s * s) * Real.sqrt (1 - Offset * s * s)) * P)| ≤ 0.03 := by
  have z : |(0 : ℝ)| ≤ 1000 := by norm_num
  have z1 : |(tx : ℝ) - 0| ≤ 900 * (10 / 9) + 0.2 * 0 := by rw [sub_zero]; linarith only [hB1]
  have z2 : |(ty : ℝ) - 0| ≤ 900 * (10 / 9) + 0.2 * 0 := by rw [sub_zero]; linarith only [hB2]
  have zs : |s - s| ≤ 0.023 * (10 / 9) := by rw [sub_self, abs_zero]; norm_num
  have zc : |c - c| ≤ 0.023 * (10 / 9) := by rw [sub_self, abs_zero]; norm_num
  have := offset_holder_alg tx ty 0 0 s c s c (10 / 9) 0 P hP z1 z2 z z hs hs zs zc hc hc hc1
    (by norm_num) le_rfl
  simp only [zero_mul, zero_div, sub_zero] at this
  constructor
  · linarith only [this.1]
  · linarith only [this.2]

theorem delta_fst_eq (x y : ℝ) : (delta realMath x y).1 = x +
    (transform realMath (x - 105.0) (y - 35.0)).2 * 180.0 /
      (Axis / Real.sqrt (1 - Offset * Real.sin (y / 180.0 * Real.pi) *
        Real.sin (y / 180.0 * Real.pi)) * Real.cos (y / 180.0 * Real.pi) * Real.pi) := by
  simp only [delta, realMath]

theorem delta_snd_eq (x y : ℝ) : (delta realMath x y).2 = y +
    (transform realMath (x - 105.0) (y - 35.0)).1 * 180.0 /
      (Axis * (1 - Offset) / ((1 - Offset * Real.sin (y / 180.0 * Real.pi) *
        Real.sin (y / 180.0 * Real.pi)) * Real.sqrt (1 - Offset * Real.sin (y / 180.0 * Real.pi) *
        Real.sin (y / 180.0 * Real.pi))) * Real.pi) := by
  simp only [delta, realMath]

theorem cos_lat_ge (y : ℝ) (h0 : 0 ≤ y) (h1 : y ≤ 60) :
    1 / 2 ≤ Real.cos (y / 180.0 * Real.pi) := by
  rw [← Real.cos_pi_div_three]
  have hp := Real.pi_pos
  apply Real.cos_le_cos_of_nonneg_of_le_pi
  · positivity
  · linarith only [hp]
  · have : y / 180.0 * Real.pi = y * (Real.pi / 180) := by norm_num; ring
    rw [this]
    have := mul_le_mul_of_nonneg_right h1 (by positivity : 0 ≤ Real.pi / 180)
    linarith only [this]

theorem lat_rad_sub (y y' e : ℝ) (h : |y - y'| ≤ e) :
    |y / 180.0 * Real.pi - y' / 180.0 * Real.pi| ≤ 0.023 * e := by
  have e1 : y / 180.0 * Real.pi - y' / 180.0 * Real.pi = Real.pi / 180 * (y - y') := by
    norm_num; ring
  rw [e1]
  have h4 : |Real.pi / 180| ≤ 4 / 180 := by
    rw [abs_of_nonneg (div_nonneg Real.pi_pos.le (by norm_num))]
    exact div_le_div_of_nonneg_right Real.pi_le_four (by norm_num)
  have := abs_mul_le_mul _ _ _ _ h4 h
  have he : 0 ≤ e := le_trans (abs_nonneg _) h
  linarith only [this, he]

/-- Hölder-type continuity of the offset `delta p - p` over the reals: for two points with
longitude within 32 degrees of 105 and latitude in `[3, 60]` that differ by at most `e` in
each coordinate, the offsets differ by at most `0.02 e + 0.000004 √e` in each coordinate. -/
theorem delta_offset_holder (x y x' y' e : ℝ) (hx : |x - 105| ≤ 32) (hx' : |x' - 105| ≤ 32)
    (hy : 3 ≤ y ∧ y ≤ 60) (hy' : 3 ≤ y' ∧ y' ≤ 60) (h1 : |x - x'| ≤ e) (h2 : |y - y'| ≤ e) :
    |((delta realMath x y).1 - x) - ((delta realMath x' y').1 - x')| ≤
      0.02 * e + 0.000004 * Real.sqrt e ∧
    |((delta realMath x y).2 - y) - ((delta realMath x' y').2 - y')| ≤
      0.02 * e + 0.000004 * Real.sqrt e := by
  have he : 0 ≤ e := le_trans (abs_nonneg _) h1
  have ha : |x - 105.0| ≤ 32 := by norm_num; exact hx
  have ha' : |x' - 105.0| ≤ 32 := by norm_num; exact hx'
  have hb : |y - 35.0| ≤ 32 := by
    rw [abs_le]; constructor <;> norm_num <;> linarith only [hy.1, hy.2]
  have hb' : |y' - 35.0| ≤ 32 := by
    rw [abs_le]; constructor <;> norm_num <;> linarith only [hy'.1, hy'.2]
  have d1 : |(x - 105.0) - (x' - 105.0)| ≤ e := by rw [sub_sub_sub_cancel_right]; exact h1
  have d2 : |(y - 35.0) - (y' - 35.0)| ≤ e := by rw [sub_sub_sub_cancel_right]; exact h2
  obtain ⟨T1, T2⟩ := transform_holder _ _ _ _ e ha hb ha' hb' d1 d2
  obtain ⟨B1, B2⟩ := transform_abs_le _ _ ha' hb'
  have hr := lat_rad_sub y y' e h2
  have hss := le_trans (abs_sin_sub_sin_le (y / 180.0 * Real.pi) (y' / 180.0 * Real.pi)) hr
  have hcc := le_trans (abs_cos_sub_cos_le (y / 180.0 * Real.pi) (y' / 180.0 * Real.pi)) hr
  have hc := cos_lat_ge y (le_trans (by norm_num) hy.1) hy.2
  have hc' := cos_lat_ge y' (le_trans (by norm_num) hy'.1) hy'.2
  have := offset_holder_alg _ _ _ _ _ _ _ _ e (Real.sqrt e) Real.pi Real.pi_gt_three.le T1 T2 B1 B2
    (Real.abs_sin_le_one _) (Real.abs_sin_le_one _) hss hcc hc hc' (Real.cos_le_one _) he
    (Real.sqrt_nonneg e)
  rw [delta_fst_eq x y, delta_fst_eq x' y', delta_snd_eq x y, delta_snd_eq x' y',
    add_sub_cancel_left, add_sub_cancel_left, add_sub_cancel_left, add_sub_cancel_left]
  exact this

/-- Crude size bound of the offset `delta p - p` over the reals. -/
theorem delta_offset_abs_le (x y : ℝ) (hx : |x - 105| ≤ 32) (hy : 3 ≤ y ∧ y ≤ 60) :
    |(delta realMath x y).1 - x| ≤ 0.03 ∧ |(delta realMath x y).2 - y| ≤ 0.03 := by
  have ha : |x - 105.0| ≤ 32 := by norm_num; exact hx
  have hb : |y - 35.0| ≤ 32 := by
    rw [abs_le]; constructor <;> norm_num <;> linarith only [hy.1, hy.2]
  obtain ⟨B1, B2⟩ := transform_abs_le _ _ ha hb
  have hc := cos_lat_ge y (le_trans (by norm_num) hy.1) hy.2
  have := offset_abs_alg _ _ _ _ Real.pi Real.pi_gt_three.le B1 B2
    (Real.abs_sin_le_one (y / 180.0 * Real.pi)) hc (Real.cos_le_one _)
  rw [delta_fst_eq x y, delta_snd_eq x y, add_sub_cancel_left, add_sub_cancel_left]
  exact this

/-! ## Enclosures at the points used by the claims -/

theorem delta_ref_s1 :
    0.97157821 ≤ Real.sin (6.0 * ((116.403988 - 105.0) * Real.pi)) ∧
    Real.sin (6.0 * ((116.403988 - 105.0) * Real.pi)) ≤ 0.97157822 :=
  sin_encl 7 (68) (6.0 * ((116.403988 - 105.0) * Real.pi)) 0 68.423928 1.33180909 0.000000001 1 1.33180909 0.97157821 0.97157822
    3.1415926535 3.1415926536 pi_gt_d10 pi_lt_d10 (by ring) (by norm_num1)
    (by norm_num1) (by norm_num1) (by norm_num1) (by norm_num1) (by norm_num1) (by norm_num1)
    (by simp only [sinSum, cosSum, Nat.factorial]; norm_num1)
    (by simp only [sinSum, cosSum, Nat.factorial]; norm_num1)

theorem delta_ref_s2 :
    0.56733103 ≤ Real.sin (2.0 * ((116.403988 - 105.0) * Real.pi)) ∧
    Real.sin (2.0 * ((116.403988 - 105.0) * Real.pi)) ≤ 0.56733105 :=
  sin_encl 5 (23) (2.0 * ((116.403988 - 105.0) * Real.pi)) 0 22.807976 (-0.60326119) 0.000000003 (-1) 0.60326119 0.56733103 0.56733105
    3.1415926535 3.1415926536 pi_gt_d10 pi_lt_d10 (by ring) (by norm_num1)
    (by norm_num1) (by norm_num1) (by norm_num1) (by norm_num1) (by norm_num1) (by norm_num1)
    (by simp only [sinSum, cosSum, Nat.factorial]; norm_num1)
    (by simp only [sinSum, cosSum, Nat.factorial]; norm_num1)

theorem delta_ref_s3 :
    0.26400333 ≤ Real.sin ((39.914957 - 35.0) * Real.pi) ∧
    Real.sin ((39.914957 - 35.0) * Real.pi) ≤ 0.26400335 :=
  sin_encl 4 (5) ((39.914957 - 35.0) * Real.pi) 0 4.914957 (-0.26717046) 0.000000005 (-1) 0.26717046 0.26400333 0.26400335
    3.1415926535 3.1415926536 pi_gt_d10 pi_lt_d10 (by ring) (by norm_num1)
    (by norm_num1) (by norm_num1) (by norm_num1) (by norm_num1) (by norm_num1) (by norm_num1)
    (by simp only [sinSum, cosSum, Nat.factorial]; norm_num1)
    (by simp only [sinSum, cosSum, Nat.factorial]; norm_num1)

theorem delta_ref_s4 :
    (-0.90706298) ≤ Real.sin ((39.914957 - 35.0) * Real.pi / 3.0) ∧
    Real.sin ((39.914957 - 35.0) * Real.pi / 3.0) ≤ (-0.90706296) :=
  sin_encl 6 (2) ((39.914957 - 35.0) * Real.pi / 3.0) 0 1.638319 (-1.13625437) 0.000000003 1 1.13625437 (-0.90706298) (-0.90706296)
    3.1415926535 3.1415926536 pi_gt_d10 pi_lt_d10 (by ring) (by norm_num1)
    (by norm_num1) (by norm_num1) (by norm_num1) (by norm_num1) (by norm_num1) (by norm_num1)
    (by simp only [sinSum, cosSum, Nat.factorial]; norm_num1)
    (by simp only [sinSum, cosSum, Nat.factorial]; norm_num1)

theorem delta_ref_s5 :
    (-0.95485335) ≤ Real.sin ((116.403988 - 105.0) * Real.pi) ∧
    Real.sin ((116.403988 - 105.0) * Real.pi) ≤ (-0.95485334) :=
  sin_encl 7 (11) ((116.403988 - 105.0) * Real.pi) 0 11.403988 1.26916573 0.000000003 (-1) 1.26916573 (-0.95485335) (-0.95485334)
    3.1415926535 3.1415926536 pi_gt_d10 pi_lt_d10 (by ring) (by norm_num1)
    (by norm_num1) (by norm_num1) (by norm_num1) (by norm_num1) (by norm_num1) (by norm_num1)
    (by simp only [sinSum, cosSum, Nat.factorial]; norm_num1)
    (by simp only [sinSum, cosSum, Nat.factorial]; norm_num1)

theorem delta_ref_s6 :
    (-0.58440151) ≤ Real.sin ((116.403988 - 105.0) * Real.pi / 3.0) ∧
    Real.sin ((116.403988 - 105.0) * Real.pi / 3.0) ≤ (-0.58440149) :=
  sin_encl 5 (4) ((116.403988 - 105.0) * Real.pi / 3.0) 0 (2850997 / 750000) (-0.62414231) 0.000000004 1 0.62414231 (-0.58440151) (-0.58440149)
    3.1415926535 3.1415926536 pi_gt_d10 pi_lt_d10 (by ring) (by norm_num1)
    (by norm_num1) (by norm_num1) (by norm_num1) (by norm_num1) (by norm_num1) (by norm_num1)
    (by simp only [sinSum, cosSum, Nat.factorial]; norm_num1)
    (by simp only [sinSum, cosSum, Nat.factorial]; norm_num1)

theorem delta_ref_s7 :
    0.9599245 ≤ Real.sin ((39.914957 - 35.0) * Real.pi / 12.0) ∧
    Real.sin ((39.914957 - 35.0) * Real.pi / 12.0) ≤ 0.95992452 :=
  sin_encl 7 (0) ((39.914957 - 35.0) * Real.pi / 12.0) 0 0.40957975 1.28673273 0.000000004 1 1.28673273 0.9599245 0.95992452
    3.1415926535 3.1415926536 pi_gt_d10 pi_lt_d10 (by ring) (by norm_num1)
    (by norm_num1) (by norm_num1) (by norm_num1) (by norm_num1) (by norm_num1) (by norm_num1)
    (by simp only [sinSum, cosSum, Nat.factorial]; norm_num1)
    (by simp only [sinSum, cosSum, Nat.factorial]; norm_num1)

theorem delta_ref_s8 :
    0.49226772 ≤ Real.sin ((39.914957 - 35.0) * Real.pi / 30.0) ∧
    Real.sin ((39.914957 - 35.0) * Real.pi / 30.0) ≤ 0.49226773 :=
  sin_encl 5 (0) ((39.914957 - 35.0) * Real.pi / 30.0) 0 0.1638319 0.51469309 0.000000004 1 0.51469309 0.49226772 0.49226773
    3.1415926535 3.1415926536 pi_gt_d10 pi_lt_d10 (by ring) (by norm_num1)
    (by norm_num1) (by norm_num1) (by norm_num1) (by norm_num1) (by norm_num1) (by norm_num1)
    (by simp only [sinSum, cosSum, Nat.factorial]; norm_num1)
    (by simp only [sinSum, cosSum, Nat.factorial]; norm_num1)

theorem delta_ref_s9 :
    0.15540317 ≤ Real.sin ((116.403988 - 105.0) * Real.pi / 12.0) ∧
    Real.sin ((116.403988 - 105.0) * Real.pi / 12.0) ≤ 0.15540319 :=
  sin_encl 3 (1) ((116.403988 - 105.0) * Real.pi / 12.0) 0 (2850997 / 3000000) (-0.15603558) 0.000000004 (-1) 0.15603558 0.15540317 0.15540319
    3.1415926535 3.1415926536 pi_gt_d10 pi_lt_d10 (by ring) (by norm_num1)
    (by norm_num1) (by norm_num1) (by norm_num1) (by norm_num1) (by norm_num1) (by norm_num1)
    (by simp only [sinSum, cosSum, Nat.factorial]; norm_num1)
    (by simp only [sinSum, cosSum, Nat.factorial]; norm_num1)

theorem delta_ref_s10 :
    0.92993014 ≤ Real.sin ((116.403988 - 105.0) * Real.pi / 30.0) ∧
    Real.sin ((116.403988 - 105.0) * Real.pi / 30.0) ≤ 0.92993015 :=
  sin_encl 7 (0) ((116.403988 - 105.0) * Real.pi / 30.0) 0 (2850997 / 7500000) 1.19422283 0.000000001 1 1.19422283 0.92993014 0.92993015
    3.1415926535 3.1415926536 pi_gt_d10 pi_lt_d10 (by ring) (by norm_num1)
    (by norm_num1) (by norm_num1) (by norm_num1) (by norm_num1) (by norm_num1) (by norm_num1)
    (by simp only [sinSum, cosSum, Nat.factorial]; norm_num1)
    (by simp only [sinSum, cosSum, Nat.factorial]; norm_num1)

theorem delta_ref_s :
    0.64164987 ≤ Real.sin (39.914957 / 180.0 * Real.pi) ∧
    Real.sin (39.914957 / 180.0 * Real.pi) ≤ 0.64164988 :=
  sin_encl 5 (0) (39.914957 / 180.0 * Real.pi) 0 (39914957 / 180000000) 0.69664742 0.000000001 1 0.69664742 0.64164987 0.64164988
    3.1415926535 3.1415926536 pi_gt_d10 pi_lt_d10 (by ring) (by norm_num1)
    (by norm_num1) (by norm_num1) (by norm_num1) (by norm_num1) (by norm_num1) (by norm_num1)
    (by simp only [sinSum, cosSum, Nat.factorial]; norm_num1)
    (by simp only [sinSum, cosSum, Nat.factorial]; norm_num1)

theorem delta_ref_c :
    0.76699767 ≤ Real.cos (39.914957 / 180.0 * Real.pi) ∧
    Real.cos (39.914957 / 180.0 * Real.pi) ≤ 0.76699768 :=
  cos_encl 5 (0) (39.914957 / 180.0 * Real.pi) 0 (39914957 / 180000000) 0.69664742 0.000000001 1 0.69664742 0.76699767 0.76699768
    3.1415926535 3.1415926536 pi_gt_d10 pi_lt_d10 (by ring) (by norm_num1)
    (by norm_num1) (by norm_num1) (by norm_num1) (by norm_num1) (by norm_num1) (by norm_num1)
    (by simp only [sinSum, cosSum, Nat.factorial]; norm_num1)
    (by simp only [sinSum, cosSum, Nat.factorial]; norm_num1)

/-- Enclosure of `delta` over the reals at the reference point `(116.403988, 39.914957)`. -/
theorem delta_ref :
    (116.41023249 ≤ (delta realMath 116.403988 39.914957).1 ∧ (delta realMath 116.403988 39.914957).1 ≤ 116.4102325) ∧
    (39.91636128 ≤ (delta realMath 116.403988 39.914957).2 ∧ (delta realMath 116.403988 39.914957).2 ≤ 39.91636129) := by
  have hs1 := delta_ref_s1
  have hs2 := delta_ref_s2
  have hs3 := delta_ref_s3
  have hs4 := delta_ref_s4
  have hs5 := delta_ref_s5
  have hs6 := delta_ref_s6
  have hs7 := delta_ref_s7
  have hs8 := delta_ref_s8
  have hs9 := delta_ref_s9
  have hs10 := delta_ref_s10
  have hq0 : 3.37697912 ≤ Real.sqrt |116.403988 - 105.0| ∧ Real.sqrt |116.403988 - 105.0| ≤ 3.37697913 := by
    rw [abs_of_pos (by norm_num)]
    exact sqrt_encl _ _ _ (by norm_num1) (by norm_num1) (by norm_num1) (by norm_num1)
  have ht := transform_encl (116.403988 - 105.0) (39.914957 - 35.0) 0.97157821 0.97157822 0.56733103 0.56733105 0.26400333 0.26400335 (-0.90706298) (-0.90706296) (-0.95485335) (-0.95485334) (-0.58440151) (-0.58440149) 0.9599245 0.95992452 0.49226772 0.49226773 0.15540317 0.15540319 0.92993014 0.92993015 3.37697912 3.37697913
    155.92416275 155.92416822 533.9114218 533.91142688
    hs1 hs2 hs3 hs4 hs5 hs6 hs7 hs8 hs9 hs10 hq0
    (by norm_num1) (by norm_num1) (by norm_num1) (by norm_num1)
  have hs := delta_ref_s
  have hc := delta_ref_c
  exact delta_encl 116.403988 39.914957 155.92416275 155.92416822 533.9114218 533.91142688 0.64164987 0.64164988 0.76699767 0.76699768 0.99724422 0.99724423 0.99862115 0.99862117 15390202.921 15390203.431 19986285.224 19986285.826 116.41023249 116.4102325 39.91636128 39.91636129
    ht.1 ht.2 hs hc (by norm_num1) (by norm_num1) (by simp only [Offset]; norm_num1) (by simp only [Offset]; norm_num1) (by norm_num1) (by norm_num1) (by norm_num1) (by norm_num1) (by norm_num1) (by simp only [Axis]; norm_num1) (by simp only [Axis]; norm_num1) (by norm_num1) (by simp only [Axis, Offset]; norm_num1) (by simp only [Axis, Offset]; norm_num1) (by norm_num1) (by norm_num1) (by norm_num1) (by norm_num1) (by norm_num1) (by norm_num1) (by norm_num1) (by norm_num1) (by norm_num1)

theorem bd09_ref_r :
    123.0637534474 ≤ Real.sqrt (116.410321 * 116.410321 + 39.916470 * 39.916470) ∧
    Real.sqrt (116.410321 * 116.410321 + 39.916470 * 39.916470) ≤ 123.0637534475 :=
  sqrt_encl _ _ _ (by norm_num1) (by norm_num1) (by norm_num1) (by norm_num1)

theorem bd09_ref_s1 :
    (-0.7593848774) ≤ Real.sin (39.916470 * XPi) ∧
    Real.sin (39.916470 * XPi) ≤ (-0.7593848772) :=
  sin_encl 7 (665) (39.916470 * XPi) 2090.0214818206226101236 0 0.8623671834 0.00000000002 (-1) 0.8623671834 (-0.7593848774) (-0.7593848772)
    3.14159265358979323846 3.14159265358979323847 pi_ge_d20 pi_le_d20 (by simp only [XPi]; norm_num) (by norm_num1)
    (by norm_num1) (by norm_num1) (by norm_num1) (by norm_num1) (by norm_num1) (by norm_num1)
    (by simp only [sinSum, cosSum, Nat.factorial]; norm_num1)
    (by simp only [sinSum, cosSum, Nat.factorial]; norm_num1)

theorem bd09_ref_c1 :
    0.857499719 ≤ Real.cos (116.410321 * XPi) ∧
    Real.cos (116.410321 * XPi) ≤ 0.8574997191 :=
  cos_encl 5 (1940) (116.410321 * XPi) 6095.23015426049303619148 0 0.5404062963 0.00000000001 1 0.5404062963 0.857499719 0.8574997191
    3.14159265358979323846 3.14159265358979323847 pi_ge_d20 pi_le_d20 (by simp only [XPi]; norm_num) (by norm_num1)
    (by norm_num1) (by norm_num1) (by norm_num1) (by norm_num1) (by norm_num1) (by norm_num1)
    (by simp only [sinSum, cosSum, Nat.factorial]; norm_num1)
    (by simp only [sinSum, cosSum, Nat.factorial]; norm_num1)

/-- Enclosure of `GCJ02toBD09` over the reals at the reference point `(116.410321, 39.916470)`. -/
theorem bd09_ref :
    (116.41670394 ≤ (GCJ02toBD09 realMath 116.410321 39.916470).1 ∧
      (GCJ02toBD09 realMath 116.410321 39.916470).1 ≤ 116.41670395) ∧
    (39.92276453 ≤ (GCJ02toBD09 realMath 116.410321 39.916470).2 ∧
      (GCJ02toBD09 realMath 116.410321 39.916470).2 ≤ 39.92276454) := by
  have hr := bd09_ref_r
  have hs1 := bd09_ref_s1
  have hc1 := bd09_ref_c1
  have hp := polar_encl 116.410321 39.916470 (Real.sqrt (116.410321 * 116.410321 + 39.916470 * 39.916470))
      (Real.sqrt (116.410321 * 116.410321 + 39.916470 * 39.916470) + 0.00002 * Real.sin (39.916470 * XPi))
      (0.000003 * Real.cos (116.410321 * XPi))
      123.0637534474 123.0637534475 123.063738259702452 123.063738259802456 0.000002572499157 0.0000025724991573 0.000003 116.4102039477 116.4102039485 39.9167645389 39.9167645393
      (by norm_num1) (by norm_num1) hr (by norm_num1)
      (encl_add_mul _ _ _ _ _ _ _ _ _ (by norm_num1) hr hs1 (by norm_num1) (by norm_num1)) (by norm_num1)
      (encl_const_mul _ _ _ _ _ _ (by norm_num1) hc1 (by norm_num1) (by norm_num1)) (by norm_num1) (by norm_num1)
      (by norm_num1) (by norm_num1) (by norm_num1) (by norm_num1) (by norm_num1) (by norm_num1)
  rw [GCJ02toBD09_real 116.410321 39.916470 (by norm_num1)]
  exact ⟨encl_add_const _ _ _ _ _ _ hp.1 (by simp only [BDLonOffset]; norm_num1)
      (by simp only [BDLonOffset]; norm_num1),
    encl_add_const _ _ _ _ _ _ hp.2 (by simp only [BDLatOffset]; norm_num1)
      (by simp only [BDLatOffset]; norm_num1)⟩

theorem bd09_harbin_r :
    134.7239028532 ≤ Real.sqrt (126.7 * 126.7 + 45.8 * 45.8) ∧
    Real.sqrt (126.7 * 126.7 + 45.8 * 45.8) ≤ 134.7239028533 :=
  sqrt_encl _ _ _ (by norm_num1) (by norm_num1) (by norm_num1) (by norm_num1)

theorem bd09_harbin_s1 :
    (-0.8660254038) ≤ Real.sin (45.8 * XPi) ∧
    Real.sin (45.8 * XPi) ≤ (-0.8660254037) :=
  sin_encl 7 (763) (45.8 * XPi) 2398.082392240208504 0 1.0471975512 0.00000000001 (-1) 1.0471975512 (-0.8660254038) (-0.8660254037)
    3.14159265358979323846 3.14159265358979323847 pi_ge_d20 pi_le_d20 (by simp only [XPi]; norm_num) (by norm_num1)
    (by norm_num1) (by norm_num1) (by norm_num1) (by norm_num1) (by norm_num1) (by norm_num1)
    (by simp only [sinSum, cosSum, Nat.factorial]; norm_num1)
    (by simp only [sinSum, cosSum, Nat.factorial]; norm_num1)

theorem bd09_harbin_c1 :
    0.4999999999 ≤ Real.cos (126.7 * XPi) ∧
    Real.cos (126.7 * XPi) ≤ 0.5000000001 :=
  cos_encl 7 (2112) (126.7 * XPi) 6633.996486830445796 0 (-1.0471975512) 0.00000000001 1 1.0471975512 0.4999999999 0.5000000001
    3.14159265358979323846 3.14159265358979323847 pi_ge_d20 pi_le_d20 (by simp only [XPi]; norm_num) (by norm_num1)
    (by norm_num1) (by norm_num1) (by norm_num1) (by norm_num1) (by norm_num1) (by norm_num1)
    (by simp only [sinSum, cosSum, Nat.factorial]; norm_num1)
    (by simp only [sinSum, cosSum, Nat.factorial]; norm_num1)

/-- Enclosure of `BD09toGCJ02 ∘ GCJ02toBD09` over the reals at `(126.7, 45.8)`, in Harbin. -/
theorem bd09_harbin :
    (126.699999557 ≤ (BD09toGCJ02 realMath (GCJ02toBD09 realMath 126.7 45.8).1
      (GCJ02toBD09 realMath 126.7 45.8).2).1 ∧
     (BD09toGCJ02 realMath (GCJ02toBD09 realMath 126.7 45.8).1
      (GCJ02toBD09 realMath 126.7 45.8).2).1 ≤ 126.69999956) ∧
    (45.800001498 ≤ (BD09toGCJ02 realMath (GCJ02toBD09 realMath 126.7 45.8).1
      (GCJ02toBD09 realMath 126.7 45.8).2).2 ∧
     (BD09toGCJ02 realMath (GCJ02toBD09 realMath 126.7 45.8).1
      (GCJ02toBD09 realMath 126.7 45.8).2).2 ≤ 45.8000015) := by
  have hr := bd09_harbin_r
  have hs1 := bd09_harbin_s1
  have hc1 := bd09_harbin_c1
  have hz : 134.723885532691924 ≤ Real.sqrt (126.7 * 126.7 + 45.8 * 45.8) + 0.00002 * Real.sin (45.8 * XPi) ∧
      Real.sqrt (126.7 * 126.7 + 45.8 * 45.8) + 0.00002 * Real.sin (45.8 * XPi) ≤ 134.723885532791926 :=
    encl_add_mul _ _ _ _ _ _ _ _ _ (by norm_num1) hr hs1 (by norm_num1) (by norm_num1)
  have hd : 0.0000014999999997 ≤ 0.000003 * Real.cos (126.7 * XPi) ∧
      0.000003 * Real.cos (126.7 * XPi) ≤ 0.0000015000000003 :=
    encl_const_mul _ _ _ _ _ _ (by norm_num1) hc1 (by norm_num1) (by norm_num1)
  have hp := polar_encl 126.7 45.8 (Real.sqrt (126.7 * 126.7 + 45.8 * 45.8))
      (Real.sqrt (126.7 * 126.7 + 45.8 * 45.8) + 0.00002 * Real.sin (45.8 * XPi))
      (0.000003 * Real.cos (126.7 * XPi))
      134.7239028532 134.7239028533 134.723885532691924 134.723885532791926 0.0000014999999997 0.0000015000000003 0.000003 126.6999150104 126.6999150112 45.8001841615 45.8001841619
      (by norm_num1) (by norm_num1) hr (by norm_num1)
      hz (by norm_num1)
      hd (by norm_num1) (by norm_num1)
      (by norm_num1) (by norm_num1) (by norm_num1) (by norm_num1) (by norm_num1) (by norm_num1)
  obtain ⟨X, hX⟩ : ∃ X : ℝ, X = (Real.sqrt (126.7 * 126.7 + 45.8 * 45.8) + 0.00002 * Real.sin (45.8 * XPi)) *
      ((126.7 * Real.cos (0.000003 * Real.cos (126.7 * XPi)) - 45.8 * Real.sin (0.000003 * Real.cos (126.7 * XPi))) /
        Real.sqrt (126.7 * 126.7 + 45.8 * 45.8)) := ⟨_, rfl⟩
  obtain ⟨Y, hY⟩ : ∃ Y : ℝ, Y = (Real.sqrt (126.7 * 126.7 + 45.8 * 45.8) + 0.00002 * Real.sin (45.8 * XPi)) *
      ((45.8 * Real.cos (0.000003 * Real.cos (126.7 * XPi)) + 126.7 * Real.sin (0.000003 * Real.cos (126.7 * XPi))) /
        Real.sqrt (126.7 * 126.7 + 45.8 * 45.8)) := ⟨_, rfl⟩
  rw [← hX, ← hY] at hp
  obtain ⟨⟨hX1, hX2⟩, hY1, hY2⟩ := hp
  have hs2 : (-0.8708064199) ≤ Real.sin (Y * XPi) ∧ Real.sin (Y * XPi) ≤ (-0.8708063988) :=
    sin_encl_iv 7 (763) (Y * XPi) 2398.09203491379973861044562 2398.092034934743689634377572 1.0568402353 0.00000001052 (-1) 1.0568402353 (-0.8708064199) (-0.8708063988)
      3.14159265358979323846 3.14159265358979323847 pi_ge_d20 pi_le_d20
      (encl_mul_const XPi Y _ _ 2398.09203491379973861044562 2398.092034934743689634377572 (by simp only [XPi]; norm_num1) hY1 hY2
        (by simp only [XPi]; norm_num1) (by simp only [XPi]; norm_num1)).1
      (encl_mul_const XPi Y _ _ 2398.09203491379973861044562 2398.092034934743689634377572 (by simp only [XPi]; norm_num1) hY1 hY2
        (by simp only [XPi]; norm_num1) (by simp only [XPi]; norm_num1)).2
      (by norm_num1)
      (by norm_num1) (by norm_num1) (by norm_num1) (by norm_num1) (by norm_num1) (by norm_num1)
      (by simp only [sinSum, cosSum, Nat.factorial]; norm_num1)
      (by simp only [sinSum, cosSum, Nat.factorial]; norm_num1)
  have hc2 : 0.4961412071 ≤ Real.cos (X * XPi) ∧ Real.cos (X * XPi) ≤ 0.4961412491 :=
    cos_encl_iv 7 (2112) (X * XPi) 6633.992036785395937082430752 6633.992036827283839130294656 (-1.0516475753) 0.00000002095 1 1.0516475753 0.4961412071 0.4961412491
      3.14159265358979323846 3.14159265358979323847 pi_ge_d20 pi_le_d20
      (encl_mul_const XPi X _ _ 6633.992036785395937082430752 6633.992036827283839130294656 (by simp only [XPi]; norm_num1) hX1 hX2
        (by simp only [XPi]; norm_num1) (by simp only [XPi]; norm_num1)).1
      (encl_mul_const XPi X _ _ 6633.992036785395937082430752 6633.992036827283839130294656 (by simp only [XPi]; norm_num1) hX1 hX2
        (by simp only [XPi]; norm_num1) (by simp only [XPi]; norm_num1)).2
      (by norm_num1)
      (by norm_num1) (by norm_num1) (by norm_num1) (by norm_num1) (by norm_num1) (by norm_num1)
      (by simp only [sinSum, cosSum, Nat.factorial]; norm_num1)
      (by simp only [sinSum, cosSum, Nat.factorial]; norm_num1)
  rw [BD09_roundtrip_real 126.7 45.8 X Y (by norm_num1) hX hY]
  exact polar_encl 126.7 45.8 (Real.sqrt (126.7 * 126.7 + 45.8 * 45.8))
      (Real.sqrt (126.7 * 126.7 + 45.8 * 45.8) + 0.00002 * Real.sin (45.8 * XPi) - 0.00002 * Real.sin (Y * XPi))
      (0.000003 * Real.cos (126.7 * XPi) - 0.000003 * Real.cos (X * XPi))
      134.7239028532 134.7239028533 134.7239029488199 134.723902948920324 0.0000000115762524 0.000000011576379 0.000006 126.699999557 126.69999956 45.800001498 45.8000015
      (by norm_num1) (by norm_num1) hr (by norm_num1)
      (encl_sub_mul _ _ _ _ _ _ _ _ _ (by norm_num1) hz hs2 (by norm_num1) (by norm_num1)) (by norm_num1)
      (encl_sub_mul _ _ _ _ _ _ _ _ _ (by norm_num1) hd hc2 (by norm_num1) (by norm_num1)) (by norm_num1) (by norm_num1)
      (by norm_num1) (by norm_num1) (by norm_num1) (by norm_num1) (by norm_num1) (by norm_num1)

theorem bd09_beijing_r :
    123.0572973902 ≤ Real.sqrt (116.404 * 116.404 + 39.915 * 39.915) ∧
    Real.sqrt (116.404 * 116.404 + 39.915 * 39.915) ≤ 123.0572973903 :=
  sqrt_encl _ _ _ (by norm_num1) (by norm_num1) (by norm_num1) (by norm_num1)

theorem bd09_beijing_s1 :
    (-0.7071067812) ≤ Real.sin (39.915 * XPi) ∧
    Real.sin (39.915 * XPi) ≤ (-0.7071067811) :=
  sin_encl 6 (665) (39.915 * XPi) 2089.9445128006096602 0 0.7853981634 0.00000000001 (-1) 0.7853981634 (-0.7071067812) (-0.7071067811)
    3.14159265358979323846 3.14159265358979323847 pi_ge_d20 pi_le_d20 (by simp only [XPi]; norm_num) (by norm_num1)
    (by norm_num1) (by norm_num1) (by norm_num1) (by norm_num1) (by norm_num1) (by norm_num1)
    (by simp only [sinSum, cosSum, Nat.factorial]; norm_num1)
    (by simp only [sinSum, cosSum, Nat.factorial]; norm_num1)

theorem bd09_beijing_c1 :
    0.9781476007 ≤ Real.cos (116.404 * XPi) ∧
    Real.cos (116.404 * XPi) ≤ 0.9781476008 :=
  cos_encl 4 (1940) (116.404 * XPi) 6094.89918747443735152 0 0.2094395102 0.00000000004 1 0.2094395102 0.9781476007 0.9781476008
    3.14159265358979323846 3.14159265358979323847 pi_ge_d20 pi_le_d20 (by simp only [XPi]; norm_num) (by norm_num1)
    (by norm_num1) (by norm_num1) (by norm_num1) (by norm_num1) (by norm_num1) (by norm_num1)
    (by simp only [sinSum, cosSum, Nat.factorial]; norm_num1)
    (by simp only [sinSum, cosSum, Nat.factorial]; norm_num1)

/-- Enclosure of `BD09toGCJ02 ∘ GCJ02toBD09` over the reals at `(116.404, 39.915)`. -/
theorem bd09_beijing :
    (116.404000399 ≤ (BD09toGCJ02 realMath (GCJ02toBD09 realMath 116.404 39.915).1
      (GCJ02toBD09 realMath 116.404 39.915).2).1 ∧
     (BD09toGCJ02 realMath (GCJ02toBD09 realMath 116.404 39.915).1
      (GCJ02toBD09 realMath 116.404 39.915).2).1 ≤ 116.404000402) ∧
    (39.914999591 ≤ (BD09toGCJ02 realMath (GCJ02toBD09 realMath 116.404 39.915).1
      (GCJ02toBD09 realMath 116.404 39.915).2).2 ∧
     (BD09toGCJ02 realMath (GCJ02toBD09 realMath 116.404 39.915).1
      (GCJ02toBD09 realMath 116.404 39.915).2).2 ≤ 39.914999593) := by
  have hr := bd09_beijing_r
  have hs1 := bd09_beijing_s1
  have hc1 := bd09_beijing_c1
  have hz : 123.057283248064376 ≤ Real.sqrt (116.404 * 116.404 + 39.915 * 39.915) + 0.00002 * Real.sin (39.915 * XPi) ∧
      Real.sqrt (116.404 * 116.404 + 39.915 * 39.915) + 0.00002 * Real.sin (39.915 * XPi) ≤ 123.057283248164378 :=
    encl_add_mul _ _ _ _ _ _ _ _ _ (by norm_num1) hr hs1 (by norm_num1) (by norm_num1)
  have hd : 0.0000029344428021 ≤ 0.000003 * Real.cos (116.404 * XPi) ∧
      0.000003 * Real.cos (116.404 * XPi) ≤ 0.0000029344428024 :=
    encl_const_mul _ _ _ _ _ _ (by norm_num1) hc1 (by norm_num1) (by norm_num1)
  have hp := polar_encl 116.404 39.915 (Real.sqrt (116.404 * 116.404 + 39.915 * 39.915))
      (Real.sqrt (116.404 * 116.404 + 39.915 * 39.915) + 0.00002 * Real.sin (39.915 * XPi))
      (0.000003 * Real.cos (116.404 * XPi))
      123.0572973902 123.0572973903 123.057283248064376 123.057283248164378 0.0000029344428021 0.0000029344428024 0.000003 116.4038694935 116.4038694944 39.9153369934 39.9153369938
      (by norm_num1) (by norm_num1) hr (by norm_num1)
      hz (by norm_num1)
      hd (by norm_num1) (by norm_num1)
      (by norm_num1) (by norm_num1) (by norm_num1) (by norm_num1) (by norm_num1) (by norm_num1)
  obtain ⟨X, hX⟩ : ∃ X : ℝ, X = (Real.sqrt (116.404 * 116.404 + 39.915 * 39.915) + 0.00002 * Real.sin (39.915 * XPi)) *
      ((116.404 * Real.cos (0.000003 * Real.cos (116.404 * XPi)) - 39.915 * Real.sin (0.000003 * Real.cos (116.404 * XPi))) /
        Real.sqrt (116.404 * 116.404 + 39.915 * 39.915)) := ⟨_, rfl⟩
  obtain ⟨Y, hY⟩ : ∃ Y : ℝ, Y = (Real.sqrt (116.404 * 116.404 + 39.915 * 39.915) + 0.00002 * Real.sin (39.915 * XPi)) *
      ((39.915 * Real.cos (0.000003 * Real.cos (116.404 * XPi)) + 116.404 * Real.sin (0.000003 * Real.cos (116.404 * XPi))) /
        Real.sqrt (116.404 * 116.404 + 39.915 * 39.915)) := ⟨_, rfl⟩
  rw [← hX, ← hY] at hp
  obtain ⟨⟨hX1, hX2⟩, hY1, hY2⟩ := hp
  have hs2 : (-0.7194729297) ≤ Real.sin (Y * XPi) ∧ Real.sin (Y * XPi) ≤ (-0.7194729086) :=
    sin_encl_iv 6 (665) (Y * XPi) 2089.962157733772130974682792 2089.962157754716081998614744 0.803043107 0.00000001051 (-1) 0.803043107 (-0.7194729297) (-0.7194729086)
      3.14159265358979323846 3.14159265358979323847 pi_ge_d20 pi_le_d20
      (encl_mul_const XPi Y _ _ 2089.962157733772130974682792 2089.962157754716081998614744 (by simp only [XPi]; norm_num1) hY1 hY2
        (by simp only [XPi]; norm_num1) (by simp only [XPi]; norm_num1)).1
      (encl_mul_const XPi Y _ _ 2089.962157733772130974682792 2089.962157754716081998614744 (by simp only [XPi]; norm_num1) hY1 hY2
        (by simp only [XPi]; norm_num1) (by simp only [XPi]; norm_num1)).2
      (by norm_num1)
      (by norm_num1) (by norm_num1) (by norm_num1) (by norm_num1) (by norm_num1) (by norm_num1)
      (by simp only [sinSum, cosSum, Nat.factorial]; norm_num1)
      (by simp only [sinSum, cosSum, Nat.factorial]; norm_num1)
  have hc2 : 0.9795454484 ≤ Real.cos (X * XPi) ∧ Real.cos (X * XPi) ≤ 0.9795454957 :=
    cos_encl_iv 4 (1940) (X * XPi) 6094.89235417007658958176578 6094.892354217200479385612672 0.2026062294 0.00000002361 1 0.2026062294 0.9795454484 0.9795454957
      3.14159265358979323846 3.14159265358979323847 pi_ge_d20 pi_le_d20
      (encl_mul_const XPi X _ _ 6094.89235417007658958176578 6094.892354217200479385612672 (by simp only [XPi]; norm_num1) hX1 hX2
        (by simp only [XPi]; norm_num1) (by simp only [XPi]; norm_num1)).1
      (encl_mul_const XPi X _ _ 6094.89235417007658958176578 6094.892354217200479385612672 (by simp only [XPi]; norm_num1) hX1 hX2
        (by simp only [XPi]; norm_num1) (by simp only [XPi]; norm_num1)).2
      (by norm_num1)
      (by norm_num1) (by norm_num1) (by norm_num1) (by norm_num1) (by norm_num1) (by norm_num1)
      (by simp only [sinSum, cosSum, Nat.factorial]; norm_num1)
      (by simp only [sinSum, cosSum, Nat.factorial]; norm_num1)
  rw [BD09_roundtrip_real 116.404 39.915 X Y (by norm_num1) hX hY]
  exact polar_encl 116.404 39.915 (Real.sqrt (116.404 * 116.404 + 39.915 * 39.915))
      (Real.sqrt (116.404 * 116.404 + 39.915 * 39.915) + 0.00002 * Real.sin (39.915 * XPi) - 0.00002 * Real.sin (Y * XPi))
      (0.000003 * Real.cos (116.404 * XPi) - 0.000003 * Real.cos (X * XPi))
      123.0572973902 123.0572973903 123.057297637522548 123.057297637622972 (-0.000000004193685) (-0.0000000041935428) 0.000006 116.404000399 116.404000402 39.914999591 39.914999593
      (by norm_num1) (by norm_num1) hr (by norm_num1)
      (encl_sub_mul _ _ _ _ _ _ _ _ _ (by norm_num1) hz hs2 (by norm_num1) (by norm_num1)) (by norm_num1)
      (encl_sub_mul _ _ _ _ _ _ _ _ _ (by norm_num1) hd hc2 (by norm_num1) (by norm_num1)) (by norm_num1) (by norm_num1)
      (by norm_num1) (by norm_num1) (by norm_num1) (by norm_num1) (by norm_num1) (by norm_num1)

theorem delta_p113_s1 :
    (-0.00000001) ≤ Real.sin (6.0 * ((113 - 105.0) * Real.pi)) ∧
    Real.sin (6.0 * ((113 - 105.0) * Real.pi)) ≤ 0.00000001 :=
  sin_encl 1 (48) (6.0 * ((113 - 105.0) * Real.pi)) 0 48 0 0.000000001 1 0 (-0.00000001) 0.00000001
    3.1415926535 3.1415926536 pi_gt_d10 pi_lt_d10 (by ring) (by norm_num1)
    (by norm_num1) (by norm_num1) (by norm_num1) (by norm_num1) (by norm_num1) (by norm_num1)
    (by simp only [sinSum, cosSum, Nat.factorial]; norm_num1)
    (by simp only [sinSum, cosSum, Nat.factorial]; norm_num1)

theorem delta_p113_s2 :
    (-0.00000001) ≤ Real.sin (2.0 * ((113 - 105.0) * Real.pi)) ∧
    Real.sin (2.0 * ((113 - 105.0) * Real.pi)) ≤ 0.00000001 :=
  sin_encl 1 (16) (2.0 * ((113 - 105.0) * Real.pi)) 0 16 0 0.000000001 1 0 (-0.00000001) 0.00000001
    3.1415926535 3.1415926536 pi_gt_d10 pi_lt_d10 (by ring) (by norm_num1)
    (by norm_num1) (by norm_num1) (by norm_num1) (by norm_num1) (by norm_num1) (by norm_num1)
    (by simp only [sinSum, cosSum, Nat.factorial]; norm_num1)
    (by simp only [sinSum, cosSum, Nat.factorial]; norm_num1)

theorem delta_p113_s3 :
    (-0.61290706) ≤ Real.sin ((36.21 - 35.0) * Real.pi) ∧
    Real.sin ((36.21 - 35.0) * Real.pi) ≤ (-0.61290705) :=
  sin_encl 5 (1) ((36.21 - 35.0) * Real.pi) 0 1.21 0.65973446 0.000000003 (-1) 0.65973446 (-0.61290706) (-0.61290705)
    3.1415926535 3.1415926536 pi_gt_d10 pi_lt_d10 (by ring) (by norm_num1)
    (by norm_num1) (by norm_num1) (by norm_num1) (by norm_num1) (by norm_num1) (by norm_num1)
    (by simp only [sinSum, cosSum, Nat.factorial]; norm_num1)
    (by simp only [sinSum, cosSum, Nat.factorial]; norm_num1)

theorem delta_p113_s4 :
    0.95424032 ≤ Real.sin ((36.21 - 35.0) * Real.pi / 3.0) ∧
    Real.sin ((36.21 - 35.0) * Real.pi / 3.0) ≤ 0.95424034 :=
  sin_encl 7 (0) ((36.21 - 35.0) * Real.pi / 3.0) 0 (121 / 300) 1.26710904 0.000000004 1 1.26710904 0.95424032 0.95424034
    3.1415926535 3.1415926536 pi_gt_d10 pi_lt_d10 (by ring) (by norm_num1)
    (by norm_num1) (by norm_num1) (by norm_num1) (by norm_num1) (by norm_num1) (by norm_num1)
    (by simp only [sinSum, cosSum, Nat.factorial]; norm_num1)
    (by simp only [sinSum, cosSum, Nat.factorial]; norm_num1)

theorem delta_p113_s5 :
    (-0.00000001) ≤ Real.sin ((113 - 105.0) * Real.pi) ∧
    Real.sin ((113 - 105.0) * Real.pi) ≤ 0.00000001 :=
  sin_encl 1 (8) ((113 - 105.0) * Real.pi) 0 8 0 0.000000001 1 0 (-0.00000001) 0.00000001
    3.1415926535 3.1415926536 pi_gt_d10 pi_lt_d10 (by ring) (by norm_num1)
    (by norm_num1) (by norm_num1) (by norm_num1) (by norm_num1) (by norm_num1) (by norm_num1)
    (by simp only [sinSum, cosSum, Nat.factorial]; norm_num1)
    (by simp only [sinSum, cosSum, Nat.factorial]; norm_num1)

theorem delta_p113_s6 :
    0.8660254 ≤ Real.sin ((113 - 105.0) * Real.pi / 3.0) ∧
    Real.sin ((113 - 105.0) * Real.pi / 3.0) ≤ 0.86602541 :=
  sin_encl 6 (3) ((113 - 105.0) * Real.pi / 3.0) 0 (8 / 3) (-1.04719755) 0.000000002 (-1) 1.04719755 0.8660254 0.86602541
    3.1415926535 3.1415926536 pi_gt_d10 pi_lt_d10 (by ring) (by norm_num1)
    (by norm_num1) (by norm_num1) (by norm_num1) (by norm_num1) (by norm_num1) (by norm_num1)
    (by simp only [sinSum, cosSum, Nat.factorial]; norm_num1)
    (by simp only [sinSum, cosSum, Nat.factorial]; norm_num1)

theorem delta_p113_s7 :
    0.31150579 ≤ Real.sin ((36.21 - 35.0) * Real.pi / 12.0) ∧
    Real.sin ((36.21 - 35.0) * Real.pi / 12.0) ≤ 0.3115058 :=
  sin_encl 4 (0) ((36.21 - 35.0) * Real.pi / 12.0) 0 (121 / 1200) 0.31677726 0.000000001 1 0.31677726 0.31150579 0.3115058
    3.1415926535 3.1415926536 pi_gt_d10 pi_lt_d10 (by ring) (by norm_num1)
    (by norm_num1) (by norm_num1) (by norm_num1) (by norm_num1) (by norm_num1) (by norm_num1)
    (by simp only [sinSum, cosSum, Nat.factorial]; norm_num1)
    (by simp only [sinSum, cosSum, Nat.factorial]; norm_num1)

theorem delta_p113_s8 :
    0.12637209 ≤ Real.sin ((36.21 - 35.0) * Real.pi / 30.0) ∧
    Real.sin ((36.21 - 35.0) * Real.pi / 30.0) ≤ 0.12637211 :=
  sin_encl 3 (0) ((36.21 - 35.0) * Real.pi / 30.0) 0 (121 / 3000) 0.1267109 0.000000004 1 0.1267109 0.12637209 0.12637211
    3.1415926535 3.1415926536 pi_gt_d10 pi_lt_d10 (by ring) (by norm_num1)
    (by norm_num1) (by norm_num1) (by norm_num1) (by norm_num1) (by norm_num1) (by norm_num1)
    (by simp only [sinSum, cosSum, Nat.factorial]; norm_num1)
    (by simp only [sinSum, cosSum, Nat.factorial]; norm_num1)

theorem delta_p113_s9 :
    0.8660254 ≤ Real.sin ((113 - 105.0) * Real.pi / 12.0) ∧
    Real.sin ((113 - 105.0) * Real.pi / 12.0) ≤ 0.86602541 :=
  sin_encl 6 (1) ((113 - 105.0) * Real.pi / 12.0) 0 (2 / 3) (-1.04719755) 0.000000002 (-1) 1.04719755 0.8660254 0.86602541
    3.1415926535 3.1415926536 pi_gt_d10 pi_lt_d10 (by ring) (by norm_num1)
    (by norm_num1) (by norm_num1) (by norm_num1) (by norm_num1) (by norm_num1) (by norm_num1)
    (by simp only [sinSum, cosSum, Nat.factorial]; norm_num1)
    (by simp only [sinSum, cosSum, Nat.factorial]; norm_num1)

theorem delta_p113_s10 :
    0.74314482 ≤ Real.sin ((113 - 105.0) * Real.pi / 30.0) ∧
    Real.sin ((113 - 105.0) * Real.pi / 30.0) ≤ 0.74314483 :=
  sin_encl 6 (0) ((113 - 105.0) * Real.pi / 30.0) 0 (4 / 15) 0.83775804 0.000000001 1 0.83775804 0.74314482 0.74314483
    3.1415926535 3.1415926536 pi_gt_d10 pi_lt_d10 (by ring) (by norm_num1)
    (by norm_num1) (by norm_num1) (by norm_num1) (by norm_num1) (by norm_num1) (by norm_num1)
    (by simp only [sinSum, cosSum, Nat.factorial]; norm_num1)
    (by simp only [sinSum, cosSum, Nat.factorial]; norm_num1)

theorem delta_p113_s :
    0.59074649 ≤ Real.sin (36.21 / 180.0 * Real.pi) ∧
    Real.sin (36.21 / 180.0 * Real.pi) ≤ 0.59074651 :=
  sin_encl 5 (0) (36.21 / 180.0 * Real.pi) 0 (1207 / 6000) 0.63198372 0.000000003 1 0.63198372 0.59074649 0.59074651
    3.1415926535 3.1415926536 pi_gt_d10 pi_lt_d10 (by ring) (by norm_num1)
    (by norm_num1) (by norm_num1) (by norm_num1) (by norm_num1) (by norm_num1) (by norm_num1)
    (by simp only [sinSum, cosSum, Nat.factorial]; norm_num1)
    (by simp only [sinSum, cosSum, Nat.factorial]; norm_num1)

theorem delta_p113_c :
    0.80685721 ≤ Real.cos (36.21 / 180.0 * Real.pi) ∧
    Real.cos (36.21 / 180.0 * Real.pi) ≤ 0.80685723 :=
  cos_encl 5 (0) (36.21 / 180.0 * Real.pi) 0 (1207 / 6000) 0.63198372 0.000000003 1 0.63198372 0.80685721 0.80685723
    3.1415926535 3.1415926536 pi_gt_d10 pi_lt_d10 (by ring) (by norm_num1)
    (by norm_num1) (by norm_num1) (by norm_num1) (by norm_num1) (by norm_num1) (by norm_num1)
    (by simp only [sinSum, cosSum, Nat.factorial]; norm_num1)
    (by simp only [sinSum, cosSum, Nat.factorial]; norm_num1)

/-- Enclosure of `delta` over the reals at `(113, 36.21)`. -/
theorem delta_p113 :
    (113.0064097 ≤ (delta realMath 113 36.21).1 ∧ (delta realMath 113 36.21).1 ≤ 113.00640971) ∧
    (36.20999024 ≤ (delta realMath 113 36.21).2 ∧ (delta realMath 113 36.21).2 ≤ 36.20999025) := by
  have hs1 := delta_p113_s1
  have hs2 := delta_p113_s2
  have hs3 := delta_p113_s3
  have hs4 := delta_p113_s4
  have hs5 := delta_p113_s5
  have hs6 := delta_p113_s6
  have hs7 := delta_p113_s7
  have hs8 := delta_p113_s8
  have hs9 := delta_p113_s9
  have hs10 := delta_p113_s10
  have hq0 : 2.82842712 ≤ Real.sqrt |113 - 105.0| ∧ Real.sqrt |113 - 105.0| ≤ 2.82842713 := by
    rw [abs_of_pos (by norm_num)]
    exact sqrt_encl _ _ _ (by norm_num1) (by norm_num1) (by norm_num1) (by norm_num1)
  have ht := transform_encl (113 - 105.0) (36.21 - 35.0) (-0.00000001) 0.00000001 (-0.00000001) 0.00000001 (-0.61290706) (-0.61290705) 0.95424032 0.95424034 (-0.00000001) 0.00000001 0.8660254 0.86602541 0.31150579 0.3115058 0.12637209 0.12637211 0.8660254 0.86602541 0.74314482 0.74314483 2.82842712 2.82842713
    (-1.08251698) (-1.08251044) 576.39635697 576.39636105
    hs1 hs2 hs3 hs4 hs5 hs6 hs7 hs8 hs9 hs10 hq0
    (by norm_num1) (by norm_num1) (by norm_num1) (by norm_num1)
  have hs := delta_p113_s
  have hc := delta_p113_c
  exact delta_encl 113 36.21 (-1.08251698) (-1.08251044) 576.39635697 576.39636105 0.59074649 0.59074651 0.80685721 0.80685723 0.99766412 0.99766413 0.99883137 0.99883139 16186597.656 16186598.383 19973668.672 19973669.273 113.0064097 113.00640971 36.20999024 36.20999025
    ht.1 ht.2 hs hc (by norm_num1) (by norm_num1) (by simp only [Offset]; norm_num1) (by simp only [Offset]; norm_num1) (by norm_num1) (by norm_num1) (by norm_num1) (by norm_num1) (by norm_num1) (by simp only [Axis]; norm_num1) (by simp only [Axis]; norm_num1) (by norm_num1) (by simp only [Axis, Offset]; norm_num1) (by simp only [Axis, Offset]; norm_num1) (by norm_num1) (by norm_num1) (by norm_num1) (by norm_num1) (by norm_num1) (by norm_num1) (by norm_num1) (by norm_num1) (by norm_num1)

/-- The first output of `transform` is positive on the enclosure of `delta 113 36.21`. -/
theorem transform_g113 (G1 G2 : ℝ) (h1 : 113.0064097 ≤ G1) (h2 : G1 ≤ 113.00640971)
    (h3 : 36.20999024 ≤ G2) (h4 : G2 ≤ 36.20999025) :
    1.074 ≤ (transform realMath (G1 - 105.0) (G2 - 35.0)).1 := by
  have ha1 : 8.0064097 ≤ G1 - 105.0 := by linarith
  have ha2 : G1 - 105.0 ≤ 8.00640971 := by linarith
  have hb1 : 1.20999024 ≤ G2 - 35.0 := by linarith
  have hb2 : G2 - 35.0 ≤ 1.20999025 := by linarith
  have hta := encl_mul_pi (G1 - 105.0) 8.0064097 8.00640971 25.152877895 25.152877927 (by norm_num1) ha1 ha2 (by norm_num1) (by norm_num1)
  have htb := encl_mul_pi (G2 - 35.0) 1.20999024 1.20999025 3.801296448 3.801296481 (by norm_num1) hb1 hb2 (by norm_num1) (by norm_num1)
  have hxs1 := encl_const_mul 6.0 ((G1 - 105.0) * Real.pi) 25.152877895 25.152877927 150.91726737 150.917267562 (by norm_num1) hta (by norm_num1) (by norm_num1)
  have hs1 : 0.1205262 ≤ Real.sin (6.0 * ((G1 - 105.0) * Real.pi)) ∧ Real.sin (6.0 * ((G1 - 105.0) * Real.pi)) ≤ 0.1205265 :=
    sin_encl_iv 3 (48) (6.0 * ((G1 - 105.0) * Real.pi)) 150.91726737 150.917267562 0.1208201 0.00000011 1 0.1208201 0.1205262 0.1205265
      3.14159265358979323846 3.14159265358979323847 pi_ge_d20 pi_le_d20
      hxs1.1
      hxs1.2
      (by norm_num1)
      (by norm_num1) (by norm_num1) (by norm_num1) (by norm_num1) (by norm_num1) (by norm_num1)
      (by simp only [sinSum, cosSum, Nat.factorial]; norm_num1)
      (by simp only [sinSum, cosSum, Nat.factorial]; norm_num1)
  have hxs2 := encl_const_mul 2.0 ((G1 - 105.0) * Real.pi) 25.152877895 25.152877927 50.30575579 50.305755854 (by norm_num1) hta (by norm_num1) (by norm_num1)
  have hs2 : 0.0402624 ≤ Real.sin (2.0 * ((G1 - 105.0) * Real.pi)) ∧ Real.sin (2.0 * ((G1 - 105.0) * Real.pi)) ≤ 0.0402626 :=
    sin_encl_iv 2 (16) (2.0 * ((G1 - 105.0) * Real.pi)) 50.30575579 50.305755854 0.0402734 0.00000007 1 0.0402734 0.0402624 0.0402626
      3.14159265358979323846 3.14159265358979323847 pi_ge_d20 pi_le_d20
      hxs2.1
      hxs2.2
      (by norm_num1)
      (by norm_num1) (by norm_num1) (by norm_num1) (by norm_num1) (by norm_num1) (by norm_num1)
      (by simp only [sinSum, cosSum, Nat.factorial]; norm_num1)
      (by simp only [sinSum, cosSum, Nat.factorial]; norm_num1)
  have hxs3 := htb
  have hs3 : (-0.6128829) ≤ Real.sin ((G2 - 35.0) * Real.pi) ∧ Real.sin ((G2 - 35.0) * Real.pi) ≤ (-0.6128827) :=
    sin_encl_iv 5 (1) ((G2 - 35.0) * Real.pi) 3.801296448 3.801296481 0.6597038 0.00000003 (-1) 0.6597038 (-0.6128829) (-0.6128827)
      3.14159265358979323846 3.14159265358979323847 pi_ge_d20 pi_le_d20
      hxs3.1
      hxs3.2
      (by norm_num1)
      (by norm_num1) (by norm_num1) (by norm_num1) (by norm_num1) (by norm_num1) (by norm_num1)
      (by simp only [sinSum, cosSum, Nat.factorial]; norm_num1)
      (by simp only [sinSum, cosSum, Nat.factorial]; norm_num1)
  have hxs4 := encl_div_const 3.0 ((G2 - 35.0) * Real.pi) 3.801296448 3.801296481 1.267098816 1.267098827 (by norm_num1) htb (by norm_num1) (by norm_num1)
  have hs4 : 0.9542372 ≤ Real.sin ((G2 - 35.0) * Real.pi / 3.0) ∧ Real.sin ((G2 - 35.0) * Real.pi / 3.0) ≤ 0.9542373 :=
    sin_encl_iv 6 (0) ((G2 - 35.0) * Real.pi / 3.0) 1.267098816 1.267098827 1.2670988 0.00000003 1 1.2670988 0.9542372 0.9542373
      3.14159265358979323846 3.14159265358979323847 pi_ge_d20 pi_le_d20
      hxs4.1
      hxs4.2
      (by norm_num1)
      (by norm_num1) (by norm_num1) (by norm_num1) (by norm_num1) (by norm_num1) (by norm_num1)
      (by simp only [sinSum, cosSum, Nat.factorial]; norm_num1)
      (by simp only [sinSum, cosSum, Nat.factorial]; norm_num1)
  have hxs7 := encl_div_const 12.0 ((G2 - 35.0) * Real.pi) 3.801296448 3.801296481 0.316774704 0.3167747068 (by norm_num1) htb (by norm_num1) (by norm_num1)
  have hs7 : 0.3115033 ≤ Real.sin ((G2 - 35.0) * Real.pi / 12.0) ∧ Real.sin ((G2 - 35.0) * Real.pi / 12.0) ≤ 0.3115034 :=
    sin_encl_iv 4 (0) ((G2 - 35.0) * Real.pi / 12.0) 0.316774704 0.3167747068 0.3167747 0.00000001 1 0.3167747 0.3115033 0.3115034
      3.14159265358979323846 3.14159265358979323847 pi_ge_d20 pi_le_d20
      hxs7.1
      hxs7.2
      (by norm_num1)
      (by norm_num1) (by norm_num1) (by norm_num1) (by norm_num1) (by norm_num1) (by norm_num1)
      (by simp only [sinSum, cosSum, Nat.factorial]; norm_num1)
      (by simp only [sinSum, cosSum, Nat.factorial]; norm_num1)
  have hxs8 := encl_div_const 30.0 ((G2 - 35.0) * Real.pi) 3.801296448 3.801296481 0.1267098816 0.1267098827 (by norm_num1) htb (by norm_num1) (by norm_num1)
  have hs8 : 0.126371 ≤ Real.sin ((G2 - 35.0) * Real.pi / 30.0) ∧ Real.sin ((G2 - 35.0) * Real.pi / 30.0) ≤ 0.1263712 :=
    sin_encl_iv 3 (0) ((G2 - 35.0) * Real.pi / 30.0) 0.1267098816 0.1267098827 0.1267099 0.00000002 1 0.1267099 0.126371 0.1263712
      3.14159265358979323846 3.14159265358979323847 pi_ge_d20 pi_le_d20
      hxs8.1
      hxs8.2
      (by norm_num1)
      (by norm_num1) (by norm_num1) (by norm_num1) (by norm_num1) (by norm_num1) (by norm_num1)
      (by simp only [sinSum, cosSum, Nat.factorial]; norm_num1)
      (by simp only [sinSum, cosSum, Nat.factorial]; norm_num1)
  have hq : 2.8295599 ≤ Real.sqrt |G1 - 105.0| := by
    rw [abs_of_nonneg (le_trans (by norm_num1) ha1)]
    exact (sqrt_encl _ 2.8295599 (G1 - 105.0 + 1) (by norm_num1) (by linarith) (le_trans (by norm_num1) ha1)
      (by nlinarith)).1
  exact transform_fst_ge _ _ 8.0064097 1.20999024 0.1205262 0.0402624 (-0.6128829) 0.9542372 0.3115033 0.126371 2.8295599 1.074 ha1 hb1 (by norm_num1) (by norm_num1)
    hs1.1 hs2.1 hs3.1 hs4.1 hs7.1 hs8.1 hq (by norm_num1)

theorem delta_chengdu_s1 :
    0.959937389739 ≤ Real.sin (6.0 * ((104.06826573 - 105.0) * Real.pi)) ∧
    Real.sin (6.0 * ((104.06826573 - 105.0) * Real.pi)) ≤ 0.9599373897392 :=
  sin_encl 9 (-6) (6.0 * ((104.06826573 - 105.0) * Real.pi)) 0 (-5.59040562) 1.2867786951597 0.00000000000004 1 1.2867786951597 0.959937389739 0.9599373897392
    3.14159265358979323846 3.14159265358979323847 pi_ge_d20 pi_le_d20 (by ring) (by norm_num1)
    (by norm_num1) (by norm_num1) (by norm_num1) (by norm_num1) (by norm_num1) (by norm_num1)
    (by simp only [sinSum, cosSum, Nat.factorial]; norm_num1)
    (by simp only [sinSum, cosSum, Nat.factorial]; norm_num1)

theorem delta_chengdu_s2 :
    0.4158945437055 ≤ Real.sin (2.0 * ((104.06826573 - 105.0) * Real.pi)) ∧
    Real.sin (2.0 * ((104.06826573 - 105.0) * Real.pi)) ≤ 0.4158945437057 :=
  sin_encl 6 (-2) (2.0 * ((104.06826573 - 105.0) * Real.pi)) 0 (-1.86346854) 0.4289262317199 0.00000000000002 1 0.4289262317199 0.4158945437055 0.4158945437057
    3.14159265358979323846 3.14159265358979323847 pi_ge_d20 pi_le_d20 (by ring) (by norm_num1)
    (by norm_num1) (by norm_num1) (by norm_num1) (by norm_num1) (by norm_num1) (by norm_num1)
    (by simp only [sinSum, cosSum, Nat.factorial]; norm_num1)
    (by simp only [sinSum, cosSum, Nat.factorial]; norm_num1)

theorem delta_chengdu_s3 :
    (-0.9457961118294) ≤ Real.sin ((30.39471613 - 35.0) * Real.pi) ∧
    Real.sin ((30.39471613 - 35.0) * Real.pi) ≤ (-0.9457961118293) :=
  sin_encl 9 (-5) ((30.39471613 - 35.0) * Real.pi) 0 (-4.60528387) 1.2400372942614 0.00000000000001 (-1) 1.2400372942614 (-0.9457961118294) (-0.9457961118293)
    3.14159265358979323846 3.14159265358979323847 pi_ge_d20 pi_le_d20 (by ring) (by norm_num1)
    (by norm_num1) (by norm_num1) (by norm_num1) (by norm_num1) (by norm_num1) (by norm_num1)
    (by simp only [sinSum, cosSum, Nat.factorial]; norm_num1)
    (by simp only [sinSum, cosSum, Nat.factorial]; norm_num1)

theorem delta_chengdu_s4 :
    0.9939282910425 ≤ Real.sin ((30.39471613 - 35.0) * Real.pi / 3.0) ∧
    Real.sin ((30.39471613 - 35.0) * Real.pi / 3.0) ≤ 0.9939282910427 :=
  sin_encl 10 (-2) ((30.39471613 - 35.0) * Real.pi / 3.0) 0 (-460528387 / 300000000) 1.4605433159504 0.00000000000001 1 1.4605433159504 0.9939282910425 0.9939282910427
    3.14159265358979323846 3.14159265358979323847 pi_ge_d20 pi_le_d20 (by ring) (by norm_num1)
    (by norm_num1) (by norm_num1) (by norm_num1) (by norm_num1) (by norm_num1) (by norm_num1)
    (by simp only [sinSum, cosSum, Nat.factorial]; norm_num1)
    (by simp only [sinSum, cosSum, Nat.factorial]; norm_num1)

theorem delta_chengdu_s5 :
    (-0.2128228744467) ≤ Real.sin ((104.06826573 - 105.0) * Real.pi) ∧
    Real.sin ((104.06826573 - 105.0) * Real.pi) ≤ (-0.2128228744465) :=
  sin_encl 5 (-1) ((104.06826573 - 105.0) * Real.pi) 0 (-0.93173427) 0.2144631158599 0.00000000000005 (-1) 0.2144631158599 (-0.2128228744467) (-0.2128228744465)
    3.14159265358979323846 3.14159265358979323847 pi_ge_d20 pi_le_d20 (by ring) (by norm_num1)
    (by norm_num1) (by norm_num1) (by norm_num1) (by norm_num1) (by norm_num1) (by norm_num1)
    (by simp only [sinSum, cosSum, Nat.factorial]; norm_num1)
    (by simp only [sinSum, cosSum, Nat.factorial]; norm_num1)

theorem delta_chengdu_s6 :
    (-0.8281000224498) ≤ Real.sin ((104.06826573 - 105.0) * Real.pi / 3.0) ∧
    Real.sin ((104.06826573 - 105.0) * Real.pi / 3.0) ≤ (-0.8281000224496) :=
  sin_encl 8 (0) ((104.06826573 - 105.0) * Real.pi / 3.0) 0 (-0.31057809) (-0.9757098459099) 0.00000000000005 1 0.9757098459099 (-0.8281000224498) (-0.8281000224496)
    3.14159265358979323846 3.14159265358979323847 pi_ge_d20 pi_le_d20 (by ring) (by norm_num1)
    (by norm_num1) (by norm_num1) (by norm_num1) (by norm_num1) (by norm_num1) (by norm_num1)
    (by simp only [sinSum, cosSum, Nat.factorial]; norm_num1)
    (by simp only [sinSum, cosSum, Nat.factorial]; norm_num1)

theorem delta_chengdu_s7 :
    (-0.9340752684865) ≤ Real.sin ((30.39471613 - 35.0) * Real.pi / 12.0) ∧
    Real.sin ((30.39471613 - 35.0) * Real.pi / 12.0) ≤ (-0.9340752684864) :=
  sin_encl 9 (0) ((30.39471613 - 35.0) * Real.pi / 12.0) 0 (-460528387 / 1200000000) (-1.2056604978073) 0.00000000000001 1 1.2056604978073 (-0.9340752684865) (-0.9340752684864)
    3.14159265358979323846 3.14159265358979323847 pi_ge_d20 pi_le_d20 (by ring) (by norm_num1)
    (by norm_num1) (by norm_num1) (by norm_num1) (by norm_num1) (by norm_num1) (by norm_num1)
    (by simp only [sinSum, cosSum, Nat.factorial]; norm_num1)
    (by simp only [sinSum, cosSum, Nat.factorial]; norm_num1)

theorem delta_chengdu_s8 :
    (-0.4637863232742) ≤ Real.sin ((30.39471613 - 35.0) * Real.pi / 30.0) ∧
    Real.sin ((30.39471613 - 35.0) * Real.pi / 30.0) ≤ (-0.4637863232741) :=
  sin_encl 7 (0) ((30.39471613 - 35.0) * Real.pi / 30.0) 0 (-460528387 / 3000000000) (-0.4822641991229) 0.00000000000002 1 0.4822641991229 (-0.4637863232742) (-0.4637863232741)
    3.14159265358979323846 3.14159265358979323847 pi_ge_d20 pi_le_d20 (by ring) (by norm_num1)
    (by norm_num1) (by norm_num1) (by norm_num1) (by norm_num1) (by norm_num1) (by norm_num1)
    (by simp only [sinSum, cosSum, Nat.factorial]; norm_num1)
    (by simp only [sinSum, cosSum, Nat.factorial]; norm_num1)

theorem delta_chengdu_s9 :
    (-0.241515675824) ≤ Real.sin ((104.06826573 - 105.0) * Real.pi / 12.0) ∧
    Real.sin ((104.06826573 - 105.0) * Real.pi / 12.0) ≤ (-0.2415156758239) :=
  sin_encl 5 (0) ((104.06826573 - 105.0) * Real.pi / 12.0) 0 (-0.0776445225) (-0.2439274614775) 0.00000000000002 1 0.2439274614775 (-0.241515675824) (-0.2415156758239)
    3.14159265358979323846 3.14159265358979323847 pi_ge_d20 pi_le_d20 (by ring) (by norm_num1)
    (by norm_num1) (by norm_num1) (by norm_num1) (by norm_num1) (by norm_num1) (by norm_num1)
    (by simp only [sinSum, cosSum, Nat.factorial]; norm_num1)
    (by simp only [sinSum, cosSum, Nat.factorial]; norm_num1)

theorem delta_chengdu_s10 :
    (-0.0974162440598) ≤ Real.sin ((104.06826573 - 105.0) * Real.pi / 30.0) ∧
    Real.sin ((104.06826573 - 105.0) * Real.pi / 30.0) ≤ (-0.0974162440597) :=
  sin_encl 4 (0) ((104.06826573 - 105.0) * Real.pi / 30.0) 0 (-0.031057809) (-0.097570984591) 0.00000000000001 1 0.097570984591 (-0.0974162440598) (-0.0974162440597)
    3.14159265358979323846 3.14159265358979323847 pi_ge_d20 pi_le_d20 (by ring) (by norm_num1)
    (by norm_num1) (by norm_num1) (by norm_num1) (by norm_num1) (by norm_num1) (by norm_num1)
    (by simp only [sinSum, cosSum, Nat.factorial]; norm_num1)
    (by simp only [sinSum, cosSum, Nat.factorial]; norm_num1)

theorem delta_chengdu_s :
    0.5059542201577 ≤ Real.sin (30.39471613 / 180.0 * Real.pi) ∧
    Real.sin (30.39471613 / 180.0 * Real.pi) ≤ 0.5059542201579 :=
  sin_encl 7 (0) (30.39471613 / 180.0 * Real.pi) 0 (3039471613 / 18000000000) 0.5304878716775 0.00000000000003 1 0.5304878716775 0.5059542201577 0.5059542201579
    3.14159265358979323846 3.14159265358979323847 pi_ge_d20 pi_le_d20 (by ring) (by norm_num1)
    (by norm_num1) (by norm_num1) (by norm_num1) (by norm_num1) (by norm_num1) (by norm_num1)
    (by simp only [sinSum, cosSum, Nat.factorial]; norm_num1)
    (by simp only [sinSum, cosSum, Nat.factorial]; norm_num1)

theorem delta_chengdu_c :
    0.8625603324431 ≤ Real.cos (30.39471613 / 180.0 * Real.pi) ∧
    Real.cos (30.39471613 / 180.0 * Real.pi) ≤ 0.8625603324433 :=
  cos_encl 6 (0) (30.39471613 / 180.0 * Real.pi) 0 (3039471613 / 18000000000) 0.5304878716775 0.00000000000003 1 0.5304878716775 0.8625603324431 0.8625603324433
    3.14159265358979323846 3.14159265358979323847 pi_ge_d20 pi_le_d20 (by ring) (by norm_num1)
    (by norm_num1) (by norm_num1) (by norm_num1) (by norm_num1) (by norm_num1) (by norm_num1)
    (by simp only [sinSum, cosSum, Nat.factorial]; norm_num1)
    (by simp only [sinSum, cosSum, Nat.factorial]; norm_num1)

/-- Enclosure of `delta` over the reals at `(104.06826573, 30.39471613)`. -/
theorem delta_chengdu :
    (104.0707657299979 ≤ (delta realMath 104.06826573 30.39471613).1 ∧ (delta realMath 104.06826573 30.39471613).1 ≤ 104.0707657299981) ∧
    (30.392216129998 ≤ (delta realMath 104.06826573 30.39471613).2 ∧ (delta realMath 104.06826573 30.39471613).2 ≤ 30.3922161299982) := by
  have hs1 := delta_chengdu_s1
  have hs2 := delta_chengdu_s2
  have hs3 := delta_chengdu_s3
  have hs4 := delta_chengdu_s4
  have hs5 := delta_chengdu_s5
  have hs6 := delta_chengdu_s6
  have hs7 := delta_chengdu_s7
  have hs8 := delta_chengdu_s8
  have hs9 := delta_chengdu_s9
  have hs10 := delta_chengdu_s10
  have hq0 : 0.9652638343996 ≤ Real.sqrt |104.06826573 - 105.0| ∧ Real.sqrt |104.06826573 - 105.0| ≤ 0.9652638343997 := by
    rw [abs_of_neg (by norm_num)]
    exact sqrt_encl _ _ _ (by norm_num1) (by norm_num1) (by norm_num1) (by norm_num1)
  have ht := transform_encl (104.06826573 - 105.0) (30.39471613 - 35.0) 0.959937389739 0.9599373897392 0.4158945437055 0.4158945437057 (-0.9457961118294) (-0.9457961118293) 0.9939282910425 0.9939282910427 (-0.2128228744467) (-0.2128228744465) (-0.8281000224498) (-0.8281000224496) (-0.9340752684865) (-0.9340752684864) (-0.4637863232742) (-0.4637863232741) (-0.241515675824) (-0.2415156758239) (-0.0974162440598) (-0.0974162440597) 0.9652638343996 0.9652638343997
    (-277.1526616190426) (-277.1526616189985) 240.2594311225209 240.2594311225643
    hs1 hs2 hs3 hs4 hs5 hs6 hs7 hs8 hs9 hs10 hq0
    (by norm_num1) (by norm_num1) (by norm_num1) (by norm_num1)
  have hs := delta_chengdu_s
  have hc := delta_chengdu_c
  exact delta_encl 104.06826573 30.39471613 (-277.1526616190426) (-277.1526616189985) 240.2594311225209 240.2594311225643 0.5059542201577 0.5059542201579 0.8625603324431 0.8625603324433 0.9982865531881 0.9982865531882 0.9991429092918 0.9991429092919 17298679.054 17298679.055 19954991.621 19954991.622 104.0707657299979 104.0707657299981 30.392216129998 30.3922161299982
    ht.1 ht.2 hs hc (by norm_num1) (by norm_num1) (by simp only [Offset]; norm_num1) (by simp only [Offset]; norm_num1) (by norm_num1) (by norm_num1) (by norm_num1) (by norm_num1) (by norm_num1) (by simp only [Axis]; norm_num1) (by simp only [Axis]; norm_num1) (by norm_num1) (by simp only [Axis, Offset]; norm_num1) (by simp only [Axis, Offset]; norm_num1) (by norm_num1) (by norm_num1) (by norm_num1) (by norm_num1) (by norm_num1) (by norm_num1) (by norm_num1) (by norm_num1) (by norm_num1)

theorem specInverse_forward_105_0 : specInverse (WGS84toGCJ02 realMath) 105 0 = (105, 0) := by
  have hc : InChina (105 : ℝ) 0 = false := by
    simp only [InChina, decide_eq_false_iff_not]; norm_num
  have e1 : ((105 : ℝ) - 0.01 + (105 + 0.01)) / 2 = 105 := by norm_num
  have e2 : ((0 : ℝ) - 0.01 + (0 + 0.01)) / 2 = 0 := by norm_num
  have hf : WGS84toGCJ02 realMath 105 0 = (105, 0) := by
    simp [WGS84toGCJ02, hc]
  unfold specInverse
  rw [specBisect_stop (WGS84toGCJ02 realMath) 105 0 9999]
  · rw [e1, e2]
  · rw [e1, e2, hf]
    norm_num

theorem delta_105_0 : (delta realMath 105 0).1 - 105 = 230 * 180 / (6378245 * Real.pi) := by
  simp only [delta, transform, realMath, Axis, Offset]
  norm_num

theorem GCJ02toWGS84_105_0_lt : (GCJ02toWGS84 realMath 105 0).1 < 105 := by
  have e1 : ((105 : ℝ) - 0.01 + (105 + 0.01)) / 2 = 105 := by norm_num
  have e2 : ((0 : ℝ) - 0.01 + (0 + 0.01)) / 2 = 0 := by norm_num
  have hpos : (0:ℝ) < 230 * 180 / (6378245 * Real.pi) := by positivity
  have hge : (threshold : ℝ) ≤ 230 * 180 / (6378245 * Real.pi) := by
    rw [le_div_iff₀ (by positivity)]
    have := Real.pi_le_four
    simp only [threshold]
    norm_num
    nlinarith
  -- the first pass does not leave the loop and lowers `plon` to 105
  have hb : ∃ s1, loopBody realMath 105 0 (searchInit 105 0) = (false, s1) ∧ s1.plon = 105 := by
    unfold loopBody searchInit
    simp only [e1, e2, delta_105_0]
    have h1 : ¬ (|(delta realMath 105 0).2 - 0| < threshold ∧
        |(230 * 180 / (6378245 * Real.pi) : ℝ)| < threshold) := by
      rintro ⟨-, h⟩
      rw [abs_of_pos hpos] at h
      exact absurd h (not_lt.mpr hge)
    rw [if_neg h1]
    refine ⟨_, rfl, ?_⟩
    dsimp only
    rw [if_pos]
    exact hpos
  obtain ⟨s1, hs1, hp⟩ := hb
  have h1 : searchAfter realMath 105 0 1 = some s1 := by
    simp only [searchAfter, hs1]
  obtain ⟨j, s0, hj1, -, hs0, e, -⟩ := searchLoop_mid realMath 105 0 9998 1 s1 h1
  have hloop : searchLoop realMath 105 0 (9999 + 1) (searchInit 105 0) =
      searchLoop realMath 105 0 9999 s1 := by
    rw [searchLoop, hs1]
  obtain ⟨d, rfl⟩ := Nat.exists_eq_add_of_le hj1
  obtain ⟨-, n2, -⟩ := searchAfter_nested realMath 105 0 1 s1 h1 d s0 hs0
  obtain ⟨-, -, -, -, -, -, w, -⟩ := searchAfter_inv realMath 105 0 (1 + d) s0 hs0
  have hw : (0 : ℝ) < 0.02 / 2 ^ (1 + d) := div_pos (by norm_num) (pow_pos (by norm_num) _)
  unfold GCJ02toWGS84
  dsimp only
  rw [hloop, e]
  linarith

/-- A nonnegative `e = r²` with `e < 1e-10 + 0.02 e + 0.000004 r` is below `1e-9`. -/
theorem small_of_holder_fixpoint (e r : ℝ) (hr : 0 ≤ r) (hrr : r * r = e)
    (h : e < 1e-10 + 0.02 * e + 0.000004 * r) : e < 1e-9 := by
  by_contra hn
  rw [not_lt] at hn
  have h3 : (0.00003 : ℝ) ≤ r := by
    by_contra h3
    rw [not_le] at h3
    have : r * r ≤ 0.00003 * 0.00003 := mul_le_mul h3.le h3.le hr (by norm_num)
    rw [hrr] at this
    norm_num at this hn
    linarith only [this, hn]
  rw [← hrr] at h hn
  nlinarith only [h, h3, hr, mul_le_mul_of_nonneg_right h3 hr]

/-- Over the reals, a point `(w1, w2)` within `0.01` of `delta (lon, lat)` whose image under
`delta` is within the threshold of `delta (lon, lat)` is within `1e-9` of `(lon, lat)`, for
`(lon, lat)` in the China box. -/
theorem near_of_residual (lon lat w1 w2 : ℝ)
    (hlon : 73.66 < lon ∧ lon < 135.05) (hlat : 3.86 < lat ∧ lat < 53.55)
    (hb1 : |w1 - (delta realMath lon lat).1| < 0.01)
    (hb2 : |w2 - (delta realMath lon lat).2| < 0.01)
    (hr1 : |(delta realMath w1 w2).1 - (delta realMath lon lat).1| < threshold)
    (hr2 : |(delta realMath w1 w2).2 - (delta realMath lon lat).2| < threshold) :
    |w1 - lon| < 1e-9 ∧ |w2 - lat| < 1e-9 := by
  have hx : |lon - 105| ≤ 32 := by
    rw [abs_le]; constructor <;> linarith only [hlon.1, hlon.2]
  have hy : 3 ≤ lat ∧ lat ≤ 60 := ⟨by linarith only [hlat.1], by linarith only [hlat.2]⟩
  obtain ⟨c1, c2⟩ := delta_offset_abs_le lon lat hx hy
  have ht : (threshold : ℝ) = 1e-10 := by norm_num [threshold]
  rw [ht] at hr1 hr2
  generalize hg1 : (delta realMath lon lat).1 = g1 at hb1 hr1 c1
  generalize hg2 : (delta realMath lon lat).2 = g2 at hb2 hr2 c2
  rw [abs_lt] at hb1 hb2
  rw [abs_le] at c1 c2
  have hwx : |w1 - 105| ≤ 32 := by
    rw [abs_le]; constructor <;> linarith only [hlon.1, hlon.2, hb1.1, hb1.2, c1.1, c1.2]
  have hwy : 3 ≤ w2 ∧ w2 ≤ 60 :=
    ⟨by linarith only [hlat.1, hb2.1, c2.1], by linarith only [hlat.2, hb2.2, c2.2]⟩
  have hm1 : |w1 - lon| ≤ max |w1 - lon| |w2 - lat| := le_max_left _ _
  have hm2 : |w2 - lat| ≤ max |w1 - lon| |w2 - lat| := le_max_right _ _
  obtain ⟨o1, o2⟩ := delta_offset_holder w1 w2 lon lat _ hwx hx hwy hy hm1 hm2
  rw [hg1] at o1
  rw [hg2] at o2
  have he0 : 0 ≤ max |w1 - lon| |w2 - lat| := le_trans (abs_nonneg _) hm1
  have hsq := Real.mul_self_sqrt he0
  have hsn := Real.sqrt_nonneg (max |w1 - lon| |w2 - lat|)
  generalize Real.sqrt (max |w1 - lon| |w2 - lat|) = r at o1 o2 hsq hsn
  have k1 : |w1 - lon| < 1e-10 + 0.02 * max |w1 - lon| |w2 - lat| + 0.000004 * r := by
    have e : w1 - lon = ((delta realMath w1 w2).1 - g1) -
        (((delta realMath w1 w2).1 - w1) - (g1 - lon)) := by ring
    have := abs_sub ((delta realMath w1 w2).1 - g1) (((delta realMath w1 w2).1 - w1) - (g1 - lon))
    rw [← e] at this
    linarith only [this, hr1, o1]
  have k2 : |w2 - lat| < 1e-10 + 0.02 * max |w1 - lon| |w2 - lat| + 0.000004 * r := by
    have e : w2 - lat = ((delta realMath w1 w2).2 - g2) -
        (((delta realMath w1 w2).2 - w2) - (g2 - lat)) := by ring
    have := abs_sub ((delta realMath w1 w2).2 - g2) (((delta realMath w1 w2).2 - w2) - (g2 - lat))
    rw [← e] at this
    linarith only [this, hr2, o2]
  have k : max |w1 - lon| |w2 - lat| <
      1e-10 + 0.02 * max |w1 - lon| |w2 - lat| + 0.000004 * r := max_lt k1 k2
  have hsmall := small_of_holder_fixpoint _ r hsn hsq k
  exact ⟨lt_of_le_of_lt hm1 hsmall, lt_of_le_of_lt hm2 hsmall⟩

/-- Over the reals, near a point `(lon, lat)` of the region the map `delta` moves the
difference to `(lon, lat)` by at most `0.02 r² + 0.000004 r`, where `r²` bounds the
difference in each coordinate. -/
theorem delta_sub_near (lon lat x y r : ℝ) (hr : 0 ≤ r) (hx : |x - 105| ≤ 32)
    (hlon : |lon - 105| ≤ 32) (hy : 3 ≤ y ∧ y ≤ 60) (hlat : 3 ≤ lat ∧ lat ≤ 60)
    (h1 : |x - lon| ≤ r * r) (h2 : |y - lat| ≤ r * r) :
    |((delta realMath x y).1 - (delta realMath lon lat).1) - (x - lon)| ≤
      0.02 * (r * r) + 0.000004 * r ∧
    |((delta realMath x y).2 - (delta realMath lon lat).2) - (y - lat)| ≤
      0.02 * (r * r) + 0.000004 * r := by
  obtain ⟨o1, o2⟩ := delta_offset_holder x y lon lat (r * r) hx hlon hy hlat h1 h2
  rw [Real.sqrt_mul_self hr] at o1 o2
  have e1 : ((delta realMath x y).1 - (delta realMath lon lat).1) - (x - lon) =
      ((delta realMath x y).1 - x) - ((delta realMath lon lat).1 - lon) := by ring
  have e2 : ((delta realMath x y).2 - (delta realMath lon lat).2) - (y - lat) =
      ((delta realMath x y).2 - y) - ((delta realMath lon lat).2 - lat) := by ring
  rw [e1, e2]
  exact ⟨o1, o2⟩

/-- The search for `delta (104.06826573, 30.39471613)` leaves its loop through the
tolerance test, in its third pass. -/
theorem searchAfter_chengdu :
    searchAfter realMath (delta realMath 104.06826573 30.39471613).1
      (delta realMath 104.06826573 30.39471613).2 10000 = none := by
  obtain ⟨⟨a1, a2⟩, a3, a4⟩ := delta_chengdu
  have hP1 : |(104.06826573 : ℝ) - 105| ≤ 32 := by rw [abs_le]; constructor <;> norm_num
  have hP2 : (3 : ℝ) ≤ 30.39471613 ∧ (30.39471613 : ℝ) ≤ 60 := by constructor <;> norm_num
  have ht : (threshold : ℝ) = 1e-10 := by norm_num [threshold]
  have n1 := delta_sub_near 104.06826573 30.39471613 (delta realMath 104.06826573 30.39471613).1
    (delta realMath 104.06826573 30.39471613).2 0.06 (by norm_num)
    (by rw [abs_le]; constructor <;> linarith only [a1, a2]) hP1
    ⟨by linarith only [a3], by linarith only [a4]⟩ hP2
    (by rw [abs_le]; constructor <;> linarith only [a1, a2])
    (by rw [abs_le]; constructor <;> linarith only [a3, a4])
  have n2 := delta_sub_near 104.06826573 30.39471613
    ((delta realMath 104.06826573 30.39471613).1 - 0.005)
    ((delta realMath 104.06826573 30.39471613).2 + 0.005) 0.06 (by norm_num)
    (by rw [abs_le]; constructor <;> linarith only [a1, a2]) hP1
    ⟨by linarith only [a3], by linarith only [a4]⟩ hP2
    (by rw [abs_le]; constructor <;> linarith only [a1, a2])
    (by rw [abs_le]; constructor <;> linarith only [a3, a4])
  have n3 := delta_sub_near 104.06826573 30.39471613
    ((delta realMath 104.06826573 30.39471613).1 - 0.0025)
    ((delta realMath 104.06826573 30.39471613).2 + 0.0025) 0.000005 (by norm_num)
    (by rw [abs_le]; constructor <;> linarith only [a1, a2]) hP1
    ⟨by linarith only [a3], by linarith only [a4]⟩ hP2
    (by rw [abs_le]; constructor <;> linarith only [a1, a2])
    (by rw [abs_le]; constructor <;> linarith only [a3, a4])
  generalize (delta realMath 104.06826573 30.39471613).1 = g1 at a1 a2 n1 n2 n3 ⊢
  generalize (delta realMath 104.06826573 30.39471613).2 = g2 at a3 a4 n1 n2 n3 ⊢
  obtain ⟨n1a, n1b⟩ := n1
  obtain ⟨n2a, n2b⟩ := n2
  obtain ⟨n3a, n3b⟩ := n3
  rw [abs_le] at n1a n1b n2a n2b n3a n3b
  apply searchAfter_three_pass
  · rw [ht]; linarith only [n1a.1, a1]
  · linarith only [n1b.2, a4]
  · linarith only [n2a.2, a2]
  · rw [ht]; linarith only [n2b.1, a3]
  · rw [ht, abs_lt, abs_lt]
    exact ⟨⟨by linarith only [n3b.1, a3], by linarith only [n3b.2, a4]⟩,
      by linarith only [n3a.1, a1], by linarith only [n3a.2, a2]⟩

/-! ## The claims -/

section Claims

variable {F : Type} [LinearOrderedField F]

theorem roundtrip_of_tolerance_exit (lon lat : ℝ) (h : InChina lon lat = true)
    (hexit : searchAfter realMath (WGS84toGCJ02 realMath lon lat).1
      (WGS84toGCJ02 realMath lon lat).2 10000 = none) :
    |(GCJ02toWGS84 realMath (WGS84toGCJ02 realMath lon lat).1
        (WGS84toGCJ02 realMath lon lat).2).1 - lon| < 1e-9 ∧
    |(GCJ02toWGS84 realMath (WGS84toGCJ02 realMath lon lat).1
        (WGS84toGCJ02 realMath lon lat).2).2 - lat| < 1e-9 := by
  obtain ⟨hlon, hlat⟩ := (InChina_true_iff lon lat).1 h
  rw [WGS84toGCJ02_inside realMath lon lat h] at hexit ⊢
  obtain ⟨j, s0, -, -, hs0, e1, e2⟩ := searchLoop_mid realMath (delta realMath lon lat).1
    (delta realMath lon lat).2 9999 0 (searchInit _ _) rfl
  obtain ⟨i1, i2, i3, i4, i5, i6, i7, i8⟩ := searchAfter_inv realMath _ _ j s0 hs0
  have hw : (0 : ℝ) < 0.02 / 2 ^ j := div_pos (by norm_num) (pow_pos (by norm_num) j)
  obtain ⟨r1, r2⟩ := searchLoop_break realMath (delta realMath lon lat).1
    (delta realMath lon lat).2 10000 0 (searchInit _ _) rfl (by rw [Nat.zero_add]; exact hexit)
  have hb1 : |(searchLoop realMath (delta realMath lon lat).1 (delta realMath lon lat).2 10000
      (searchInit (delta realMath lon lat).1 (delta realMath lon lat).2)).wgsLon -
      (delta realMath lon lat).1| < 0.01 := by
    rw [e1, abs_lt]
    constructor <;> linarith only [i1, i3, i4, i7, hw]
  have hb2 : |(searchLoop realMath (delta realMath lon lat).1 (delta realMath lon lat).2 10000
      (searchInit (delta realMath lon lat).1 (delta realMath lon lat).2)).wgsLat -
      (delta realMath lon lat).2| < 0.01 := by
    rw [e2, abs_lt]
    constructor <;> linarith only [i2, i5, i6, i8, hw]
  exact near_of_residual lon lat _ _ hlon hlat hb1 hb2 r1 r2

/-- Witness for C1, amended, at the point `(104.06826573, 30.39471613)`, near Chengdu: the
point lies in the China box and the search leaves its loop through the tolerance test. -/
theorem roundtrip_of_tolerance_exit_witness :
    InChina (104.06826573 : ℝ) 30.39471613 = true ∧
    searchAfter realMath (WGS84toGCJ02 realMath 104.06826573 30.39471613).1
      (WGS84toGCJ02 realMath 104.06826573 30.39471613).2 10000 = none ∧
    |(GCJ02toWGS84 realMath (WGS84toGCJ02 realMath 104.06826573 30.39471613).1
        (WGS84toGCJ02 realMath 104.06826573 30.39471613).2).1 - 104.06826573| < 1e-9 ∧
    |(GCJ02toWGS84 realMath (WGS84toGCJ02 realMath 104.06826573 30.39471613).1
        (WGS84toGCJ02 realMath 104.06826573 30.39471613).2).2 - 30.39471613| < 1e-9 :=
  have hin : InChina (104.06826573 : ℝ) 30.39471613 = true :=
    (InChina_true_iff _ _).2 (by norm_num)
  have hexit : searchAfter realMath (WGS84toGCJ02 realMath 104.06826573 30.39471613).1
      (WGS84toGCJ02 realMath 104.06826573 30.39471613).2 10000 = none := by
    rw [WGS84toGCJ02_inside realMath _ _ hin]
    exact searchAfter_chengdu
  ⟨hin, hexit, roundtrip_of_tolerance_exit 104.06826573 30.39471613 hin hexit⟩

/-- C1, counterexample: `(113, 36.21)` lies in the China box, and the latitude returned by
`GCJ02toWGS84 (WGS84toGCJ02 113 36.21)` is more than `9e-6` degrees away from `36.21`, far
more than `1e-9`.  At the first midpoint, the GCJ02 point itself, the latitude residual is
positive although the WGS84 latitude lies above it, so the search box loses the root. -/
theorem roundtrip_fails_at_113_36_21 :
    InChina (113 : ℝ) 36.21 = true ∧
    9e-6 ≤ |(GCJ02toWGS84 realMath (WGS84toGCJ02 realMath 113 36.21).1
        (WGS84toGCJ02 realMath 113 36.21).2).2 - 36.21| := by
  have hin : InChina (113 : ℝ) 36.21 = true := (InChina_true_iff _ _).2 (by norm_num)
  refine ⟨hin, ?_⟩
  rw [WGS84toGCJ02_inside realMath 113 36.21 hin]
  obtain ⟨⟨a1, a2⟩, a3, a4⟩ := delta_p113
  have hx := transform_g113 _ _ a1 a2 a3 a4
  have hpos : 0 < (transform realMath ((delta realMath 113 36.21).1 - 105.0)
      ((delta realMath 113 36.21).2 - 35.0)).1 := lt_of_lt_of_le (by norm_num) hx
  have hle := GCJ02toWGS84_snd_le realMath _ _ (delta_snd_sub_pos _ _ hpos)
  generalize (GCJ02toWGS84 realMath (delta realMath 113 36.21).1 (delta realMath 113 36.21).2).2 = w
    at hle
  generalize (delta realMath 113 36.21).2 = g at hle a4
  rw [abs_of_nonpos (by linarith only [hle, a4])]
  linarith only [hle, a4]

/-- C2: outside the China box (`lon ≤ 73.66`, `lon ≥ 135.05`, `lat ≤ 3.86` or
`lat ≥ 53.55`) `WGS84toGCJ02` returns its input unchanged. -/
theorem WGS84toGCJ02_outside (m : MathLib F) (lon lat : F)
    (h : lon ≤ 73.66 ∨ lon ≥ 135.05 ∨ lat ≤ 3.86 ∨ lat ≥ 53.55) :
    WGS84toGCJ02 m lon lat = (lon, lat) := by
  have hc : InChina lon lat = false := by
    simp only [InChina, decide_eq_false_iff_not]
    rintro ⟨⟨a, b⟩, c, d⟩
    rcases h with h | h | h | h
    · exact absurd a (not_lt.mpr h)
    · exact absurd b (not_lt.mpr h)
    · exact absurd c (not_lt.mpr h)
    · exact absurd d (not_lt.mpr h)
  simp [WGS84toGCJ02, hc]

/-- Witness for C2 at the point `(0, 0)`. -/
theorem WGS84toGCJ02_outside_witness :
    ((0 : ℝ) ≤ 73.66 ∨ (0 : ℝ) ≥ 135.05 ∨ (0 : ℝ) ≤ 3.86 ∨ (0 : ℝ) ≥ 53.55) ∧
      WGS84toGCJ02 realMath 0 0 = (0, 0) :=
  ⟨Or.inl (by norm_num), WGS84toGCJ02_outside realMath 0 0 (Or.inl (by norm_num))⟩

theorem InChina_iff (lon lat : F) :
    (InChina lon lat = true ↔ (73.66 < lon ∧ lon < 135.05) ∧ (3.86 < lat ∧ lat < 53.55)) ∧
    InChina (73.66 : F) 30.0 = false ∧ InChina (73.661 : F) 30.0 = true := by
  refine ⟨by simp [InChina], ?_, ?_⟩
  · simp only [InChina, decide_eq_false_iff_not]; norm_num
  · simp only [InChina, decide_eq_true_eq]; norm_num

/-- C4: `Transformation` returns the original coordinate first, followed for tag
`GCJ02` by the `BD09` and `WGS84` images, for tag `BD09` by the `GCJ02` image and the
`WGS84` image of that, for tag `WGS84` by the `GCJ02` image and the `BD09` image of
that, and by nothing for any other tag; the result has length 3 for the three known
tags and length 1 otherwise; at `(116.404, 39.915)` with tag `GCJ02` the tags are
`GCJ02`, `BD09`, `WGS84` in that order. -/
theorem Transformation_cases (m : MathLib F) (tag : String) (lon lat : F) :
    Coord.Transformation m ⟨tag, lon, lat⟩ =
      (if tag = "GCJ02" then
        [⟨tag, lon, lat⟩,
         ⟨"BD09", (GCJ02toBD09 m lon lat).1, (GCJ02toBD09 m lon lat).2⟩,
         ⟨"WGS84", (GCJ02toWGS84 m lon lat).1, (GCJ02toWGS84 m lon lat).2⟩]
      else if tag = "BD09" then
        [⟨tag, lon, lat⟩,
         ⟨"GCJ02", (BD09toGCJ02 m lon lat).1, (BD09toGCJ02 m lon lat).2⟩,
         ⟨"WGS84", (GCJ02toWGS84 m (BD09toGCJ02 m lon lat).1 (BD09toGCJ02 m lon lat).2).1,
           (GCJ02toWGS84 m (BD09toGCJ02 m lon lat).1 (BD09toGCJ02 m lon lat).2).2⟩]
      else if tag = "WGS84" then
        [⟨tag, lon, lat⟩,
         ⟨"GCJ02", (WGS84toGCJ02 m lon lat).1, (WGS84toGCJ02 m lon lat).2⟩,
         ⟨"BD09", (GCJ02toBD09 m (WGS84toGCJ02 m lon lat).1 (WGS84toGCJ02 m lon lat).2).1,
           (GCJ02toBD09 m (WGS84toGCJ02 m lon lat).1 (WGS84toGCJ02 m lon lat).2).2⟩]
      else [⟨tag, lon, lat⟩]) ∧
    ((Coord.Transformation m ⟨tag, lon, lat⟩).length =
      if tag = "GCJ02" ∨ tag = "BD09" ∨ tag = "WGS84" then 3 else 1) ∧
    (Coord.Transformation m ⟨"GCJ02", (116.404 : F), (39.915 : F)⟩).map Coord.System =
      ["GCJ02", "BD09", "WGS84"] := by
  refine ⟨?_, ?_, ?_⟩
  · unfold Coord.Transformation
    dsimp only
    split_ifs <;> rfl
  · unfold Coord.Transformation
    dsimp only
    by_cases h1 : tag = "GCJ02"
    · simp [h1]
    · by_cases h2 : tag = "BD09"
      · simp [h2]
      · by_cases h3 : tag = "WGS84"
        · simp [h3]
        · simp [h1, h2, h3]
  · simp [Coord.Transformation]

/-- C5, amended: for every point of the China box each component of
`BD09toGCJ02 (GCJ02toBD09 lon lat)` differs from the corresponding component of
`(lon, lat)` by less than `5e-6` degrees; at `(116.404, 39.915)` by less than `1e-6`. -/
theorem BD09_near_inverse :
    (∀ lon lat : ℝ, InChina lon lat = true →
      |(BD09toGCJ02 realMath (GCJ02toBD09 realMath lon lat).1
          (GCJ02toBD09 realMath lon lat).2).1 - lon| < 5e-6 ∧
      |(BD09toGCJ02 realMath (GCJ02toBD09 realMath lon lat).1
          (GCJ02toBD09 realMath lon lat).2).2 - lat| < 5e-6) ∧
    (|(BD09toGCJ02 realMath (GCJ02toBD09 realMath 116.404 39.915).1
          (GCJ02toBD09 realMath 116.404 39.915).2).1 - 116.404| < 1e-6 ∧
      |(BD09toGCJ02 realMath (GCJ02toBD09 realMath 116.404 39.915).1
          (GCJ02toBD09 realMath 116.404 39.915).2).2 - 39.915| < 1e-6) := by
  constructor
  · intro lon lat h
    obtain ⟨⟨h1, h2⟩, h3, h4⟩ := (InChina_true_iff lon lat).1 h
    exact BD09_roundtrip_bound lon lat h1 h2 h3 h4
  · obtain ⟨⟨a1, a2⟩, a3, a4⟩ := bd09_beijing
    generalize (BD09toGCJ02 realMath (GCJ02toBD09 realMath 116.404 39.915).1
      (GCJ02toBD09 realMath 116.404 39.915).2).1 = x at a1 a2 ⊢
    generalize (BD09toGCJ02 realMath (GCJ02toBD09 realMath 116.404 39.915).1
      (GCJ02toBD09 realMath 116.404 39.915).2).2 = y at a3 a4 ⊢
    constructor <;> rw [abs_lt] <;> constructor <;> linarith only [a1, a2, a3, a4]

/-- Witness for C5, amended, at the point `(126.7, 45.8)`. -/
theorem BD09_near_inverse_witness :
    InChina (126.7 : ℝ) 45.8 = true ∧
    |(BD09toGCJ02 realMath (GCJ02toBD09 realMath 126.7 45.8).1
        (GCJ02toBD09 realMath 126.7 45.8).2).2 - 45.8| < 5e-6 :=
  ⟨(InChina_true_iff _ _).2 (by norm_num),
    (BD09_near_inverse.1 126.7 45.8 ((InChina_true_iff _ _).2 (by norm_num))).2⟩

/-- C5, counterexample: `(126.7, 45.8)`, in Harbin, lies in the China box, and the
latitude of `BD09toGCJ02 (GCJ02toBD09 126.7 45.8)` is more than `1.4e-6` degrees away
from `45.8`. -/
theorem BD09_near_inverse_fails_at_harbin :
    InChina (126.7 : ℝ) 45.8 = true ∧
    1.4e-6 ≤ |(BD09toGCJ02 realMath (GCJ02toBD09 realMath 126.7 45.8).1
        (GCJ02toBD09 realMath 126.7 45.8).2).2 - 45.8| := by
  refine ⟨(InChina_true_iff _ _).2 (by norm_num), ?_⟩
  obtain ⟨-, a3, a4⟩ := bd09_harbin
  generalize (BD09toGCJ02 realMath (GCJ02toBD09 realMath 126.7 45.8).1
    (GCJ02toBD09 realMath 126.7 45.8).2).2 = y at a3 a4 ⊢
  rw [abs_of_nonneg (by linarith only [a3])]
  linarith only [a3]

/-- C6, amended: `WGS84toGCJ02 116.403988 39.914957` is within `1e-5` of
`(116.410232, 39.916361)` in each component. -/
theorem WGS84toGCJ02_reference :
    |(WGS84toGCJ02 realMath 116.403988 39.914957).1 - 116.410232| < 1e-5 ∧
    |(WGS84toGCJ02 realMath 116.403988 39.914957).2 - 39.916361| < 1e-5 := by
  rw [WGS84toGCJ02_inside realMath _ _ ((InChina_true_iff _ _).2 (by norm_num))]
  obtain ⟨⟨a1, a2⟩, a3, a4⟩ := delta_ref
  generalize (delta realMath 116.403988 39.914957).1 = x at a1 a2 ⊢
  generalize (delta realMath 116.403988 39.914957).2 = y at a3 a4 ⊢
  constructor <;> rw [abs_lt] <;> constructor <;> linarith only [a1, a2, a3, a4]

/-- C6, counterexample: both components of `WGS84toGCJ02 116.403988 39.914957` differ
from the reference `(116.410321, 39.916470)` by more than `8e-5`, hence by more than the
`1e-5` of the claim. -/
theorem WGS84toGCJ02_reference_off :
    8e-5 ≤ |(WGS84toGCJ02 realMath 116.403988 39.914957).1 - 116.410321| ∧
    8e-5 ≤ |(WGS84toGCJ02 realMath 116.403988 39.914957).2 - 39.916470| := by
  rw [WGS84toGCJ02_inside realMath _ _ ((InChina_true_iff _ _).2 (by norm_num))]
  obtain ⟨⟨a1, a2⟩, a3, a4⟩ := delta_ref
  generalize (delta realMath 116.403988 39.914957).1 = x at a1 a2 ⊢
  generalize (delta realMath 116.403988 39.914957).2 = y at a3 a4 ⊢
  constructor
  · rw [abs_of_nonpos (by linarith only [a2])]
    linarith only [a2]
  · rw [abs_of_nonpos (by linarith only [a4])]
    linarith only [a4]

/-- C7, amended: `GCJ02toBD09 116.410321 39.916470` is within `1e-5` of
`(116.416704, 39.922765)` in each component. -/
theorem GCJ02toBD09_reference :
    |(GCJ02toBD09 realMath 116.410321 39.916470).1 - 116.416704| < 1e-5 ∧
    |(GCJ02toBD09 realMath 116.410321 39.916470).2 - 39.922765| < 1e-5 := by
  obtain ⟨⟨a1, a2⟩, a3, a4⟩ := bd09_ref
  generalize (GCJ02toBD09 realMath 116.410321 39.916470).1 = x at a1 a2 ⊢
  generalize (GCJ02toBD09 realMath 116.410321 39.916470).2 = y at a3 a4 ⊢
  constructor <;> rw [abs_lt] <;> constructor <;> linarith only [a1, a2, a3, a4]

/-- C7, counterexample: both components of `GCJ02toBD09 116.410321 39.916470` differ
from the reference `(116.416785, 39.922850)` by more than `8e-5`, hence by more than the
`1e-5` of the claim. -/
theorem GCJ02toBD09_reference_off :
    8e-5 ≤ |(GCJ02toBD09 realMath 116.410321 39.916470).1 - 116.416785| ∧
    8e-5 ≤ |(GCJ02toBD09 realMath 116.410321 39.916470).2 - 39.922850| := by
  obtain ⟨⟨a1, a2⟩, a3, a4⟩ := bd09_ref
  generalize (GCJ02toBD09 realMath 116.410321 39.916470).1 = x at a1 a2 ⊢
  generalize (GCJ02toBD09 realMath 116.410321 39.916470).2 = y at a3 a4 ⊢
  constructor
  · rw [abs_of_nonpos (by linarith only [a2])]
    linarith only [a2]
  · rw [abs_of_nonpos (by linarith only [a4])]
    linarith only [a4]

/-- C9, amended: `GCJ02toWGS84` is the bisection of section 4.4 of the specification
run with `delta` as the forward map, the offset model without the China-bounds check. -/
theorem GCJ02toWGS84_eq_specInverse_delta (m : MathLib F) (lon lat : F) :
    GCJ02toWGS84 m lon lat = specInverse (delta m) lon lat := by
  unfold GCJ02toWGS84 specInverse
  exact searchLoop_eq_specBisect m lon lat 9999 (searchInit lon lat)

/-- C9, counterexample: at `(105, 0)` the code does not return what the bisection of
section 4.4 returns when `WGS84toGCJ02` is the forward map.  The first midpoint is
`(105, 0)`, outside China; `WGS84toGCJ02` leaves it unchanged and the search of the
specification stops there, while the code compares `delta 105 0` with the target. -/
theorem GCJ02toWGS84_ne_specInverse_forward :
    GCJ02toWGS84 realMath 105 0 ≠ specInverse (WGS84toGCJ02 realMath) 105 0 := by
  intro h
  have h1 := GCJ02toWGS84_105_0_lt
  rw [h, specInverse_forward_105_0] at h1
  exact lt_irrefl _ h1

end Claims

end GoCoord
